import Mathlib

/-!
# LED ring controller (`led_controller.c`): embedding and verified properties

The C translation unit keeps all of its state in file-level statics
(`led_ctrl`, `pixel_buffer`, `tdd_driver_initialized`, `tdd_pixel_handle`).
The embedding threads one record holding those statics through every function.
Machine integers are naturals; every `uint8_t` / `uint16_t` increment of the
source is followed by an explicit reduction modulo `2^8` / `2^16`.
-/

namespace Ws2812

/-! ## Constants of `led_controller.h` -/

/-- Number of pixels on the ring (`#define WS2812_LED_COUNT 12`). -/
abbrev WS2812_LED_COUNT : Nat := 12

def INIT_RED_TIME : Nat := 1000
def INIT_GREEN_TIME : Nat := 1000
def INIT_BLUE_TIME : Nat := 1000
def CONFIG_SUCCESS_TIMEOUT : Nat := 2000
def VOLUME_DISPLAY_TIMEOUT : Nat := 2000
def DIALOG_TOTAL_TIME : Nat := 5000
def DIALOG_LIGHT_ON_TIME : Nat := 100
def DIALOG_LIGHT_OFF_TIME : Nat := 150

/-- The macro `DIALOG_TOTAL_TIME / (DIALOG_LIGHT_ON_TIME + DIALOG_LIGHT_OFF_TIME)`
(C integer division). -/
def DIALOG_BLINK_COUNT : Nat :=
  DIALOG_TOTAL_TIME / (DIALOG_LIGHT_ON_TIME + DIALOG_LIGHT_OFF_TIME)

def BREATH_TIMER_INTERVAL : Nat := 10
def BREATH_TABLE_SIZE : Nat := 256
def CONFIGURING_BLINK_ON_TIME : Nat := 250
def CONFIGURING_BLINK_OFF_TIME : Nat := 250
def CONFIG_SUCCESS_STEP_INTERVAL : Nat := 200
def CONFIG_SUCCESS_HOLD_TIME : Nat := 2000
def WAKE_BLINK_INTERVAL : Nat := 200
def WAKE_BLINK_TIMES : Nat := 2
def WAKE_HOLD_TIME : Nat := 12000
def STANDBY_STEP_INTERVAL : Nat := 250

/-- The enum `LedState` of `led_controller.h`, in declaration order
(`LED_INIT` has the numeric value 0). -/
inductive LedState where
  | LED_INIT
  | LED_IDLE
  | LED_CONFIGURING
  | LED_CONFIG_SUCCESS
  | LED_NET_ERROR
  | LED_DIALOG
  | LED_VOLUME
  | LED_BREATHING
  | LED_WAKE
  | LED_STANDBY
  deriving DecidableEq, Repr

open LedState

/-- Return codes used by the pixel helpers of `led_controller.c`. -/
inductive OPERATE_RET where
  | OPRT_OK
  | OPRT_INVALID_PARM
  | OPRT_RESOURCE_NOT_READY
  | OPRT_COM_ERROR
  deriving DecidableEq, Repr

open OPERATE_RET

/-! ## Constants of `led_controller.c` -/

/-- The struct `RGBColor`. -/
structure RGBColor where
  r : Nat
  g : Nat
  b : Nat
  deriving DecidableEq, Repr

def COLOR_BLACK : RGBColor := { r := 0, g := 0, b := 0 }
def COLOR_RED : RGBColor := { r := 255, g := 0, b := 0 }
def COLOR_GREEN : RGBColor := { r := 0, g := 255, b := 0 }
def COLOR_BLUE : RGBColor := { r := 0, g := 0, b := 255 }
def COLOR_YELLOW : RGBColor := { r := 255, g := 255, b := 0 }

/-- The table `LED_ORDER[WS2812_LED_COUNT]`. -/
def LED_ORDER : List Nat := [8, 7, 6, 5, 4, 3, 2, 1, 0, 11, 10, 9]

/-- The table `BREATH_BRIGHTNESS_TABLE[BREATH_TABLE_SIZE]`. -/
def BREATH_BRIGHTNESS_TABLE : List Nat :=
  [0,   0,   0,   0,   0,   0,   0,   0,   0,   0,   0,   1,   1,   1,   1,   1,
   1,   1,   2,   2,   2,   2,   2,   3,   3,   3,   4,   4,   5,   5,   6,   6,
   7,   7,   8,   8,   9,   10,  11,  12,  13,  14,  15,  16,  17,  18,  20,  21,
   23,  24,  26,  27,  29,  31,  33,  35,  37,  39,  42,  44,  47,  49,  52,  55,
   58,  61,  64,  67,  71,  74,  78,  82,  86,  90,  94,  98,  103, 107, 112, 117,
   122, 127, 132, 138, 143, 149, 155, 161, 167, 174, 180, 187, 194, 201, 208, 215,
   223, 230, 238, 246, 254, 255, 255, 255, 255, 255, 255, 255, 255, 255, 255, 255,
   255, 255, 255, 255, 255, 255, 255, 255, 255, 255, 255, 255, 255, 255, 255, 255,
   255, 255, 255, 255, 255, 255, 255, 255, 255, 255, 255, 255, 255, 255, 255, 255,
   255, 255, 255, 255, 255, 255, 255, 255, 255, 255, 255, 254, 246, 238, 230, 223,
   215, 208, 201, 194, 187, 180, 174, 167, 161, 155, 149, 143, 138, 132, 127, 122,
   117, 112, 107, 103, 98,  94,  90,  86,  82,  78,  74,  71,  67,  64,  61,  58,
   55,  52,  49,  47,  44,  42,  39,  37,  35,  33,  31,  29,  27,  26,  24,  23,
   21,  20,  18,  17,  16,  15,  14,  13,  12,  11,  10,  9,   8,   8,   7,   7,
   6,   6,   5,   5,   4,   4,   3,   3,   3,   2,   2,   2,   2,   2,   1,   1,
   1,   1,   1,   1,   1,   0,   0,   0,   0,   0,   0,   0,   0,   0,   0,   0]

/-! ## State -/

/-- The array `unsigned short pixel_buffer[WS2812_LED_COUNT * 3]`: a C array has a
fixed number of cells, so the length is part of the type. -/
abbrev PixelBuffer : Type := { l : List Nat // l.length = WS2812_LED_COUNT * 3 }

/-- The assignment `pixel_buffer[i] = v`. -/
def PixelBuffer.write (buf : PixelBuffer) (i v : Nat) : PixelBuffer :=
  ⟨buf.val.set i v, by rw [List.length_set]; exact buf.property⟩

/-- The value `pixel_buffer[i]`. -/
def PixelBuffer.read (buf : PixelBuffer) (i : Nat) : Nat :=
  buf.val.getD i 0

/-- The buffer after `memset(pixel_buffer, 0, sizeof(pixel_buffer))`. -/
def PixelBuffer.zero : PixelBuffer :=
  ⟨List.replicate (WS2812_LED_COUNT * 3) 0, by simp⟩

/-- The union `state_data` of `LedController`, one field per member of each
variant.  The source zeroes the whole union (`cleanup_current_state`) before a
state is entered, and every branch of `main_timer_cb` reads and writes only the
variant of the current state, so no read observes bytes written through another
variant; the overlap of the variants in memory is therefore not represented. -/
structure StateData where
  init_step : Nat
  breath_index : Nat
  blink_is_light_on : Bool
  blink_blink_count : Nat
  cfgsucc_target_level : Nat
  cfgsucc_current_count : Nat
  cfgsucc_hold_phase : Bool
  standby_index : Nat
  wake_completed_toggles : Nat
  wake_in_solid_phase : Bool
  wake_is_light_on : Bool
  deriving DecidableEq, Repr

/-- The union after `memset(&led_ctrl.state_data, 0, sizeof(led_ctrl.state_data))`. -/
def StateData.zero : StateData :=
  { init_step := 0, breath_index := 0, blink_is_light_on := false, blink_blink_count := 0,
    cfgsucc_target_level := 0, cfgsucc_current_count := 0, cfgsucc_hold_phase := false,
    standby_index := 0, wake_completed_toggles := 0, wake_in_solid_phase := false,
    wake_is_light_on := false }

/-- The statics of `led_controller.c`: the fields of `led_ctrl` (struct
`LedController`) followed by the driver statics.  `main_timer` stands for the
one-shot timer behind the handle `led_ctrl.main_timer`: `none` when it is not
armed, `some ms` when it is armed to fire after `ms` milliseconds.
`tdd_pixel_handle` records whether the handle is non-NULL. -/
structure LedController where
  current_state : LedState
  pending_state : LedState
  pending_value : Nat
  has_pending_state : Bool
  state_data : StateData
  main_timer : Option Nat
  tdd_pixel_handle : Bool
  pixel_buffer : PixelBuffer
  tdd_driver_initialized : Bool
  deriving DecidableEq

/-! ## Timer service -/

/-- Modelled from the spec: `tal_sw_timer_start(led_ctrl.main_timer, ms, TAL_TIMER_ONCE)`
of the external software-timer service (section 4.3: `start(timeout_ms)` arms the
one-shot timer; re-arming replaces the current schedule).  The call is taken to
succeed; its return value is ignored by every caller.  The handle is taken to
exist: `led_controller_init` creates it once `tdd_pixel_init` has succeeded, so
this holds in every state reached after a successful init (`Live` below). -/
def tal_sw_timer_start (ms : Nat) (c : LedController) : LedController :=
  { c with main_timer := some ms }

/-- Modelled from the spec: `tal_sw_timer_stop(led_ctrl.main_timer)` of the external
software-timer service (section 4.3: `stop()` is idempotent and safe on an unarmed
timer). -/
def tal_sw_timer_stop (c : LedController) : LedController :=
  { c with main_timer := none }

/-! ## Pixel helpers -/

/-- The function `tdd_pixel_set_pixel`. -/
def tdd_pixel_set_pixel (index red green blue : Nat) (c : LedController) :
    OPERATE_RET × LedController :=
  if c.tdd_driver_initialized = false ∨ index ≥ WS2812_LED_COUNT then
    (OPRT_INVALID_PARM, c)
  else
    let buf := c.pixel_buffer.write (index * 3 + 0) green
    let buf := buf.write (index * 3 + 1) red
    let buf := buf.write (index * 3 + 2) blue
    (OPRT_OK, { c with pixel_buffer := buf })

/-- The function `tdd_pixel_set_all`: the loop `for (i = 0; i < WS2812_LED_COUNT; i++)`
discarding the status of each `tdd_pixel_set_pixel`. -/
def tdd_pixel_set_all (red green blue : Nat) (c : LedController) :
    OPERATE_RET × LedController :=
  if c.tdd_driver_initialized = false then
    (OPRT_INVALID_PARM, c)
  else
    (OPRT_OK,
      (List.range WS2812_LED_COUNT).foldl
        (fun acc i => (tdd_pixel_set_pixel i red green blue acc).2) c)

/-- The function `tdd_pixel_refresh`.  The transmission performed by the external
`tdd_ws2812_driver_send_data` changes none of the statics; its status is taken to
be `OPRT_OK`. -/
def tdd_pixel_refresh (c : LedController) : OPERATE_RET × LedController :=
  if c.tdd_driver_initialized = false ∨ c.tdd_pixel_handle = false then
    (OPRT_RESOURCE_NOT_READY, c)
  else
    (OPRT_OK, c)

/-- The function `tdd_pixel_init`; `reg_ret` and `open_ret` are the statuses returned
by the external `tdd_ws2812_driver_register` and `tdd_2812_driver_open`, the latter
storing a non-NULL handle when it succeeds. -/
def tdd_pixel_init (reg_ret open_ret : OPERATE_RET) (c : LedController) :
    OPERATE_RET × LedController :=
  if c.tdd_driver_initialized = true then
    (OPRT_OK, c)
  else if reg_ret ≠ OPRT_OK then
    (reg_ret, c)
  else if open_ret ≠ OPRT_OK then
    (open_ret, c)
  else
    (OPRT_OK,
      { c with tdd_pixel_handle := true, pixel_buffer := PixelBuffer.zero,
               tdd_driver_initialized := true })

/-- The function `set_all_leds`. -/
def set_all_leds (color : RGBColor) (c : LedController) : LedController :=
  (tdd_pixel_refresh (tdd_pixel_set_all color.r color.g color.b c).2).2

/-- The function `set_level_leds`. -/
def set_level_leds (color : RGBColor) (level : Nat) (c : LedController) : LedController :=
  let level := if level > WS2812_LED_COUNT then WS2812_LED_COUNT else level
  let c1 := (List.range WS2812_LED_COUNT).foldl
    (fun acc i =>
      let phys := LED_ORDER.getD i 0
      if i < level then
        (tdd_pixel_set_pixel phys color.r color.g color.b acc).2
      else
        (tdd_pixel_set_pixel phys COLOR_BLACK.r COLOR_BLACK.g COLOR_BLACK.b acc).2) c
  (tdd_pixel_refresh c1).2

/-! ## State machine -/

/-- The function `cleanup_current_state`. -/
def cleanup_current_state (c : LedController) : LedController :=
  { tal_sw_timer_stop c with state_data := StateData.zero }

/-- The function `set_led_state`. -/
def set_led_state (new_state : LedState) (value : Nat) (c : LedController) : LedController :=
  if c.current_state = LED_INIT ∧ new_state ≠ LED_INIT then
    { c with pending_state := new_state, pending_value := value, has_pending_state := true }
  else
    let c := cleanup_current_state c
    let c :=
      match new_state with
      | LED_INIT =>
        let c := set_all_leds COLOR_RED c
        let c := { c with state_data := { c.state_data with init_step := 0 } }
        tal_sw_timer_start INIT_RED_TIME c
      | LED_IDLE => set_all_leds COLOR_BLACK c
      | LED_CONFIGURING =>
        let c := set_all_leds COLOR_GREEN c
        let c := { c with state_data := { c.state_data with blink_is_light_on := true } }
        tal_sw_timer_start CONFIGURING_BLINK_ON_TIME c
      | LED_CONFIG_SUCCESS =>
        let target := if value > WS2812_LED_COUNT then WS2812_LED_COUNT else value
        let c := { c with state_data :=
          { c.state_data with cfgsucc_target_level := target, cfgsucc_current_count := 0,
                              cfgsucc_hold_phase := false } }
        if target = 0 then
          let c := set_level_leds COLOR_GREEN 0 c
          let c := { c with state_data := { c.state_data with cfgsucc_hold_phase := true } }
          tal_sw_timer_start CONFIG_SUCCESS_HOLD_TIME c
        else
          let c := { c with state_data := { c.state_data with cfgsucc_current_count := 1 } }
          let c := set_level_leds COLOR_GREEN 1 c
          tal_sw_timer_start CONFIG_SUCCESS_STEP_INTERVAL c
      | LED_NET_ERROR => set_all_leds COLOR_RED c
      | LED_DIALOG =>
        let c := set_all_leds COLOR_BLUE c
        let c := { c with state_data :=
          { c.state_data with blink_is_light_on := true, blink_blink_count := 0 } }
        tal_sw_timer_start DIALOG_LIGHT_ON_TIME c
      | LED_VOLUME =>
        let c := set_level_leds COLOR_YELLOW value c
        tal_sw_timer_start VOLUME_DISPLAY_TIMEOUT c
      | LED_BREATHING =>
        let c := { c with state_data := { c.state_data with breath_index := 0 } }
        tal_sw_timer_start BREATH_TIMER_INTERVAL c
      | LED_WAKE =>
        let c := set_all_leds COLOR_BLUE c
        let c := { c with state_data :=
          { c.state_data with wake_in_solid_phase := false, wake_completed_toggles := 0,
                              wake_is_light_on := true } }
        tal_sw_timer_start WAKE_BLINK_INTERVAL c
      | LED_STANDBY =>
        let c := { c with state_data := { c.state_data with standby_index := 0 } }
        let c := (tdd_pixel_set_all 0 0 0 c).2
        let c := (tdd_pixel_set_pixel (LED_ORDER.getD 0 0)
          COLOR_GREEN.r COLOR_GREEN.g COLOR_GREEN.b c).2
        let c := (tdd_pixel_refresh c).2
        tal_sw_timer_start STANDBY_STEP_INTERVAL c
    { c with current_state := new_state }

/-- The function `main_timer_cb` (its two parameters are unused). -/
def main_timer_cb (c : LedController) : LedController :=
  match c.current_state with
  | LED_INIT =>
    let c := { c with state_data :=
      { c.state_data with init_step := (c.state_data.init_step + 1) % 256 } }
    if c.state_data.init_step = 1 then
      let c := set_all_leds COLOR_GREEN c
      tal_sw_timer_start INIT_GREEN_TIME c
    else if c.state_data.init_step = 2 then
      let c := set_all_leds COLOR_BLUE c
      tal_sw_timer_start INIT_BLUE_TIME c
    else
      let c := { c with current_state := LED_IDLE }
      if c.has_pending_state = true then
        let next_state := c.pending_state
        let next_value := c.pending_value
        let c := { c with has_pending_state := false }
        set_led_state next_state next_value c
      else
        set_all_leds COLOR_BLACK c
  | LED_CONFIG_SUCCESS =>
    if c.state_data.cfgsucc_hold_phase = false then
      if c.state_data.cfgsucc_current_count < c.state_data.cfgsucc_target_level then
        let c := { c with state_data :=
          { c.state_data with
            cfgsucc_current_count := (c.state_data.cfgsucc_current_count + 1) % 256 } }
        let c := set_level_leds COLOR_GREEN c.state_data.cfgsucc_current_count c
        if c.state_data.cfgsucc_current_count ≥ c.state_data.cfgsucc_target_level then
          let c := { c with state_data := { c.state_data with cfgsucc_hold_phase := true } }
          tal_sw_timer_start CONFIG_SUCCESS_HOLD_TIME c
        else
          tal_sw_timer_start CONFIG_SUCCESS_STEP_INTERVAL c
      else
        let c := { c with state_data := { c.state_data with cfgsucc_hold_phase := true } }
        tal_sw_timer_start CONFIG_SUCCESS_HOLD_TIME c
    else
      let c := { c with current_state := LED_IDLE }
      set_all_leds COLOR_BLACK c
  | LED_VOLUME =>
    let c := { c with current_state := LED_IDLE }
    set_all_leds COLOR_BLACK c
  | LED_DIALOG =>
    if c.state_data.blink_is_light_on = true then
      let c := set_all_leds COLOR_BLACK c
      let c := { c with state_data := { c.state_data with blink_is_light_on := false } }
      tal_sw_timer_start DIALOG_LIGHT_OFF_TIME c
    else
      let c := set_all_leds COLOR_BLUE c
      let c := { c with state_data :=
        { c.state_data with
          blink_is_light_on := true,
          blink_blink_count := (c.state_data.blink_blink_count + 1) % 65536 } }
      if c.state_data.blink_blink_count ≥ DIALOG_BLINK_COUNT then
        let c := { c with current_state := LED_IDLE }
        set_all_leds COLOR_BLACK c
      else
        tal_sw_timer_start DIALOG_LIGHT_ON_TIME c
  | LED_CONFIGURING =>
    if c.state_data.blink_is_light_on = true then
      let c := set_all_leds COLOR_BLACK c
      let c := { c with state_data := { c.state_data with blink_is_light_on := false } }
      tal_sw_timer_start CONFIGURING_BLINK_OFF_TIME c
    else
      let c := set_all_leds COLOR_GREEN c
      let c := { c with state_data := { c.state_data with blink_is_light_on := true } }
      tal_sw_timer_start CONFIGURING_BLINK_ON_TIME c
  | LED_BREATHING =>
    let c := { c with state_data :=
      { c.state_data with breath_index := (c.state_data.breath_index + 1) % 256 } }
    let c :=
      if c.state_data.breath_index ≥ BREATH_TABLE_SIZE then
        { c with state_data := { c.state_data with breath_index := 0 } }
      else c
    let brightness := BREATH_BRIGHTNESS_TABLE.getD c.state_data.breath_index 0
    let c := (tdd_pixel_set_all 0 0 brightness c).2
    let c := (tdd_pixel_refresh c).2
    tal_sw_timer_start BREATH_TIMER_INTERVAL c
  | LED_WAKE =>
    if c.state_data.wake_in_solid_phase = false then
      let c :=
        if c.state_data.wake_is_light_on = true then
          let c := set_all_leds COLOR_BLACK c
          { c with state_data := { c.state_data with wake_is_light_on := false } }
        else
          let c := set_all_leds COLOR_BLUE c
          { c with state_data := { c.state_data with wake_is_light_on := true } }
      let c := { c with state_data :=
        { c.state_data with
          wake_completed_toggles := (c.state_data.wake_completed_toggles + 1) % 256 } }
      if c.state_data.wake_completed_toggles ≥ WAKE_BLINK_TIMES * 2 then
        let c := set_all_leds COLOR_BLUE c
        let c := { c with state_data := { c.state_data with wake_in_solid_phase := true } }
        tal_sw_timer_start WAKE_HOLD_TIME c
      else
        tal_sw_timer_start WAKE_BLINK_INTERVAL c
    else
      let c := { c with current_state := LED_IDLE }
      set_all_leds COLOR_BLACK c
  | LED_STANDBY =>
    let c := { c with state_data :=
      { c.state_data with standby_index := (c.state_data.standby_index + 1) % 256 } }
    let c :=
      if c.state_data.standby_index ≥ WS2812_LED_COUNT then
        { c with state_data := { c.state_data with standby_index := 0 } }
      else c
    let c := (tdd_pixel_set_all 0 0 0 c).2
    let phys := LED_ORDER.getD c.state_data.standby_index 0
    let c := (tdd_pixel_set_pixel phys COLOR_GREEN.r COLOR_GREEN.g COLOR_GREEN.b c).2
    let c := (tdd_pixel_refresh c).2
    tal_sw_timer_start STANDBY_STEP_INTERVAL c
  | _ => c

/-- The function `led_controller_init`.  `memset(&led_ctrl, 0, sizeof(LedController))`
zeroes every field of `led_ctrl` (the numeric value 0 of `current_state` is
`LED_INIT`); `tal_sw_timer_create` of the external timer service yields a timer
that is not armed.  `reg_ret` and `open_ret` are the statuses of the two external
driver calls made by `tdd_pixel_init`. -/
def led_controller_init (reg_ret open_ret : OPERATE_RET) (c : LedController) :
    LedController :=
  let c := { c with current_state := LED_INIT, pending_state := LED_INIT, pending_value := 0,
                    has_pending_state := false, state_data := StateData.zero,
                    main_timer := none }
  let r := tdd_pixel_init reg_ret open_ret c
  if r.1 ≠ OPRT_OK then
    r.2
  else
    let c := r.2
    let c := { c with main_timer := none }
    set_led_state LED_INIT 0 c

/-- Modelled from the spec: expiry of the one-shot timer of the external timer
service (section 4.3: the callback is invoked exactly once per `start`; re-arming
inside the callback is permitted).  The expiry consumes the arming, then runs
`main_timer_cb`. -/
def timer_expire (c : LedController) : LedController :=
  main_timer_cb { c with main_timer := none }

/-- The controller after `n` successive timer expiries. -/
def ticks : Nat → LedController → LedController
  | 0, c => c
  | n + 1, c => timer_expire (ticks n c)

/-- The interval the timer is armed for, in ms (0 when it is not armed). -/
def armed_ms (c : LedController) : Nat :=
  c.main_timer.getD 0

/-- Time in ms at which the `n`-th expiry happens, counted from the moment `c` was
left by the last call: the sum of the intervals armed before each of the first `n`
expiries. -/
def elapsed : Nat → LedController → Nat
  | 0, _ => 0
  | n + 1, c => elapsed n c + armed_ms (ticks n c)

/-! ## Observations on the frame buffer -/

/-- Colour held by physical pixel `p`: the buffer keeps G, R, B at `3p`, `3p+1`, `3p+2`. -/
def pixel_at (buf : PixelBuffer) (p : Nat) : RGBColor :=
  { r := buf.read (p * 3 + 1), g := buf.read (p * 3 + 0), b := buf.read (p * 3 + 2) }

/-- Every one of the twelve pixels holds `col`. -/
def all_pixels (col : RGBColor) (buf : PixelBuffer) : Prop :=
  ∀ p, p < WS2812_LED_COUNT → pixel_at buf p = col

instance (col : RGBColor) (buf : PixelBuffer) : Decidable (all_pixels col buf) := by
  unfold all_pixels; infer_instance

/-- Level display: physical pixel `p` holds `col` when it is one of the first `n`
entries of `LED_ORDER`, and black otherwise. -/
def level_shown (col : RGBColor) (n : Nat) (buf : PixelBuffer) : Prop :=
  ∀ p, p < WS2812_LED_COUNT →
    pixel_at buf p = if p ∈ LED_ORDER.take n then col else COLOR_BLACK

instance (col : RGBColor) (n : Nat) (buf : PixelBuffer) : Decidable (level_shown col n buf) := by
  unfold level_shown; infer_instance

/-- A concrete controller: the statics as the C runtime zero-initialises them
at power-on. -/
def power_on : LedController :=
  { current_state := LED_INIT, pending_state := LED_INIT, pending_value := 0,
    has_pending_state := false, state_data := StateData.zero, main_timer := none,
    tdd_pixel_handle := false, pixel_buffer := PixelBuffer.zero,
    tdd_driver_initialized := false }

/-- The three cell writes made by one successful `tdd_pixel_set_pixel`. -/
def PixelBuffer.put (buf : PixelBuffer) (index red green blue : Nat) : PixelBuffer :=
  ((buf.write (index * 3 + 0) green).write (index * 3 + 1) red).write (index * 3 + 2) blue

/-- The frame in which each of the twelve pixels is `(red, green, blue)`, in the
G, R, B cell order of the buffer. -/
def fill_buf (red green blue : Nat) : PixelBuffer :=
  ⟨[green, red, blue, green, red, blue, green, red, blue, green, red, blue,
    green, red, blue, green, red, blue, green, red, blue, green, red, blue,
    green, red, blue, green, red, blue, green, red, blue, green, red, blue], rfl⟩

/-- The controller right after a successful `led_controller_init` at power-on. -/
def after_init : LedController :=
  led_controller_init OPRT_OK OPRT_OK power_on

/-- The controller once the power-on self-test has run to completion with no
request pending (three timer expiries after `after_init`). -/
def idle_after_init : LedController :=
  ticks 3 after_init

/-- The controller in the blue phase of the power-on self-test with a
`LED_NET_ERROR` request deferred during the red phase. -/
def blue_phase_pending : LedController :=
  ticks 2 (set_led_state LED_NET_ERROR 0 after_init)

/-- Controller states reachable from a call of `led_controller_init` (on arbitrary
prior statics, whatever the two driver calls return) by any sequence of
`set_led_state` calls and timer expiries. -/
inductive Reachable : LedController → Prop where
  | init (reg_ret open_ret : OPERATE_RET) (c0 : LedController) :
      Reachable (led_controller_init reg_ret open_ret c0)
  | set (s : LedState) (v : Nat) {c : LedController} :
      Reachable c → Reachable (set_led_state s v c)
  | tick {c : LedController} :
      Reachable c → Reachable (timer_expire c)

/-- Number of the twelve pixels that hold `col`. -/
def count_pixels (col : RGBColor) (buf : PixelBuffer) : Nat :=
  ((List.range WS2812_LED_COUNT).filter (fun p => decide (pixel_at buf p = col))).length

/-- Invariant of a `LED_CONFIG_SUCCESS` display of clamped level `k`, from its entry
until the controller has fallen back to `LED_IDLE`. -/
def cfgsucc_inv (k : Nat) (c : LedController) : Prop :=
  c.tdd_driver_initialized = true ∧
    (c.current_state = LED_IDLE ∨
      (c.current_state = LED_CONFIG_SUCCESS ∧
        c.state_data.cfgsucc_target_level = k ∧
        c.state_data.cfgsucc_current_count ≤ k ∧
        level_shown COLOR_GREEN c.state_data.cfgsucc_current_count c.pixel_buffer ∧
        (c.state_data.cfgsucc_hold_phase = true → c.state_data.cfgsucc_current_count = k)))

/-- What `tdd_pixel_set_pixel` does to the frame buffer, `ini` being the value of
`tdd_driver_initialized`. -/
def guarded_put (ini : Bool) (index red green blue : Nat) (buf : PixelBuffer) : PixelBuffer :=
  if ini = false ∨ index ≥ WS2812_LED_COUNT then buf else buf.put index red green blue

/-- What `tdd_pixel_set_all` does to the frame buffer. -/
def set_all_buf (ini : Bool) (red green blue : Nat) (buf : PixelBuffer) : PixelBuffer :=
  if ini = false then buf
  else (List.range WS2812_LED_COUNT).foldl (fun b i => guarded_put ini i red green blue b) buf

/-- What `set_level_leds` does to the frame buffer. -/
def set_level_buf (ini : Bool) (color : RGBColor) (level : Nat) (buf : PixelBuffer) :
    PixelBuffer :=
  let level := if level > WS2812_LED_COUNT then WS2812_LED_COUNT else level
  (List.range WS2812_LED_COUNT).foldl
    (fun b i =>
      let phys := LED_ORDER.getD i 0
      if i < level then guarded_put ini phys color.r color.g color.b b
      else guarded_put ini phys COLOR_BLACK.r COLOR_BLACK.g COLOR_BLACK.b b) buf

/-- Two controllers that agree on everything the timer callback reads outside the
self-test and on everything it can change: current state, scratch, armed timer,
frame buffer and the driver flag. -/
def same_display (c1 c2 : LedController) : Prop :=
  c1.current_state = c2.current_state ∧ c1.state_data = c2.state_data ∧
    c1.main_timer = c2.main_timer ∧ c1.pixel_buffer = c2.pixel_buffer ∧
    c1.tdd_driver_initialized = c2.tdd_driver_initialized

/-- Reference run for `LED_DIALOG`: the request made right after the self-test. -/
def dialog_ref : LedController :=
  set_led_state LED_DIALOG 0 idle_after_init

/-- Reference run for `LED_WAKE`: the request made right after the self-test. -/
def wake_ref : LedController :=
  set_led_state LED_WAKE 0 idle_after_init

/-- Reference run for `LED_STANDBY`: the request made right after the self-test. -/
def standby_ref : LedController :=
  set_led_state LED_STANDBY 0 idle_after_init

/-- Chase display: physical pixel `q` is green and every other pixel is black. -/
def only_green_at (q : Nat) (buf : PixelBuffer) : Prop :=
  ∀ p, p < WS2812_LED_COUNT → pixel_at buf p = if p = q then COLOR_GREEN else COLOR_BLACK

instance (q : Nat) (buf : PixelBuffer) : Decidable (only_green_at q buf) := by
  unfold only_green_at; infer_instance

/-- Reference run for `LED_CONFIGURING`: the request made right after the self-test. -/
def configuring_ref : LedController :=
  set_led_state LED_CONFIGURING 0 idle_after_init

/-- Controller states reachable from a successful `led_controller_init` (on
arbitrary prior statics) by `set_led_state` calls and timer expiries, an expiry
happening only while the timer is armed. -/
inductive Live : LedController → Prop where
  | init (reg_ret open_ret : OPERATE_RET) (c0 : LedController)
      (hok : (tdd_pixel_init reg_ret open_ret c0).1 = OPRT_OK) :
      Live (led_controller_init reg_ret open_ret c0)
  | set (s : LedState) (v : Nat) {c : LedController} :
      Live c → Live (set_led_state s v c)
  | tick {c : LedController} :
      Live c → c.main_timer ≠ none → Live (timer_expire c)

/-- The one-shot timer is armed exactly when the current state is neither
`LED_IDLE` nor `LED_NET_ERROR`. -/
def armed_iff_animated (c : LedController) : Prop :=
  c.main_timer ≠ none ↔ (c.current_state ≠ LED_IDLE ∧ c.current_state ≠ LED_NET_ERROR)

/-- The controller left by a `led_controller_init` at power-on in which the
driver registration fails. -/
def failed_init : LedController :=
  led_controller_init OPRT_COM_ERROR OPRT_OK power_on

/-- Scratch left by the entry action of `(s, value)`, as section 4.2 of the design
lists it state by state (the scratch is zeroed first; `CONFIG_SUCCESS` clamps the
value to 12 and starts with one LED, or directly in the hold phase for level 0). -/
def entry_scratch (s : LedState) (value : Nat) : StateData :=
  match s with
  | LED_CONFIGURING => { StateData.zero with blink_is_light_on := true }
  | LED_CONFIG_SUCCESS =>
    { StateData.zero with
      cfgsucc_target_level := min value 12,
      cfgsucc_current_count := if min value 12 = 0 then 0 else 1,
      cfgsucc_hold_phase := decide (min value 12 = 0) }
  | LED_DIALOG => { StateData.zero with blink_is_light_on := true, blink_blink_count := 0 }
  | LED_WAKE => { StateData.zero with wake_is_light_on := true }
  | _ => StateData.zero

/-- Timer interval armed by the entry action of `(s, value)`, as section 4.2 of the
design lists it (`none`: the entry action arms no timer). -/
def entry_timer (s : LedState) (value : Nat) : Option Nat :=
  match s with
  | LED_INIT => some 1000
  | LED_IDLE => none
  | LED_CONFIGURING => some 250
  | LED_CONFIG_SUCCESS => some (if min value 12 = 0 then 2000 else 200)
  | LED_NET_ERROR => none
  | LED_DIALOG => some 100
  | LED_VOLUME => some 2000
  | LED_BREATHING => some 10
  | LED_WAKE => some 200
  | LED_STANDBY => some 250

/-- Frame written by the entry action of `(s, value)` over the buffer `buf`, as
section 4.2 of the design lists it; `ini` is the driver flag.  `LED_BREATHING`
writes nothing at entry. -/
def entry_frame (s : LedState) (value : Nat) (ini : Bool) (buf : PixelBuffer) : PixelBuffer :=
  match s with
  | LED_INIT => set_all_buf ini 255 0 0 buf
  | LED_IDLE => set_all_buf ini 0 0 0 buf
  | LED_CONFIGURING => set_all_buf ini 0 255 0 buf
  | LED_CONFIG_SUCCESS =>
    set_level_buf ini COLOR_GREEN (if min value 12 = 0 then 0 else 1) buf
  | LED_NET_ERROR => set_all_buf ini 255 0 0 buf
  | LED_DIALOG => set_all_buf ini 0 0 255 buf
  | LED_VOLUME => set_level_buf ini COLOR_YELLOW value buf
  | LED_BREATHING => buf
  | LED_WAKE => set_all_buf ini 0 0 255 buf
  | LED_STANDBY => guarded_put ini 8 0 255 0 (set_all_buf ini 0 0 0 buf)

/-! ## Control part of the controller -/

/-- Two controllers that agree on the current state, the scratch and the armed
timer: everything the timer callback reads outside the self-test apart from the
frame buffer, which it only writes. -/
def same_control (c1 c2 : LedController) : Prop :=
  c1.current_state = c2.current_state ∧ c1.state_data = c2.state_data ∧
    c1.main_timer = c2.main_timer

/-- Reference run for `LED_CONFIG_SUCCESS` at level `k`: the request made right
after the self-test. -/
def cfgsucc_ref (k : Nat) : LedController :=
  set_led_state LED_CONFIG_SUCCESS k idle_after_init

/-- Number of 200 ms step intervals before the hold interval of
`LED_CONFIG_SUCCESS` at clamped level `k`, in closed form: none for level 0, one
for level 1, `k - 1` from level 2 on. -/
def cfgsucc_step_intervals (k : Nat) : Nat :=
  if k = 0 then 0 else max (k - 1) 1

/-! ## SPI transmit buffer (`ws2812_spi.c`) -/

/-- The function `ws2812_spi_set_pixel`.  The static `s_buffer` is `none` while it
is `NULL` and `some buf` once `ws2812_spi_init` has allocated its
`WS2812_LED_COUNT * 24` bytes.  `WS2812_0` and `WS2812_1` stand for the two code
macros of `ws2812_spi.h`; their values are left open, so they are parameters.
`color` is a `uint32_t`, so the shifts are taken modulo `2 ^ 32`, and each cell of
the buffer is a `UCHAR_T`, so the stored code is taken modulo 256. -/
def ws2812_spi_set_pixel (WS2812_0 WS2812_1 : Nat) (index red green blue : Nat)
    (s_buffer : Option (List Nat)) : OPERATE_RET × Option (List Nat) :=
  match s_buffer with
  | none => (OPRT_INVALID_PARM, none)
  | some buf =>
    if index ≥ WS2812_LED_COUNT then
      (OPRT_INVALID_PARM, some buf)
    else
      let color := (((green <<< 16) % 2 ^ 32) ||| ((red <<< 8) % 2 ^ 32)) ||| blue
      let base := index * 24
      let buf := (List.range 24).foldl
        (fun b bit =>
          b.set (base + bit)
            ((if (((color <<< bit) % 2 ^ 32) &&& 0x800000) ≠ 0 then WS2812_1
              else WS2812_0) % 256))
        buf
      (OPRT_OK, some buf)

/-- Byte `n` of the transmit buffer (0 when there is no such byte). -/
def spi_byte (s_buffer : Option (List Nat)) (n : Nat) : Nat :=
  (s_buffer.getD []).getD n 0

/-! ## Theorems -/

/-! ### The frame buffer -/

theorem PixelBuffer.explicit (buf : PixelBuffer) :
    ∃ a0 a1 a2 a3 a4 a5 a6 a7 a8 a9 a10 a11 a12 a13 a14 a15 a16 a17 a18 a19 a20 a21 a22 a23 a24
      a25 a26 a27 a28 a29 a30 a31 a32 a33 a34 a35 : Nat,
      buf = ⟨[
        a0, a1, a2, a3, a4, a5, a6, a7, a8, a9, a10, a11, a12, a13, a14, a15, a16, a17, a18,
        a19, a20, a21, a22, a23, a24, a25, a26, a27, a28, a29, a30, a31, a32, a33, a34, a35], rfl⟩ := by
  obtain ⟨l, hl⟩ := buf
  rcases l with _ | ⟨a0, l⟩
  · simp [WS2812_LED_COUNT] at hl
  rcases l with _ | ⟨a1, l⟩
  · simp [WS2812_LED_COUNT] at hl
  rcases l with _ | ⟨a2, l⟩
  · simp [WS2812_LED_COUNT] at hl
  rcases l with _ | ⟨a3, l⟩
  · simp [WS2812_LED_COUNT] at hl
  rcases l with _ | ⟨a4, l⟩
  · simp [WS2812_LED_COUNT] at hl
  rcases l with _ | ⟨a5, l⟩
  · simp [WS2812_LED_COUNT] at hl
  rcases l with _ | ⟨a6, l⟩
  · simp [WS2812_LED_COUNT] at hl
  rcases l with _ | ⟨a7, l⟩
  · simp [WS2812_LED_COUNT] at hl
  rcases l with _ | ⟨a8, l⟩
  · simp [WS2812_LED_COUNT] at hl
  rcases l with _ | ⟨a9, l⟩
  · simp [WS2812_LED_COUNT] at hl
  rcases l with _ | ⟨a10, l⟩
  · simp [WS2812_LED_COUNT] at hl
  rcases l with _ | ⟨a11, l⟩
  · simp [WS2812_LED_COUNT] at hl
  rcases l with _ | ⟨a12, l⟩
  · simp [WS2812_LED_COUNT] at hl
  rcases l with _ | ⟨a13, l⟩
  · simp [WS2812_LED_COUNT] at hl
  rcases l with _ | ⟨a14, l⟩
  · simp [WS2812_LED_COUNT] at hl
  rcases l with _ | ⟨a15, l⟩
  · simp [WS2812_LED_COUNT] at hl
  rcases l with _ | ⟨a16, l⟩
  · simp [WS2812_LED_COUNT] at hl
  rcases l with _ | ⟨a17, l⟩
  · simp [WS2812_LED_COUNT] at hl
  rcases l with _ | ⟨a18, l⟩
  · simp [WS2812_LED_COUNT] at hl
  rcases l with _ | ⟨a19, l⟩
  · simp [WS2812_LED_COUNT] at hl
  rcases l with _ | ⟨a20, l⟩
  · simp [WS2812_LED_COUNT] at hl
  rcases l with _ | ⟨a21, l⟩
  · simp [WS2812_LED_COUNT] at hl
  rcases l with _ | ⟨a22, l⟩
  · simp [WS2812_LED_COUNT] at hl
  rcases l with _ | ⟨a23, l⟩
  · simp [WS2812_LED_COUNT] at hl
  rcases l with _ | ⟨a24, l⟩
  · simp [WS2812_LED_COUNT] at hl
  rcases l with _ | ⟨a25, l⟩
  · simp [WS2812_LED_COUNT] at hl
  rcases l with _ | ⟨a26, l⟩
  · simp [WS2812_LED_COUNT] at hl
  rcases l with _ | ⟨a27, l⟩
  · simp [WS2812_LED_COUNT] at hl
  rcases l with _ | ⟨a28, l⟩
  · simp [WS2812_LED_COUNT] at hl
  rcases l with _ | ⟨a29, l⟩
  · simp [WS2812_LED_COUNT] at hl
  rcases l with _ | ⟨a30, l⟩
  · simp [WS2812_LED_COUNT] at hl
  rcases l with _ | ⟨a31, l⟩
  · simp [WS2812_LED_COUNT] at hl
  rcases l with _ | ⟨a32, l⟩
  · simp [WS2812_LED_COUNT] at hl
  rcases l with _ | ⟨a33, l⟩
  · simp [WS2812_LED_COUNT] at hl
  rcases l with _ | ⟨a34, l⟩
  · simp [WS2812_LED_COUNT] at hl
  rcases l with _ | ⟨a35, l⟩
  · simp [WS2812_LED_COUNT] at hl
  rcases l with _ | ⟨x, l⟩
  · exact ⟨a0, a1, a2, a3, a4, a5, a6, a7, a8, a9, a10, a11, a12, a13, a14, a15, a16, a17, a18, a19,
      a20, a21, a22, a23, a24, a25, a26, a27, a28, a29, a30, a31, a32, a33, a34, a35,
      rfl⟩
  · simp [WS2812_LED_COUNT] at hl

theorem range_led_count :
    List.range WS2812_LED_COUNT = [0, 1, 2, 3, 4, 5, 6, 7, 8, 9, 10, 11] := by
  decide

theorem tdd_pixel_refresh_snd (c : LedController) : (tdd_pixel_refresh c).2 = c := by
  unfold tdd_pixel_refresh
  split <;> rfl

theorem tdd_pixel_set_pixel_ok (index red green blue : Nat) (c : LedController)
    (h : c.tdd_driver_initialized = true) (hi : index < WS2812_LED_COUNT) :
    (tdd_pixel_set_pixel index red green blue c).2 =
      { c with pixel_buffer := c.pixel_buffer.put index red green blue } := by
  have hge : ¬ (index ≥ WS2812_LED_COUNT) := by omega
  simp [tdd_pixel_set_pixel, h, hge, PixelBuffer.put]

theorem foldl_set_pixel (idx fr fg fb : Nat → Nat) (is : List Nat) :
    ∀ c : LedController, c.tdd_driver_initialized = true →
      (∀ i ∈ is, idx i < WS2812_LED_COUNT) →
      is.foldl (fun acc i => (tdd_pixel_set_pixel (idx i) (fr i) (fg i) (fb i) acc).2) c =
        { c with pixel_buffer :=
                   is.foldl (fun buf i => buf.put (idx i) (fr i) (fg i) (fb i)) c.pixel_buffer } := by
  induction is with
  | nil => intro c _ _; rfl
  | cons i is ih =>
    intro c h hidx
    simp only [List.foldl_cons]
    rw [tdd_pixel_set_pixel_ok _ _ _ _ c h (hidx i (List.mem_cons_self _ _)),
      ih _ (by simpa using h) (fun j hj => hidx j (List.mem_cons_of_mem _ hj))]

theorem put_all (red green blue : Nat) (buf : PixelBuffer) :
    (List.range WS2812_LED_COUNT).foldl (fun (b : PixelBuffer) i => b.put i red green blue) buf =
      fill_buf red green blue := by
  obtain ⟨a0, a1, a2, a3, a4, a5, a6, a7, a8, a9, a10, a11, a12, a13, a14, a15, a16, a17, a18, a19,
      a20, a21, a22, a23, a24, a25, a26, a27, a28, a29, a30, a31, a32, a33, a34, a35,
      hb⟩ := PixelBuffer.explicit buf
  subst hb
  apply Subtype.ext
  simp [range_led_count, PixelBuffer.put, PixelBuffer.write, fill_buf]

theorem tdd_pixel_set_all_open (red green blue : Nat) (c : LedController)
    (h : c.tdd_driver_initialized = true) :
    (tdd_pixel_set_all red green blue c).2 =
      { c with pixel_buffer := fill_buf red green blue } := by
  have hfold := foldl_set_pixel (fun i => i) (fun _ => red) (fun _ => green) (fun _ => blue)
    (List.range WS2812_LED_COUNT) c h (fun i hi => List.mem_range.mp hi)
  unfold tdd_pixel_set_all
  rw [if_neg (by simp [h])]
  show List.foldl _ c _ = _
  rw [hfold, put_all]

theorem tdd_pixel_set_all_closed (red green blue : Nat) (c : LedController)
    (h : c.tdd_driver_initialized = false) :
    (tdd_pixel_set_all red green blue c).2 = c := by
  simp [tdd_pixel_set_all, h]

theorem set_all_leds_open (color : RGBColor) (c : LedController)
    (h : c.tdd_driver_initialized = true) :
    set_all_leds color c = { c with pixel_buffer := fill_buf color.r color.g color.b } := by
  simp [set_all_leds, tdd_pixel_refresh_snd, tdd_pixel_set_all_open _ _ _ c h]

theorem set_all_leds_closed (color : RGBColor) (c : LedController)
    (h : c.tdd_driver_initialized = false) :
    set_all_leds color c = c := by
  simp [set_all_leds, tdd_pixel_refresh_snd, tdd_pixel_set_all_closed _ _ _ c h]

theorem all_pixels_fill (color : RGBColor) :
    all_pixels color (fill_buf color.r color.g color.b) := by
  intro p hp
  simp only [pixel_at, fill_buf, PixelBuffer.read]
  interval_cases p <;> rfl

theorem PixelBuffer.read_write (buf : PixelBuffer) (i v j : Nat)
    (hi : i < WS2812_LED_COUNT * 3) :
    (buf.write i v).read j = if j = i then v else buf.read j := by
  have hlen := buf.property
  simp only [PixelBuffer.read, PixelBuffer.write, List.getD_eq_getElem?_getD, List.getElem?_set]
  by_cases hji : j = i
  · subst hji
    simp [hlen, hi]
  · have : ¬ i = j := fun h => hji h.symm
    simp [hji, this]

theorem pixel_at_put (buf : PixelBuffer) (index red green blue p : Nat)
    (hi : index < WS2812_LED_COUNT) :
    pixel_at (buf.put index red green blue) p =
      if p = index then { r := red, g := green, b := blue } else pixel_at buf p := by
  have h0 : index * 3 < WS2812_LED_COUNT * 3 := by omega
  have h1 : index * 3 + 1 < WS2812_LED_COUNT * 3 := by omega
  have h2 : index * 3 + 2 < WS2812_LED_COUNT * 3 := by omega
  simp only [pixel_at, PixelBuffer.put, Nat.add_zero, PixelBuffer.read_write _ _ _ _ h0,
    PixelBuffer.read_write _ _ _ _ h1, PixelBuffer.read_write _ _ _ _ h2]
  by_cases hp : p = index
  · subst hp
    have e1 : ¬ (p * 3 + 1 = p * 3 + 2) := by omega
    have e2 : ¬ (p * 3 = p * 3 + 2) := by omega
    have e3 : ¬ (p * 3 = p * 3 + 1) := by omega
    simp [e1, e2, e3]
  · have e1 : ¬ (p * 3 + 1 = index * 3 + 2) := by omega
    have e2 : ¬ (p * 3 + 1 = index * 3 + 1) := by omega
    have e3 : ¬ (p * 3 + 1 = index * 3) := by omega
    have e4 : ¬ (p * 3 = index * 3 + 2) := by omega
    have e5 : ¬ (p * 3 = index * 3 + 1) := by omega
    have e6 : ¬ (p * 3 = index * 3) := by omega
    have e7 : ¬ (p * 3 + 2 = index * 3 + 2) := by omega
    have e8 : ¬ (p * 3 + 2 = index * 3 + 1) := by omega
    have e9 : ¬ (p * 3 + 2 = index * 3) := by omega
    simp only [e1, e2, e3, e4, e5, e6, e7, e8, e9, hp, if_false]

theorem order_mem_take :
    ∀ m, m ≤ WS2812_LED_COUNT → ∀ i, i < WS2812_LED_COUNT →
      (LED_ORDER.getD i 0 ∈ LED_ORDER.take m ↔ i < m) := by
  decide

theorem order_onto : ∀ p, p < WS2812_LED_COUNT →
    ∃ i, i < WS2812_LED_COUNT ∧ LED_ORDER.getD i 0 = p := by
  decide

theorem order_lt : ∀ i, LED_ORDER.getD i 0 < WS2812_LED_COUNT := by
  intro i
  by_cases h : i < 12
  · interval_cases i <;> decide
  · have : LED_ORDER.length ≤ i := by simp [LED_ORDER]; omega
    rw [List.getD_eq_default _ _ this]
    decide

theorem put_level (color : RGBColor) (m : Nat) (hm : m ≤ WS2812_LED_COUNT) (buf : PixelBuffer) :
    level_shown color m
      ((List.range WS2812_LED_COUNT).foldl
        (fun (b : PixelBuffer) i =>
          b.put (LED_ORDER.getD i 0) (if i < m then color.r else COLOR_BLACK.r)
            (if i < m then color.g else COLOR_BLACK.g)
            (if i < m then color.b else COLOR_BLACK.b))
        buf) := by
  intro p hp
  obtain ⟨i, hi, rfl⟩ := order_onto p hp
  rw [if_congr (order_mem_take m hm i hi) rfl rfl]
  simp only [range_led_count, List.foldl_cons, List.foldl_nil,
    pixel_at_put _ _ _ _ _ _ (order_lt _)]
  interval_cases i <;> simp [LED_ORDER, COLOR_BLACK] <;> split <;> simp_all

theorem set_level_leds_open (color : RGBColor) (level : Nat) (c : LedController)
    (h : c.tdd_driver_initialized = true) :
    level_shown color (min level WS2812_LED_COUNT) (set_level_leds color level c).pixel_buffer := by
  have hmin : (if level > WS2812_LED_COUNT then WS2812_LED_COUNT else level) =
      min level WS2812_LED_COUNT := by
    split <;> omega
  have hfold := foldl_set_pixel (fun i => LED_ORDER.getD i 0)
    (fun i => if i < min level WS2812_LED_COUNT then color.r else COLOR_BLACK.r)
    (fun i => if i < min level WS2812_LED_COUNT then color.g else COLOR_BLACK.g)
    (fun i => if i < min level WS2812_LED_COUNT then color.b else COLOR_BLACK.b)
    (List.range WS2812_LED_COUNT) c h (fun i _ => order_lt i)
  have hfun : (fun (acc : LedController) (i : Nat) =>
      if i < min level WS2812_LED_COUNT then
        (tdd_pixel_set_pixel (LED_ORDER.getD i 0) color.r color.g color.b acc).2
      else
        (tdd_pixel_set_pixel (LED_ORDER.getD i 0) COLOR_BLACK.r COLOR_BLACK.g COLOR_BLACK.b
          acc).2) =
      (fun acc i => (tdd_pixel_set_pixel (LED_ORDER.getD i 0)
        (if i < min level WS2812_LED_COUNT then color.r else COLOR_BLACK.r)
        (if i < min level WS2812_LED_COUNT then color.g else COLOR_BLACK.g)
        (if i < min level WS2812_LED_COUNT then color.b else COLOR_BLACK.b) acc).2) := by
    funext acc i
    split <;> rfl
  unfold set_level_leds
  simp only [tdd_pixel_refresh_snd, hmin, hfun]
  rw [hfold]
  exact put_level color _ (Nat.min_le_right _ _) c.pixel_buffer

theorem level_shown_fill_black (color : RGBColor) :
    level_shown color 0 (fill_buf 0 0 0) := by
  intro p hp
  have h := all_pixels_fill COLOR_BLACK p hp
  simp only [COLOR_BLACK] at h
  rw [h]
  simp [COLOR_BLACK]

/-! ### Pixel helpers change nothing but the frame buffer -/

theorem tdd_pixel_set_pixel_frame (index red green blue : Nat) (c : LedController) :
    ∃ buf, (tdd_pixel_set_pixel index red green blue c).2 = { c with pixel_buffer := buf } := by
  unfold tdd_pixel_set_pixel
  split
  · exact ⟨c.pixel_buffer, rfl⟩
  · exact ⟨_, rfl⟩

theorem foldl_frame (F : LedController → Nat → LedController)
    (hF : ∀ acc i, ∃ buf, F acc i = { acc with pixel_buffer := buf }) (is : List Nat) :
    ∀ c : LedController, ∃ buf, is.foldl F c = { c with pixel_buffer := buf } := by
  induction is with
  | nil => intro c; exact ⟨c.pixel_buffer, rfl⟩
  | cons i is ih =>
    intro c
    obtain ⟨b1, h1⟩ := hF c i
    obtain ⟨b2, h2⟩ := ih (F c i)
    refine ⟨b2, ?_⟩
    rw [List.foldl_cons, h2, h1]

theorem tdd_pixel_set_all_frame (red green blue : Nat) (c : LedController) :
    ∃ buf, (tdd_pixel_set_all red green blue c).2 = { c with pixel_buffer := buf } := by
  unfold tdd_pixel_set_all
  split
  · exact ⟨c.pixel_buffer, rfl⟩
  · exact foldl_frame _ (fun acc i => tdd_pixel_set_pixel_frame i red green blue acc) _ c

theorem set_all_leds_frame (color : RGBColor) (c : LedController) :
    ∃ buf, set_all_leds color c = { c with pixel_buffer := buf } := by
  unfold set_all_leds
  rw [tdd_pixel_refresh_snd]
  exact tdd_pixel_set_all_frame _ _ _ c

theorem set_level_leds_frame (color : RGBColor) (level : Nat) (c : LedController) :
    ∃ buf, set_level_leds color level c = { c with pixel_buffer := buf } := by
  unfold set_level_leds
  simp only [tdd_pixel_refresh_snd]
  apply foldl_frame
  intro acc i
  repeat' split
  all_goals exact tdd_pixel_set_pixel_frame _ _ _ _ acc

@[simp]
theorem tdd_pixel_set_pixel_current_state (index red green blue : Nat) (c : LedController) :
    (tdd_pixel_set_pixel index red green blue c).2.current_state = c.current_state := by
  obtain ⟨buf, h⟩ := tdd_pixel_set_pixel_frame index red green blue c
  rw [h]

@[simp]
theorem tdd_pixel_set_pixel_pending_state (index red green blue : Nat) (c : LedController) :
    (tdd_pixel_set_pixel index red green blue c).2.pending_state = c.pending_state := by
  obtain ⟨buf, h⟩ := tdd_pixel_set_pixel_frame index red green blue c
  rw [h]

@[simp]
theorem tdd_pixel_set_pixel_pending_value (index red green blue : Nat) (c : LedController) :
    (tdd_pixel_set_pixel index red green blue c).2.pending_value = c.pending_value := by
  obtain ⟨buf, h⟩ := tdd_pixel_set_pixel_frame index red green blue c
  rw [h]

@[simp]
theorem tdd_pixel_set_pixel_has_pending_state (index red green blue : Nat) (c : LedController) :
    (tdd_pixel_set_pixel index red green blue c).2.has_pending_state = c.has_pending_state := by
  obtain ⟨buf, h⟩ := tdd_pixel_set_pixel_frame index red green blue c
  rw [h]

@[simp]
theorem tdd_pixel_set_pixel_state_data (index red green blue : Nat) (c : LedController) :
    (tdd_pixel_set_pixel index red green blue c).2.state_data = c.state_data := by
  obtain ⟨buf, h⟩ := tdd_pixel_set_pixel_frame index red green blue c
  rw [h]

@[simp]
theorem tdd_pixel_set_pixel_main_timer (index red green blue : Nat) (c : LedController) :
    (tdd_pixel_set_pixel index red green blue c).2.main_timer = c.main_timer := by
  obtain ⟨buf, h⟩ := tdd_pixel_set_pixel_frame index red green blue c
  rw [h]

@[simp]
theorem tdd_pixel_set_pixel_tdd_pixel_handle (index red green blue : Nat) (c : LedController) :
    (tdd_pixel_set_pixel index red green blue c).2.tdd_pixel_handle = c.tdd_pixel_handle := by
  obtain ⟨buf, h⟩ := tdd_pixel_set_pixel_frame index red green blue c
  rw [h]

@[simp]
theorem tdd_pixel_set_pixel_tdd_driver_initialized (index red green blue : Nat) (c : LedController) :
    (tdd_pixel_set_pixel index red green blue c).2.tdd_driver_initialized = c.tdd_driver_initialized := by
  obtain ⟨buf, h⟩ := tdd_pixel_set_pixel_frame index red green blue c
  rw [h]

@[simp]
theorem tdd_pixel_set_all_current_state (red green blue : Nat) (c : LedController) :
    (tdd_pixel_set_all red green blue c).2.current_state = c.current_state := by
  obtain ⟨buf, h⟩ := tdd_pixel_set_all_frame red green blue c
  rw [h]

@[simp]
theorem tdd_pixel_set_all_pending_state (red green blue : Nat) (c : LedController) :
    (tdd_pixel_set_all red green blue c).2.pending_state = c.pending_state := by
  obtain ⟨buf, h⟩ := tdd_pixel_set_all_frame red green blue c
  rw [h]

@[simp]
theorem tdd_pixel_set_all_pending_value (red green blue : Nat) (c : LedController) :
    (tdd_pixel_set_all red green blue c).2.pending_value = c.pending_value := by
  obtain ⟨buf, h⟩ := tdd_pixel_set_all_frame red green blue c
  rw [h]

@[simp]
theorem tdd_pixel_set_all_has_pending_state (red green blue : Nat) (c : LedController) :
    (tdd_pixel_set_all red green blue c).2.has_pending_state = c.has_pending_state := by
  obtain ⟨buf, h⟩ := tdd_pixel_set_all_frame red green blue c
  rw [h]

@[simp]
theorem tdd_pixel_set_all_state_data (red green blue : Nat) (c : LedController) :
    (tdd_pixel_set_all red green blue c).2.state_data = c.state_data := by
  obtain ⟨buf, h⟩ := tdd_pixel_set_all_frame red green blue c
  rw [h]

@[simp]
theorem tdd_pixel_set_all_main_timer (red green blue : Nat) (c : LedController) :
    (tdd_pixel_set_all red green blue c).2.main_timer = c.main_timer := by
  obtain ⟨buf, h⟩ := tdd_pixel_set_all_frame red green blue c
  rw [h]

@[simp]
theorem tdd_pixel_set_all_tdd_pixel_handle (red green blue : Nat) (c : LedController) :
    (tdd_pixel_set_all red green blue c).2.tdd_pixel_handle = c.tdd_pixel_handle := by
  obtain ⟨buf, h⟩ := tdd_pixel_set_all_frame red green blue c
  rw [h]

@[simp]
theorem tdd_pixel_set_all_tdd_driver_initialized (red green blue : Nat) (c : LedController) :
    (tdd_pixel_set_all red green blue c).2.tdd_driver_initialized = c.tdd_driver_initialized := by
  obtain ⟨buf, h⟩ := tdd_pixel_set_all_frame red green blue c
  rw [h]

@[simp]
theorem set_all_leds_current_state (color : RGBColor) (c : LedController) :
    (set_all_leds color c).current_state = c.current_state := by
  obtain ⟨buf, h⟩ := set_all_leds_frame color c
  rw [h]

@[simp]
theorem set_all_leds_pending_state (color : RGBColor) (c : LedController) :
    (set_all_leds color c).pending_state = c.pending_state := by
  obtain ⟨buf, h⟩ := set_all_leds_frame color c
  rw [h]

@[simp]
theorem set_all_leds_pending_value (color : RGBColor) (c : LedController) :
    (set_all_leds color c).pending_value = c.pending_value := by
  obtain ⟨buf, h⟩ := set_all_leds_frame color c
  rw [h]

@[simp]
theorem set_all_leds_has_pending_state (color : RGBColor) (c : LedController) :
    (set_all_leds color c).has_pending_state = c.has_pending_state := by
  obtain ⟨buf, h⟩ := set_all_leds_frame color c
  rw [h]

@[simp]
theorem set_all_leds_state_data (color : RGBColor) (c : LedController) :
    (set_all_leds color c).state_data = c.state_data := by
  obtain ⟨buf, h⟩ := set_all_leds_frame color c
  rw [h]

@[simp]
theorem set_all_leds_main_timer (color : RGBColor) (c : LedController) :
    (set_all_leds color c).main_timer = c.main_timer := by
  obtain ⟨buf, h⟩ := set_all_leds_frame color c
  rw [h]

@[simp]
theorem set_all_leds_tdd_pixel_handle (color : RGBColor) (c : LedController) :
    (set_all_leds color c).tdd_pixel_handle = c.tdd_pixel_handle := by
  obtain ⟨buf, h⟩ := set_all_leds_frame color c
  rw [h]

@[simp]
theorem set_all_leds_tdd_driver_initialized (color : RGBColor) (c : LedController) :
    (set_all_leds color c).tdd_driver_initialized = c.tdd_driver_initialized := by
  obtain ⟨buf, h⟩ := set_all_leds_frame color c
  rw [h]

@[simp]
theorem set_level_leds_current_state (color : RGBColor) (level : Nat) (c : LedController) :
    (set_level_leds color level c).current_state = c.current_state := by
  obtain ⟨buf, h⟩ := set_level_leds_frame color level c
  rw [h]

@[simp]
theorem set_level_leds_pending_state (color : RGBColor) (level : Nat) (c : LedController) :
    (set_level_leds color level c).pending_state = c.pending_state := by
  obtain ⟨buf, h⟩ := set_level_leds_frame color level c
  rw [h]

@[simp]
theorem set_level_leds_pending_value (color : RGBColor) (level : Nat) (c : LedController) :
    (set_level_leds color level c).pending_value = c.pending_value := by
  obtain ⟨buf, h⟩ := set_level_leds_frame color level c
  rw [h]

@[simp]
theorem set_level_leds_has_pending_state (color : RGBColor) (level : Nat) (c : LedController) :
    (set_level_leds color level c).has_pending_state = c.has_pending_state := by
  obtain ⟨buf, h⟩ := set_level_leds_frame color level c
  rw [h]

@[simp]
theorem set_level_leds_state_data (color : RGBColor) (level : Nat) (c : LedController) :
    (set_level_leds color level c).state_data = c.state_data := by
  obtain ⟨buf, h⟩ := set_level_leds_frame color level c
  rw [h]

@[simp]
theorem set_level_leds_main_timer (color : RGBColor) (level : Nat) (c : LedController) :
    (set_level_leds color level c).main_timer = c.main_timer := by
  obtain ⟨buf, h⟩ := set_level_leds_frame color level c
  rw [h]

@[simp]
theorem set_level_leds_tdd_pixel_handle (color : RGBColor) (level : Nat) (c : LedController) :
    (set_level_leds color level c).tdd_pixel_handle = c.tdd_pixel_handle := by
  obtain ⟨buf, h⟩ := set_level_leds_frame color level c
  rw [h]

@[simp]
theorem set_level_leds_tdd_driver_initialized (color : RGBColor) (level : Nat) (c : LedController) :
    (set_level_leds color level c).tdd_driver_initialized = c.tdd_driver_initialized := by
  obtain ⟨buf, h⟩ := set_level_leds_frame color level c
  rw [h]

/-! ### Deferral and consumption of requests around the self-test -/

theorem cleanup_current_state_eq (c : LedController) (t : Option Nat) (d : StateData) :
    cleanup_current_state { c with main_timer := t, state_data := d } =
      cleanup_current_state c := rfl

theorem set_led_state_run (s : LedState) (v : Nat) (c : LedController)
    (h : c.current_state ≠ LED_INIT ∨ s = LED_INIT) (t : Option Nat) (d : StateData) :
    set_led_state s v { c with main_timer := t, state_data := d } = set_led_state s v c := by
  have hnd : ¬ (c.current_state = LED_INIT ∧ s ≠ LED_INIT) := by
    rintro ⟨h1, h2⟩
    rcases h with h | h
    · exact h h1
    · exact h2 h
  unfold set_led_state
  simp only [hnd, if_false, cleanup_current_state_eq]

theorem set_led_state_current_state (s : LedState) (v : Nat) (c : LedController)
    (h : c.current_state ≠ LED_INIT ∨ s = LED_INIT) :
    (set_led_state s v c).current_state = s := by
  have hnd : ¬ (c.current_state = LED_INIT ∧ s ≠ LED_INIT) := by
    rintro ⟨h1, h2⟩
    rcases h with h | h
    · exact h h1
    · exact h2 h
  unfold set_led_state
  rw [if_neg hnd]

theorem set_led_state_pending_state (s : LedState) (v : Nat) (c : LedController)
    (h : c.current_state ≠ LED_INIT ∨ s = LED_INIT) :
    (set_led_state s v c).pending_state = c.pending_state := by
  have hnd : ¬ (c.current_state = LED_INIT ∧ s ≠ LED_INIT) := by
    rintro ⟨h1, h2⟩
    rcases h with h | h
    · exact h h1
    · exact h2 h
  unfold set_led_state
  rw [if_neg hnd]
  cases s <;>
    simp [cleanup_current_state, tal_sw_timer_stop, tal_sw_timer_start, tdd_pixel_refresh_snd]
  repeat' split
  all_goals rfl

theorem set_led_state_pending_value (s : LedState) (v : Nat) (c : LedController)
    (h : c.current_state ≠ LED_INIT ∨ s = LED_INIT) :
    (set_led_state s v c).pending_value = c.pending_value := by
  have hnd : ¬ (c.current_state = LED_INIT ∧ s ≠ LED_INIT) := by
    rintro ⟨h1, h2⟩
    rcases h with h | h
    · exact h h1
    · exact h2 h
  unfold set_led_state
  rw [if_neg hnd]
  cases s <;>
    simp [cleanup_current_state, tal_sw_timer_stop, tal_sw_timer_start, tdd_pixel_refresh_snd]
  repeat' split
  all_goals rfl

theorem set_led_state_has_pending_state (s : LedState) (v : Nat) (c : LedController)
    (h : c.current_state ≠ LED_INIT ∨ s = LED_INIT) :
    (set_led_state s v c).has_pending_state = c.has_pending_state := by
  have hnd : ¬ (c.current_state = LED_INIT ∧ s ≠ LED_INIT) := by
    rintro ⟨h1, h2⟩
    rcases h with h | h
    · exact h h1
    · exact h2 h
  unfold set_led_state
  rw [if_neg hnd]
  cases s <;>
    simp [cleanup_current_state, tal_sw_timer_stop, tal_sw_timer_start, tdd_pixel_refresh_snd]
  repeat' split
  all_goals rfl

theorem set_led_state_tdd_pixel_handle (s : LedState) (v : Nat) (c : LedController)
    (h : c.current_state ≠ LED_INIT ∨ s = LED_INIT) :
    (set_led_state s v c).tdd_pixel_handle = c.tdd_pixel_handle := by
  have hnd : ¬ (c.current_state = LED_INIT ∧ s ≠ LED_INIT) := by
    rintro ⟨h1, h2⟩
    rcases h with h | h
    · exact h h1
    · exact h2 h
  unfold set_led_state
  rw [if_neg hnd]
  cases s <;>
    simp [cleanup_current_state, tal_sw_timer_stop, tal_sw_timer_start, tdd_pixel_refresh_snd]
  repeat' split
  all_goals rfl

theorem set_led_state_tdd_driver_initialized (s : LedState) (v : Nat) (c : LedController)
    (h : c.current_state ≠ LED_INIT ∨ s = LED_INIT) :
    (set_led_state s v c).tdd_driver_initialized = c.tdd_driver_initialized := by
  have hnd : ¬ (c.current_state = LED_INIT ∧ s ≠ LED_INIT) := by
    rintro ⟨h1, h2⟩
    rcases h with h | h
    · exact h h1
    · exact h2 h
  unfold set_led_state
  rw [if_neg hnd]
  cases s <;>
    simp [cleanup_current_state, tal_sw_timer_stop, tal_sw_timer_start, tdd_pixel_refresh_snd]
  repeat' split
  all_goals rfl

/-- C1: while `current_state` is `LED_INIT`, `set_led_state s v` with `s ≠ LED_INIT`
returns the input state with only the pending slot changed, the slot now holding
exactly `(s, v)`: the current state is still `LED_INIT`, and frame buffer, INIT step
counter and armed timer are untouched.  A second deferred request overwrites the
first. -/
theorem C1_deferred_request_only_fills_slot (c : LedController) (s : LedState) (v : Nat)
    (hcur : c.current_state = LED_INIT) (hs : s ≠ LED_INIT) :
    set_led_state s v c =
        { c with pending_state := s, pending_value := v, has_pending_state := true } ∧
      (set_led_state s v c).current_state = LED_INIT ∧
      (set_led_state s v c).pixel_buffer = c.pixel_buffer ∧
      (set_led_state s v c).state_data = c.state_data ∧
      (set_led_state s v c).main_timer = c.main_timer ∧
      (set_led_state s v c).has_pending_state = true ∧
      (set_led_state s v c).pending_state = s ∧
      (set_led_state s v c).pending_value = v ∧
      ∀ (s2 : LedState) (v2 : Nat), s2 ≠ LED_INIT →
        set_led_state s2 v2 (set_led_state s v c) =
          { c with pending_state := s2, pending_value := v2, has_pending_state := true } := by
  have h1 : set_led_state s v c =
      { c with pending_state := s, pending_value := v, has_pending_state := true } := by
    simp [set_led_state, hcur, hs]
  refine ⟨h1, ?_, ?_, ?_, ?_, ?_, ?_, ?_, ?_⟩
  · rw [h1]; exact hcur
  · rw [h1]
  · rw [h1]
  · rw [h1]
  · rw [h1]
  · rw [h1]
  · rw [h1]
  · intro s2 v2 hs2
    rw [h1]
    simp [set_led_state, hcur, hs2]

theorem C1_deferred_request_witness :
    after_init.current_state = LED_INIT ∧ LED_NET_ERROR ≠ LED_INIT ∧
      (set_led_state LED_NET_ERROR 0 after_init).has_pending_state = true ∧
      (set_led_state LED_NET_ERROR 0 after_init).pending_state = LED_NET_ERROR :=
  ⟨by decide, by decide,
    (C1_deferred_request_only_fills_slot after_init LED_NET_ERROR 0
      (by decide) (by decide)).2.2.2.2.2.1,
    (C1_deferred_request_only_fills_slot after_init LED_NET_ERROR 0
      (by decide) (by decide)).2.2.2.2.2.2.1⟩

/-- C2: in `LED_INIT` at its last phase (`step = 2`) with the pending slot holding
`(s, v)`, the timer expiry yields exactly the state that a non-deferred
`set_led_state s v` produces from the same controller put in `LED_IDLE` with an
empty slot: the current state is `s`, the slot is empty, and buffer, scratch and
timer are those of the entry action.  For `s = LED_NET_ERROR` no timer is armed
and, the pixel driver being initialised, all twelve pixels are red. -/
theorem C2_pending_request_runs_at_end_of_self_test (c : LedController) (s : LedState)
    (v : Nat) (hcur : c.current_state = LED_INIT) (hstep : c.state_data.init_step = 2)
    (hpend : c.has_pending_state = true) (hs : c.pending_state = s)
    (hv : c.pending_value = v) :
    timer_expire c =
        set_led_state s v { c with current_state := LED_IDLE, has_pending_state := false } ∧
      (timer_expire c).current_state = s ∧
      (timer_expire c).has_pending_state = false ∧
      (s = LED_NET_ERROR →
        (timer_expire c).main_timer = none ∧
        (timer_expire c).state_data = StateData.zero ∧
        (c.tdd_driver_initialized = true →
          all_pixels COLOR_RED (timer_expire c).pixel_buffer)) := by
  have hrun : timer_expire c =
      set_led_state s v { c with current_state := LED_IDLE, has_pending_state := false } := by
    have h := set_led_state_run s v
      { c with current_state := LED_IDLE, has_pending_state := false }
      (Or.inl (by simp)) none
      { c.state_data with init_step := (c.state_data.init_step + 1) % 256 }
    rw [← h]
    simp [timer_expire, main_timer_cb, hcur, hstep, hpend, hs, hv]
  refine ⟨hrun, ?_, ?_, ?_⟩
  · rw [hrun]; simp [set_led_state]
  · rw [hrun, set_led_state_has_pending_state _ _ _ (Or.inl (by simp))]
  · intro hne
    rw [hrun, hne]
    refine ⟨?_, ?_, ?_⟩
    · simp [set_led_state, cleanup_current_state, tal_sw_timer_stop]
    · simp [set_led_state, cleanup_current_state, tal_sw_timer_stop]
    · intro hopen
      have hb : (set_led_state LED_NET_ERROR v
          { c with current_state := LED_IDLE, has_pending_state := false }).pixel_buffer =
          fill_buf COLOR_RED.r COLOR_RED.g COLOR_RED.b := by
        simp [set_led_state, cleanup_current_state, tal_sw_timer_stop, set_all_leds_open, hopen]
      rw [hb]
      exact all_pixels_fill COLOR_RED

theorem C2_pending_request_witness :
    blue_phase_pending.current_state = LED_INIT ∧
      blue_phase_pending.state_data.init_step = 2 ∧
      blue_phase_pending.has_pending_state = true ∧
      blue_phase_pending.tdd_driver_initialized = true ∧
      (timer_expire blue_phase_pending).current_state = LED_NET_ERROR ∧
      (timer_expire blue_phase_pending).has_pending_state = false ∧
      (timer_expire blue_phase_pending).main_timer = none ∧
      all_pixels COLOR_RED (timer_expire blue_phase_pending).pixel_buffer :=
  have h := C2_pending_request_runs_at_end_of_self_test blue_phase_pending LED_NET_ERROR 0
    (by decide) (by decide) (by decide) (by decide) (by decide)
  ⟨by decide, by decide, by decide, by decide, h.2.1, h.2.2.1, (h.2.2.2 rfl).1,
    (h.2.2.2 rfl).2.2 (by decide)⟩

/-- C3: whenever the call is not deferred (the current state is not `LED_INIT`, or
the requested state is `LED_INIT`), `current_state` equals the requested state
when `set_led_state` returns. -/
theorem C3_non_deferred_call_sets_current_state (c : LedController) (s : LedState) (v : Nat)
    (h : c.current_state ≠ LED_INIT ∨ s = LED_INIT) :
    (set_led_state s v c).current_state = s := by
  have hnd : ¬ (c.current_state = LED_INIT ∧ s ≠ LED_INIT) := by
    rintro ⟨h1, h2⟩
    rcases h with h | h
    · exact h h1
    · exact h2 h
  unfold set_led_state
  rw [if_neg hnd]

theorem C3_non_deferred_call_witness :
    (idle_after_init.current_state ≠ LED_INIT ∨ LED_WAKE = LED_INIT) ∧
      (set_led_state LED_WAKE 0 idle_after_init).current_state = LED_WAKE ∧
      (after_init.current_state ≠ LED_INIT ∨ LED_INIT = LED_INIT) ∧
      (set_led_state LED_INIT 0 after_init).current_state = LED_INIT :=
  ⟨by decide,
    C3_non_deferred_call_sets_current_state idle_after_init LED_WAKE 0 (by decide),
    by decide,
    C3_non_deferred_call_sets_current_state after_init LED_INIT 0 (by decide)⟩

/-! ### The power-on self-test -/

theorem led_controller_init_ok (reg_ret open_ret : OPERATE_RET) (c0 : LedController)
    (hok : (tdd_pixel_init reg_ret open_ret c0).1 = OPRT_OK) :
    led_controller_init reg_ret open_ret c0 =
      { current_state := LED_INIT, pending_state := LED_INIT, pending_value := 0,
        has_pending_state := false, state_data := StateData.zero,
        main_timer := some INIT_RED_TIME,
        tdd_pixel_handle := (tdd_pixel_init reg_ret open_ret c0).2.tdd_pixel_handle,
        pixel_buffer := fill_buf 255 0 0, tdd_driver_initialized := true } := by
  unfold tdd_pixel_init at hok
  by_cases h0 : c0.tdd_driver_initialized = true
  · simp [led_controller_init, tdd_pixel_init, h0, set_led_state, cleanup_current_state,
      tal_sw_timer_stop, tal_sw_timer_start, set_all_leds_open, COLOR_RED, StateData.zero]
  · simp only [h0, if_false] at hok
    by_cases h1 : reg_ret = OPRT_OK
    · by_cases h2 : open_ret = OPRT_OK
      · simp [led_controller_init, tdd_pixel_init, h0, h1, h2, set_led_state,
          cleanup_current_state, tal_sw_timer_stop, tal_sw_timer_start, set_all_leds_open,
          COLOR_RED, StateData.zero]
      · simp [h1, h2] at hok
    · simp [h1] at hok

theorem init_tick_green (c : LedController) (hcur : c.current_state = LED_INIT)
    (hstep : c.state_data.init_step = 0) (hopen : c.tdd_driver_initialized = true) :
    timer_expire c =
      { c with state_data := { c.state_data with init_step := 1 },
               main_timer := some INIT_GREEN_TIME, pixel_buffer := fill_buf 0 255 0 } := by
  simp [timer_expire, main_timer_cb, hcur, hstep, set_all_leds_open, hopen, tal_sw_timer_start,
    COLOR_GREEN]

theorem init_tick_blue (c : LedController) (hcur : c.current_state = LED_INIT)
    (hstep : c.state_data.init_step = 1) (hopen : c.tdd_driver_initialized = true) :
    timer_expire c =
      { c with state_data := { c.state_data with init_step := 2 },
               main_timer := some INIT_BLUE_TIME, pixel_buffer := fill_buf 0 0 255 } := by
  simp [timer_expire, main_timer_cb, hcur, hstep, set_all_leds_open, hopen, tal_sw_timer_start,
    COLOR_BLUE]

theorem init_tick_done (c : LedController) (hcur : c.current_state = LED_INIT)
    (hstep : c.state_data.init_step = 2) (hpend : c.has_pending_state = false)
    (hopen : c.tdd_driver_initialized = true) :
    timer_expire c =
      { c with current_state := LED_IDLE, state_data := { c.state_data with init_step := 3 },
               main_timer := none, pixel_buffer := fill_buf 0 0 0 } := by
  simp [timer_expire, main_timer_cb, hcur, hstep, hpend, set_all_leds_open, hopen, COLOR_BLACK]

theorem self_test_run (c : LedController) (hcur : c.current_state = LED_INIT)
    (hstep : c.state_data.init_step = 0) (hpend : c.has_pending_state = false)
    (hopen : c.tdd_driver_initialized = true) :
    ticks 1 c =
        { c with state_data := { c.state_data with init_step := 1 },
                 main_timer := some INIT_GREEN_TIME, pixel_buffer := fill_buf 0 255 0 } ∧
      ticks 2 c =
        { c with state_data := { c.state_data with init_step := 2 },
                 main_timer := some INIT_BLUE_TIME, pixel_buffer := fill_buf 0 0 255 } ∧
      ticks 3 c =
        { c with current_state := LED_IDLE,
                 state_data := { c.state_data with init_step := 3 },
                 main_timer := none, pixel_buffer := fill_buf 0 0 0 } := by
  have h1 := init_tick_green c hcur hstep hopen
  have h2 := init_tick_blue
    { c with state_data := { c.state_data with init_step := 1 },
             main_timer := some INIT_GREEN_TIME, pixel_buffer := fill_buf 0 255 0 }
    hcur rfl hopen
  have h3 := init_tick_done
    { c with state_data := { c.state_data with init_step := 2 },
             main_timer := some INIT_BLUE_TIME, pixel_buffer := fill_buf 0 0 255 }
    hcur rfl hpend hopen
  refine ⟨h1, ?_, ?_⟩
  · show timer_expire (timer_expire c) = _
    rw [h1, h2]
  · show timer_expire (timer_expire (timer_expire c)) = _
    rw [h1, h2, h3]

/-- C4: after a successful `led_controller_init` the state is `LED_INIT` with all
twelve pixels red and the timer armed for 1000 ms; the first expiry makes all pixels
green and re-arms 1000 ms; the second makes all pixels blue and re-arms 1000 ms;
the third, no request being pending, leaves `current_state = LED_IDLE`, all 36
buffer cells zero and no timer armed. -/
theorem C4_self_test_sequence (reg_ret open_ret : OPERATE_RET) (c0 : LedController)
    (hok : (tdd_pixel_init reg_ret open_ret c0).1 = OPRT_OK) :
    ((led_controller_init reg_ret open_ret c0).current_state = LED_INIT ∧
        all_pixels COLOR_RED (led_controller_init reg_ret open_ret c0).pixel_buffer ∧
        (led_controller_init reg_ret open_ret c0).main_timer = some 1000) ∧
      ((ticks 1 (led_controller_init reg_ret open_ret c0)).current_state = LED_INIT ∧
        all_pixels COLOR_GREEN (ticks 1 (led_controller_init reg_ret open_ret c0)).pixel_buffer ∧
        (ticks 1 (led_controller_init reg_ret open_ret c0)).main_timer = some 1000) ∧
      ((ticks 2 (led_controller_init reg_ret open_ret c0)).current_state = LED_INIT ∧
        all_pixels COLOR_BLUE (ticks 2 (led_controller_init reg_ret open_ret c0)).pixel_buffer ∧
        (ticks 2 (led_controller_init reg_ret open_ret c0)).main_timer = some 1000) ∧
      ((ticks 2 (led_controller_init reg_ret open_ret c0)).has_pending_state = false ∧
        (ticks 3 (led_controller_init reg_ret open_ret c0)).current_state = LED_IDLE ∧
        (ticks 3 (led_controller_init reg_ret open_ret c0)).pixel_buffer.val =
          List.replicate 36 0 ∧
        (ticks 3 (led_controller_init reg_ret open_ret c0)).main_timer = none) := by
  rw [led_controller_init_ok reg_ret open_ret c0 hok]
  generalize (tdd_pixel_init reg_ret open_ret c0).2.tdd_pixel_handle = hdl
  obtain ⟨h1, h2, h3⟩ := self_test_run
    { current_state := LED_INIT, pending_state := LED_INIT, pending_value := 0,
      has_pending_state := false, state_data := StateData.zero,
      main_timer := some INIT_RED_TIME, tdd_pixel_handle := hdl,
      pixel_buffer := fill_buf 255 0 0, tdd_driver_initialized := true } rfl rfl rfl rfl
  rw [h1, h2, h3]
  refine ⟨⟨rfl, ?_, rfl⟩, ⟨rfl, ?_, rfl⟩, ⟨rfl, ?_, rfl⟩, ⟨rfl, rfl, rfl, rfl⟩⟩
  · exact all_pixels_fill COLOR_RED
  · exact all_pixels_fill COLOR_GREEN
  · exact all_pixels_fill COLOR_BLUE

theorem C4_self_test_witness :
    (tdd_pixel_init OPRT_OK OPRT_OK power_on).1 = OPRT_OK ∧
      (after_init.current_state = LED_INIT ∧ all_pixels COLOR_RED after_init.pixel_buffer ∧
        after_init.main_timer = some 1000) ∧
      (ticks 3 after_init).current_state = LED_IDLE ∧
      (ticks 3 after_init).main_timer = none :=
  have h := C4_self_test_sequence OPRT_OK OPRT_OK power_on (by decide)
  ⟨by decide, h.1, h.2.2.2.2.1, h.2.2.2.2.2.2⟩

/-! ### The pending slot -/

theorem timer_expire_pending_state (c : LedController) (h : c.current_state ≠ LED_INIT) :
    (timer_expire c).pending_state = c.pending_state := by
  unfold timer_expire main_timer_cb
  cases hc : c.current_state
  · exact absurd hc h
  all_goals simp only [tal_sw_timer_start, tdd_pixel_refresh_snd]
  all_goals repeat' split
  all_goals simp

theorem timer_expire_pending_value (c : LedController) (h : c.current_state ≠ LED_INIT) :
    (timer_expire c).pending_value = c.pending_value := by
  unfold timer_expire main_timer_cb
  cases hc : c.current_state
  · exact absurd hc h
  all_goals simp only [tal_sw_timer_start, tdd_pixel_refresh_snd]
  all_goals repeat' split
  all_goals simp

theorem timer_expire_has_pending_state (c : LedController) (h : c.current_state ≠ LED_INIT) :
    (timer_expire c).has_pending_state = c.has_pending_state := by
  unfold timer_expire main_timer_cb
  cases hc : c.current_state
  · exact absurd hc h
  all_goals simp only [tal_sw_timer_start, tdd_pixel_refresh_snd]
  all_goals repeat' split
  all_goals simp

theorem timer_expire_tdd_pixel_handle (c : LedController) (h : c.current_state ≠ LED_INIT) :
    (timer_expire c).tdd_pixel_handle = c.tdd_pixel_handle := by
  unfold timer_expire main_timer_cb
  cases hc : c.current_state
  · exact absurd hc h
  all_goals simp only [tal_sw_timer_start, tdd_pixel_refresh_snd]
  all_goals repeat' split
  all_goals simp

theorem timer_expire_tdd_driver_initialized (c : LedController) (h : c.current_state ≠ LED_INIT) :
    (timer_expire c).tdd_driver_initialized = c.tdd_driver_initialized := by
  unfold timer_expire main_timer_cb
  cases hc : c.current_state
  · exact absurd hc h
  all_goals simp only [tal_sw_timer_start, tdd_pixel_refresh_snd]
  all_goals repeat' split
  all_goals simp

theorem led_controller_init_has_pending_state (reg_ret open_ret : OPERATE_RET)
    (c0 : LedController) :
    (led_controller_init reg_ret open_ret c0).has_pending_state = false := by
  unfold led_controller_init
  simp only
  split
  · unfold tdd_pixel_init
    repeat' split
    all_goals rfl
  · rw [set_led_state_has_pending_state _ _ _ (Or.inr rfl)]
    unfold tdd_pixel_init
    repeat' split
    all_goals rfl

theorem timer_expire_init_pending (c : LedController) (hcur : c.current_state = LED_INIT)
    (hp : (timer_expire c).has_pending_state = true) :
    (timer_expire c).current_state = LED_INIT ∧
      (timer_expire c).pending_state = c.pending_state ∧ c.has_pending_state = true := by
  unfold timer_expire main_timer_cb at hp ⊢
  simp only [hcur] at hp ⊢
  split at hp
  · rename_i h1
    simp only [h1, if_true]
    simpa [tal_sw_timer_start, hcur] using hp
  · rename_i h1
    simp only [h1, if_false] at hp ⊢
    split at hp
    · rename_i h2
      simp only [h2, if_true]
      simpa [tal_sw_timer_start, hcur] using hp
    · rename_i h2
      exfalso
      split at hp
      · rw [set_led_state_has_pending_state _ _ _ (Or.inl (by simp))] at hp
        simp at hp
      · rename_i h3
        simp at hp
        exact h3 hp

/-- C5: in every state reachable from `led_controller_init` by `set_led_state` calls
and timer expiries, a non-empty pending slot implies that the current state is
`LED_INIT`, and the state held in the slot is never `LED_INIT`. -/
theorem C5_pending_slot_only_during_self_test (c : LedController) (hr : Reachable c)
    (hp : c.has_pending_state = true) :
    c.current_state = LED_INIT ∧ c.pending_state ≠ LED_INIT := by
  induction hr with
  | init reg_ret open_ret c0 =>
    rw [led_controller_init_has_pending_state] at hp
    exact absurd hp (by simp)
  | @set s v c _ ih =>
    by_cases hd : c.current_state = LED_INIT ∧ s ≠ LED_INIT
    · have heq : set_led_state s v c =
          { c with pending_state := s, pending_value := v, has_pending_state := true } := by
        simp [set_led_state, hd]
      rw [heq]
      exact ⟨hd.1, hd.2⟩
    · have hnd : c.current_state ≠ LED_INIT ∨ s = LED_INIT := by
        by_cases h1 : c.current_state = LED_INIT
        · right
          by_contra h2
          exact hd ⟨h1, h2⟩
        · exact Or.inl h1
      rw [set_led_state_has_pending_state _ _ _ hnd] at hp
      obtain ⟨hcur, hpend⟩ := ih hp
      have hs : s = LED_INIT := by
        rcases hnd with h | h
        · exact absurd hcur h
        · exact h
      have hres : (set_led_state s v c).current_state = s := by
        unfold set_led_state
        rw [if_neg hd]
      rw [hres, set_led_state_pending_state _ _ _ hnd]
      exact ⟨hs, hpend⟩
  | @tick c _ ih =>
    by_cases hcur : c.current_state = LED_INIT
    · obtain ⟨h1, h2, h3⟩ := timer_expire_init_pending c hcur hp
      rw [h2]
      exact ⟨h1, (ih h3).2⟩
    · rw [timer_expire_has_pending_state c hcur] at hp
      exact absurd (ih hp).1 hcur

theorem C5_pending_slot_witness :
    Reachable (set_led_state LED_NET_ERROR 0 after_init) ∧
      (set_led_state LED_NET_ERROR 0 after_init).has_pending_state = true ∧
      (set_led_state LED_NET_ERROR 0 after_init).current_state = LED_INIT ∧
      (set_led_state LED_NET_ERROR 0 after_init).pending_state ≠ LED_INIT :=
  have hr : Reachable (set_led_state LED_NET_ERROR 0 after_init) :=
    Reachable.set LED_NET_ERROR 0 (Reachable.init OPRT_OK OPRT_OK power_on)
  have h := C5_pending_slot_only_during_self_test _ hr (by decide)
  ⟨hr, by decide, h.1, h.2⟩

/-! ### LED_CONFIG_SUCCESS -/

theorem level_shown_count (col : RGBColor) (hcol : col ≠ COLOR_BLACK) (k : Nat)
    (hk : k ≤ WS2812_LED_COUNT) (buf : PixelBuffer) (h : level_shown col k buf) :
    count_pixels col buf = k := by
  have hcongr : (List.range WS2812_LED_COUNT).filter (fun p => decide (pixel_at buf p = col)) =
      (List.range WS2812_LED_COUNT).filter (fun p => decide (p ∈ LED_ORDER.take k)) := by
    apply List.filter_congr
    intro p hp
    rw [h p (List.mem_range.mp hp)]
    by_cases hm : p ∈ LED_ORDER.take k
    · simp [hm]
    · simp [hm, Ne.symm hcol]
  unfold count_pixels
  rw [hcongr]
  interval_cases k <;> decide

theorem cfgsucc_entry (c : LedController) (v : Nat) (hcur : c.current_state ≠ LED_INIT)
    (hopen : c.tdd_driver_initialized = true) :
    cfgsucc_inv (min v WS2812_LED_COUNT) (set_led_state LED_CONFIG_SUCCESS v c) := by
  have hmin : (if v > WS2812_LED_COUNT then WS2812_LED_COUNT else v) =
      min v WS2812_LED_COUNT := by
    split <;> omega
  refine ⟨?_, Or.inr ?_⟩
  · rw [set_led_state_tdd_driver_initialized _ _ _ (Or.inl hcur)]
    exact hopen
  · unfold set_led_state
    rw [if_neg (fun h => hcur h.1)]
    simp only [hmin]
    by_cases hz : min v WS2812_LED_COUNT = 0
    · simp only [hz, if_true, tal_sw_timer_start]
      refine ⟨trivial, ?_, ?_, ?_, ?_⟩
      · simp
      · simp
      · have hl := set_level_leds_open COLOR_GREEN 0
          { cleanup_current_state c with state_data :=
              { (cleanup_current_state c).state_data with
                cfgsucc_target_level := 0, cfgsucc_current_count := 0,
                cfgsucc_hold_phase := false } } hopen
        simpa using hl
      · intro _
        simp
    · simp only [hz, if_false, tal_sw_timer_start]
      refine ⟨trivial, ?_, ?_, ?_, ?_⟩
      · simp
      · simp
        omega
      · have hl := set_level_leds_open COLOR_GREEN 1
          { cleanup_current_state c with state_data :=
              { (cleanup_current_state c).state_data with
                cfgsucc_target_level := min v WS2812_LED_COUNT, cfgsucc_current_count := 1,
                cfgsucc_hold_phase := false } } hopen
        simpa using hl
      · intro hh
        simp at hh

theorem idle_tick (c : LedController) (hcur : c.current_state = LED_IDLE) :
    timer_expire c = { c with main_timer := none } := by
  simp [timer_expire, main_timer_cb, hcur]

theorem idle_ticks (n : Nat) (c : LedController) (hcur : c.current_state = LED_IDLE)
    (ht : c.main_timer = none) : ticks n c = c := by
  induction n with
  | zero => rfl
  | succ n ih =>
    show timer_expire (ticks n c) = c
    rw [ih, idle_tick c hcur, ← ht]

theorem set_level_leds_open_le (color : RGBColor) (level : Nat) (c : LedController)
    (h : c.tdd_driver_initialized = true) (hle : level ≤ 12) :
    level_shown color level (set_level_leds color level c).pixel_buffer := by
  have hl := set_level_leds_open color level c h
  rwa [Nat.min_eq_left hle] at hl

theorem cfgsucc_step (k : Nat) (hk : k ≤ 12) (c : LedController)
    (hinv : cfgsucc_inv k c) : cfgsucc_inv k (timer_expire c) := by
  obtain ⟨hopen, hst⟩ := hinv
  rcases hst with hidle | ⟨hcur, htgt, hcnt, hshown, hhold⟩
  · rw [idle_tick c hidle]
    exact ⟨hopen, Or.inl hidle⟩
  · have hne : c.current_state ≠ LED_INIT := by rw [hcur]; decide
    refine ⟨by rw [timer_expire_tdd_driver_initialized c hne]; exact hopen, ?_⟩
    unfold timer_expire main_timer_cb
    simp only [hcur]
    by_cases hh : c.state_data.cfgsucc_hold_phase = false
    · simp only [hh, if_true]
      by_cases hlt : c.state_data.cfgsucc_current_count < c.state_data.cfgsucc_target_level
      · have hmod : (c.state_data.cfgsucc_current_count + 1) % 256 =
            c.state_data.cfgsucc_current_count + 1 := by
          apply Nat.mod_eq_of_lt
          omega
        simp only [hlt, if_true, hmod]
        right
        split
        · rename_i hge
          simp only [tal_sw_timer_start, set_level_leds_current_state,
            set_level_leds_state_data] at hge ⊢
          refine ⟨trivial, htgt, by omega, ?_, fun _ => by omega⟩
          exact set_level_leds_open_le _ _ _ hopen (by omega)
        · rename_i hge
          simp only [tal_sw_timer_start, set_level_leds_current_state,
            set_level_leds_state_data] at hge ⊢
          refine ⟨trivial, htgt, by omega, ?_, fun hhold2 => ?_⟩
          · exact set_level_leds_open_le _ _ _ hopen (by omega)
          · exact absurd hhold2 (by simp)
      · simp only [hlt, if_false, tal_sw_timer_start]
        right
        exact ⟨trivial, htgt, hcnt, hshown, fun _ => by omega⟩
    · simp only [hh, if_false]
      left
      simp

/-- C6: for every value `v`, with `k = min v 12`, in every state reached from a
non-deferred `set_led_state LED_CONFIG_SUCCESS v` by timer expiries and still in
`LED_CONFIG_SUCCESS`: `target_level = k`, `current_count ≤ k`, and the buffer shows
green exactly at the physical pixels `LED_ORDER[0 .. current_count-1]` and black at
all others; whenever `hold_phase` is set, `current_count = k`, so exactly `k` of the
twelve pixels are green.  The value 13 gives the same controller as 12. -/
theorem C6_config_success_display (c : LedController) (v n : Nat)
    (hcur : c.current_state ≠ LED_INIT) (hopen : c.tdd_driver_initialized = true)
    (hcs : (ticks n (set_led_state LED_CONFIG_SUCCESS v c)).current_state =
      LED_CONFIG_SUCCESS) :
    (ticks n (set_led_state LED_CONFIG_SUCCESS v c)).state_data.cfgsucc_target_level =
        min v 12 ∧
      (ticks n (set_led_state LED_CONFIG_SUCCESS v c)).state_data.cfgsucc_current_count ≤
        min v 12 ∧
      level_shown COLOR_GREEN
        (ticks n (set_led_state LED_CONFIG_SUCCESS v c)).state_data.cfgsucc_current_count
        (ticks n (set_led_state LED_CONFIG_SUCCESS v c)).pixel_buffer ∧
      ((ticks n (set_led_state LED_CONFIG_SUCCESS v c)).state_data.cfgsucc_hold_phase = true →
        (ticks n (set_led_state LED_CONFIG_SUCCESS v c)).state_data.cfgsucc_current_count =
            min v 12 ∧
          level_shown COLOR_GREEN (min v 12)
            (ticks n (set_led_state LED_CONFIG_SUCCESS v c)).pixel_buffer ∧
          count_pixels COLOR_GREEN
            (ticks n (set_led_state LED_CONFIG_SUCCESS v c)).pixel_buffer = min v 12) ∧
      set_led_state LED_CONFIG_SUCCESS 13 c = set_led_state LED_CONFIG_SUCCESS 12 c := by
  have hinv : ∀ m, cfgsucc_inv (min v WS2812_LED_COUNT)
      (ticks m (set_led_state LED_CONFIG_SUCCESS v c)) := by
    intro m
    induction m with
    | zero => exact cfgsucc_entry c v hcur hopen
    | succ m ih => exact cfgsucc_step _ (Nat.min_le_right _ _) _ ih
  obtain ⟨_, hst⟩ := hinv n
  rcases hst with hidle | ⟨_, htgt, hcnt, hshown, hhold⟩
  · rw [hidle] at hcs
    exact absurd hcs (by decide)
  · refine ⟨htgt, hcnt, hshown, fun hh => ?_, ?_⟩
    · have hk := hhold hh
      refine ⟨hk, ?_, ?_⟩
      · rw [← hk]; exact hshown
      · apply level_shown_count COLOR_GREEN (by decide) _ (Nat.min_le_right _ _)
        rw [← hk]; exact hshown
    · simp [set_led_state, hcur]

/-! ### The pixel helpers as functions on the frame buffer -/

theorem tdd_pixel_set_pixel_lift (index red green blue : Nat) (c : LedController) :
    (tdd_pixel_set_pixel index red green blue c).2 =
      { c with pixel_buffer :=
                 guarded_put c.tdd_driver_initialized index red green blue c.pixel_buffer } := by
  unfold tdd_pixel_set_pixel guarded_put
  split <;> rfl

theorem foldl_lift (F : LedController → Nat → LedController)
    (G : Bool → PixelBuffer → Nat → PixelBuffer)
    (hF : ∀ acc i, F acc i =
      { acc with pixel_buffer := G acc.tdd_driver_initialized acc.pixel_buffer i })
    (is : List Nat) :
    ∀ c : LedController, is.foldl F c =
      { c with pixel_buffer := is.foldl (G c.tdd_driver_initialized) c.pixel_buffer } := by
  induction is with
  | nil => intro c; rfl
  | cons i is ih =>
    intro c
    rw [List.foldl_cons, List.foldl_cons, hF c i, ih]

theorem tdd_pixel_set_all_lift (red green blue : Nat) (c : LedController) :
    (tdd_pixel_set_all red green blue c).2 =
      { c with pixel_buffer :=
                 set_all_buf c.tdd_driver_initialized red green blue c.pixel_buffer } := by
  unfold tdd_pixel_set_all set_all_buf
  split
  · rfl
  · exact foldl_lift _ (fun ini buf i => guarded_put ini i red green blue buf)
      (fun acc i => tdd_pixel_set_pixel_lift i red green blue acc) _ c

theorem set_all_leds_lift (color : RGBColor) (c : LedController) :
    set_all_leds color c =
      { c with pixel_buffer :=
                 set_all_buf c.tdd_driver_initialized color.r color.g color.b c.pixel_buffer } := by
  unfold set_all_leds
  rw [tdd_pixel_refresh_snd, tdd_pixel_set_all_lift]

theorem set_level_leds_lift (color : RGBColor) (level : Nat) (c : LedController) :
    set_level_leds color level c =
      { c with pixel_buffer :=
                 set_level_buf c.tdd_driver_initialized color level c.pixel_buffer } := by
  unfold set_level_leds set_level_buf
  simp only [tdd_pixel_refresh_snd]
  generalize (if level > WS2812_LED_COUNT then WS2812_LED_COUNT else level) = m
  apply foldl_lift _ (fun ini buf i =>
      if i < m then guarded_put ini (LED_ORDER.getD i 0) color.r color.g color.b buf
      else guarded_put ini (LED_ORDER.getD i 0) COLOR_BLACK.r COLOR_BLACK.g COLOR_BLACK.b buf)
  intro acc i
  by_cases h : i < m
  · simp only [h, if_true]
    exact tdd_pixel_set_pixel_lift _ _ _ _ acc
  · simp only [h, if_false]
    exact tdd_pixel_set_pixel_lift _ _ _ _ acc

theorem guarded_put_open (index red green blue : Nat) (buf : PixelBuffer)
    (hi : index < WS2812_LED_COUNT) :
    guarded_put true index red green blue buf = buf.put index red green blue := by
  have hge : ¬ (index ≥ WS2812_LED_COUNT) := by omega
  simp [guarded_put, hge]

theorem set_all_buf_open (red green blue : Nat) (buf : PixelBuffer) :
    set_all_buf true red green blue buf = fill_buf red green blue := by
  unfold set_all_buf
  rw [if_neg (by simp), ← put_all red green blue buf]
  apply List.foldl_ext
  intro b i hi
  exact guarded_put_open i red green blue b (List.mem_range.mp hi)

/-! ### Timer expiries depend only on what is displayed -/

theorem timer_expire_congr_LED_IDLE (c1 c2 : LedController) (h : same_display c1 c2)
    (hcur : c2.current_state = LED_IDLE) :
    same_display (timer_expire c1) (timer_expire c2) := by
  obtain ⟨h1, h2, h3, h4, h5⟩ := h
  unfold same_display timer_expire main_timer_cb
  simp only [h1, h2, h4, h5, hcur, set_all_leds_lift, set_level_leds_lift,
    tdd_pixel_set_all_lift, tdd_pixel_set_pixel_lift, tdd_pixel_refresh_snd,
    tal_sw_timer_start]
  all_goals simp

theorem timer_expire_congr_LED_CONFIGURING (c1 c2 : LedController) (h : same_display c1 c2)
    (hcur : c2.current_state = LED_CONFIGURING) :
    same_display (timer_expire c1) (timer_expire c2) := by
  obtain ⟨h1, h2, h3, h4, h5⟩ := h
  unfold same_display timer_expire main_timer_cb
  simp only [h1, h2, h4, h5, hcur, set_all_leds_lift, set_level_leds_lift,
    tdd_pixel_set_all_lift, tdd_pixel_set_pixel_lift, tdd_pixel_refresh_snd,
    tal_sw_timer_start]
  repeat' split
  all_goals simp

theorem timer_expire_congr_LED_CONFIG_SUCCESS (c1 c2 : LedController) (h : same_display c1 c2)
    (hcur : c2.current_state = LED_CONFIG_SUCCESS) :
    same_display (timer_expire c1) (timer_expire c2) := by
  obtain ⟨h1, h2, h3, h4, h5⟩ := h
  unfold same_display timer_expire main_timer_cb
  simp only [h1, h2, h4, h5, hcur, set_all_leds_lift, set_level_leds_lift,
    tdd_pixel_set_all_lift, tdd_pixel_set_pixel_lift, tdd_pixel_refresh_snd,
    tal_sw_timer_start]
  repeat' split
  all_goals simp

theorem timer_expire_congr_LED_NET_ERROR (c1 c2 : LedController) (h : same_display c1 c2)
    (hcur : c2.current_state = LED_NET_ERROR) :
    same_display (timer_expire c1) (timer_expire c2) := by
  obtain ⟨h1, h2, h3, h4, h5⟩ := h
  unfold same_display timer_expire main_timer_cb
  simp only [h1, h2, h4, h5, hcur, set_all_leds_lift, set_level_leds_lift,
    tdd_pixel_set_all_lift, tdd_pixel_set_pixel_lift, tdd_pixel_refresh_snd,
    tal_sw_timer_start]
  all_goals simp

theorem timer_expire_congr_LED_DIALOG (c1 c2 : LedController) (h : same_display c1 c2)
    (hcur : c2.current_state = LED_DIALOG) :
    same_display (timer_expire c1) (timer_expire c2) := by
  obtain ⟨h1, h2, h3, h4, h5⟩ := h
  unfold same_display timer_expire main_timer_cb
  simp only [h1, h2, h4, h5, hcur, set_all_leds_lift, set_level_leds_lift,
    tdd_pixel_set_all_lift, tdd_pixel_set_pixel_lift, tdd_pixel_refresh_snd,
    tal_sw_timer_start]
  repeat' split
  all_goals simp

theorem timer_expire_congr_LED_VOLUME (c1 c2 : LedController) (h : same_display c1 c2)
    (hcur : c2.current_state = LED_VOLUME) :
    same_display (timer_expire c1) (timer_expire c2) := by
  obtain ⟨h1, h2, h3, h4, h5⟩ := h
  unfold same_display timer_expire main_timer_cb
  simp only [h1, h2, h4, h5, hcur, set_all_leds_lift, set_level_leds_lift,
    tdd_pixel_set_all_lift, tdd_pixel_set_pixel_lift, tdd_pixel_refresh_snd,
    tal_sw_timer_start]
  all_goals simp

theorem timer_expire_congr_LED_BREATHING (c1 c2 : LedController) (h : same_display c1 c2)
    (hcur : c2.current_state = LED_BREATHING) :
    same_display (timer_expire c1) (timer_expire c2) := by
  obtain ⟨h1, h2, h3, h4, h5⟩ := h
  unfold same_display timer_expire main_timer_cb
  simp only [h1, h2, h4, h5, hcur, set_all_leds_lift, set_level_leds_lift,
    tdd_pixel_set_all_lift, tdd_pixel_set_pixel_lift, tdd_pixel_refresh_snd,
    tal_sw_timer_start]
  repeat' split
  all_goals simp

theorem timer_expire_congr_LED_WAKE (c1 c2 : LedController) (h : same_display c1 c2)
    (hcur : c2.current_state = LED_WAKE) :
    same_display (timer_expire c1) (timer_expire c2) := by
  obtain ⟨h1, h2, h3, h4, h5⟩ := h
  unfold same_display timer_expire main_timer_cb
  simp only [h1, h2, h4, h5, hcur, set_all_leds_lift, set_level_leds_lift,
    tdd_pixel_set_all_lift, tdd_pixel_set_pixel_lift, tdd_pixel_refresh_snd,
    tal_sw_timer_start]
  repeat' split
  all_goals simp

theorem timer_expire_congr_LED_STANDBY (c1 c2 : LedController) (h : same_display c1 c2)
    (hcur : c2.current_state = LED_STANDBY) :
    same_display (timer_expire c1) (timer_expire c2) := by
  obtain ⟨h1, h2, h3, h4, h5⟩ := h
  unfold same_display timer_expire main_timer_cb
  simp only [h1, h2, h4, h5, hcur, set_all_leds_lift, set_level_leds_lift,
    tdd_pixel_set_all_lift, tdd_pixel_set_pixel_lift, tdd_pixel_refresh_snd,
    tal_sw_timer_start]
  repeat' split
  all_goals simp

theorem timer_expire_same_display (c1 c2 : LedController) (h : same_display c1 c2)
    (hne : c1.current_state ≠ LED_INIT) :
    same_display (timer_expire c1) (timer_expire c2) := by
  have hne2 : c2.current_state ≠ LED_INIT := by rw [← h.1]; exact hne
  cases hc : c2.current_state
  · exact absurd hc hne2
  · exact timer_expire_congr_LED_IDLE c1 c2 h hc
  · exact timer_expire_congr_LED_CONFIGURING c1 c2 h hc
  · exact timer_expire_congr_LED_CONFIG_SUCCESS c1 c2 h hc
  · exact timer_expire_congr_LED_NET_ERROR c1 c2 h hc
  · exact timer_expire_congr_LED_DIALOG c1 c2 h hc
  · exact timer_expire_congr_LED_VOLUME c1 c2 h hc
  · exact timer_expire_congr_LED_BREATHING c1 c2 h hc
  · exact timer_expire_congr_LED_WAKE c1 c2 h hc
  · exact timer_expire_congr_LED_STANDBY c1 c2 h hc

theorem timer_expire_ne_init (c : LedController) (hne : c.current_state ≠ LED_INIT) :
    (timer_expire c).current_state ≠ LED_INIT := by
  unfold timer_expire main_timer_cb
  cases hc : c.current_state
  · exact absurd hc hne
  all_goals simp only [tal_sw_timer_start, tdd_pixel_refresh_snd]
  all_goals repeat' split
  all_goals simp [hc]

theorem ticks_ne_init (n : Nat) (c : LedController) (hne : c.current_state ≠ LED_INIT) :
    (ticks n c).current_state ≠ LED_INIT := by
  induction n with
  | zero => exact hne
  | succ n ih => exact timer_expire_ne_init _ ih

theorem ticks_same_display (n : Nat) (c1 c2 : LedController) (h : same_display c1 c2)
    (hne : c1.current_state ≠ LED_INIT) :
    same_display (ticks n c1) (ticks n c2) := by
  induction n with
  | zero => exact h
  | succ n ih => exact timer_expire_same_display _ _ ih (ticks_ne_init n c1 hne)

theorem elapsed_same_display (n : Nat) (c1 c2 : LedController) (h : same_display c1 c2)
    (hne : c1.current_state ≠ LED_INIT) :
    elapsed n c1 = elapsed n c2 := by
  induction n with
  | zero => rfl
  | succ n ih =>
    have h3 := (ticks_same_display n c1 c2 h hne).2.2.1
    simp only [elapsed, armed_ms, ih, h3]

theorem set_led_state_same_display (s : LedState) (v1 v2 : Nat) (c1 c2 : LedController)
    (hs : s ≠ LED_BREATHING ∧ s ≠ LED_CONFIG_SUCCESS ∧ s ≠ LED_VOLUME)
    (hne1 : c1.current_state ≠ LED_INIT) (hne2 : c2.current_state ≠ LED_INIT)
    (hopen1 : c1.tdd_driver_initialized = true) (hopen2 : c2.tdd_driver_initialized = true) :
    same_display (set_led_state s v1 c1) (set_led_state s v2 c2) := by
  obtain ⟨hs1, hs2, hs3⟩ := hs
  unfold same_display set_led_state
  simp only [hne1, hne2, false_and, if_false]
  cases s
  case LED_BREATHING => exact absurd rfl hs1
  case LED_CONFIG_SUCCESS => exact absurd rfl hs2
  case LED_VOLUME => exact absurd rfl hs3
  all_goals
    simp [cleanup_current_state, tal_sw_timer_stop, tal_sw_timer_start, set_all_leds_lift,
      tdd_pixel_set_all_lift, tdd_pixel_set_pixel_lift, tdd_pixel_refresh_snd, hopen1, hopen2,
      set_all_buf_open]

/-! ### LED_CONFIG_SUCCESS: concrete runs -/

theorem C6_config_success_witness :
    idle_after_init.current_state ≠ LED_INIT ∧
      idle_after_init.tdd_driver_initialized = true ∧
      (ticks 4 (set_led_state LED_CONFIG_SUCCESS 5 idle_after_init)).current_state =
        LED_CONFIG_SUCCESS ∧
      (ticks 4 (set_led_state LED_CONFIG_SUCCESS 5
        idle_after_init)).state_data.cfgsucc_hold_phase = true ∧
      count_pixels COLOR_GREEN
        (ticks 4 (set_led_state LED_CONFIG_SUCCESS 5 idle_after_init)).pixel_buffer =
        min 5 12 :=
  have h := C6_config_success_display idle_after_init 5 4 (by decide) (by decide) (by decide)
  ⟨by decide, by decide, by decide, by decide, (h.2.2.2.1 (by decide)).2.2⟩

set_option maxRecDepth 100000 in
/-- C7 (the code at the failing level 1, and at the conforming levels 2..12): from
`LED_IDLE`, `set_led_state LED_CONFIG_SUCCESS 1` lights its single LED at entry but
leaves `hold_phase` clear and arms a 200 ms step; the hold phase starts only at the
first expiry, 200 ms after entry, and the controller is back in `LED_IDLE`, all
black, 2200 ms after entry.  For every level `k` from 2 to 12 one more LED is lit
every 200 ms, the hold phase starts at `200 * (k - 1)` ms, when the `k`-th LED is
lit, and `LED_IDLE` is reached at `200 * (k - 1) + 2000` ms. -/
theorem C7_config_success_timing_by_level :
    ((set_led_state LED_CONFIG_SUCCESS 1 idle_after_init).state_data.cfgsucc_current_count = 1 ∧
        level_shown COLOR_GREEN 1
          (set_led_state LED_CONFIG_SUCCESS 1 idle_after_init).pixel_buffer ∧
        (set_led_state LED_CONFIG_SUCCESS 1 idle_after_init).state_data.cfgsucc_hold_phase =
          false ∧
        (set_led_state LED_CONFIG_SUCCESS 1 idle_after_init).main_timer = some 200 ∧
        (ticks 1 (set_led_state LED_CONFIG_SUCCESS 1
          idle_after_init)).state_data.cfgsucc_hold_phase = true ∧
        (ticks 1 (set_led_state LED_CONFIG_SUCCESS 1 idle_after_init)).main_timer =
          some 2000 ∧
        elapsed 1 (set_led_state LED_CONFIG_SUCCESS 1 idle_after_init) = 200 ∧
        (ticks 1 (set_led_state LED_CONFIG_SUCCESS 1 idle_after_init)).current_state =
          LED_CONFIG_SUCCESS ∧
        (ticks 2 (set_led_state LED_CONFIG_SUCCESS 1 idle_after_init)).current_state =
          LED_IDLE ∧
        all_pixels COLOR_BLACK
          (ticks 2 (set_led_state LED_CONFIG_SUCCESS 1 idle_after_init)).pixel_buffer ∧
        elapsed 2 (set_led_state LED_CONFIG_SUCCESS 1 idle_after_init) = 2200) ∧
      ∀ k, k ≤ 12 → 2 ≤ k →
        (∀ j, j ≤ k - 1 →
          (ticks j (set_led_state LED_CONFIG_SUCCESS k
            idle_after_init)).state_data.cfgsucc_current_count = j + 1 ∧
          level_shown COLOR_GREEN (j + 1)
            (ticks j (set_led_state LED_CONFIG_SUCCESS k idle_after_init)).pixel_buffer ∧
          elapsed j (set_led_state LED_CONFIG_SUCCESS k idle_after_init) = 200 * j ∧
          ((ticks j (set_led_state LED_CONFIG_SUCCESS k
            idle_after_init)).state_data.cfgsucc_hold_phase = true ↔ j = k - 1)) ∧
        (ticks k (set_led_state LED_CONFIG_SUCCESS k idle_after_init)).current_state =
          LED_IDLE ∧
        all_pixels COLOR_BLACK
          (ticks k (set_led_state LED_CONFIG_SUCCESS k idle_after_init)).pixel_buffer ∧
        elapsed k (set_led_state LED_CONFIG_SUCCESS k idle_after_init) =
          200 * (k - 1) + 2000 := by
  refine ⟨by decide, ?_⟩
  intro k hk h2
  refine ⟨?_, by interval_cases k <;> decide⟩
  intro j hj
  interval_cases k <;> interval_cases j <;> decide

/-! ### LED_DIALOG -/

theorem dialog_ref_run :
    all_pixels COLOR_BLUE dialog_ref.pixel_buffer ∧
      (∀ n, n ≤ 39 → (ticks n dialog_ref).current_state = LED_DIALOG) ∧
      ((ticks 40 dialog_ref).current_state = LED_IDLE ∧
        all_pixels COLOR_BLACK (ticks 40 dialog_ref).pixel_buffer ∧
        (ticks 40 dialog_ref).main_timer = none) ∧
      (∀ n, n ≤ 39 →
        (n % 2 = 0 → all_pixels COLOR_BLUE (ticks n dialog_ref).pixel_buffer ∧
          (ticks n dialog_ref).main_timer = some 100) ∧
        (n % 2 = 1 → all_pixels COLOR_BLACK (ticks n dialog_ref).pixel_buffer ∧
          (ticks n dialog_ref).main_timer = some 150)) ∧
      ((List.range 40).filter
        (fun n => decide (all_pixels COLOR_BLUE (ticks n dialog_ref).pixel_buffer))).length =
        20 ∧
      elapsed 40 dialog_ref = 20 * (100 + 150) := by
  decide!

/-- C8: from any state other than `LED_INIT` (pixel driver initialised), after
`set_led_state LED_DIALOG v` the ring is all blue; the current state stays
`LED_DIALOG` through the first 39 timer expiries and becomes `LED_IDLE`, all pixels
black and no timer armed, exactly at the 40th; the armed intervals alternate 100 ms
with the ring blue and 150 ms with the ring black, which makes exactly 20 timed
blue phases and `20 * (100 + 150) = 5000` ms in total, where
`DIALOG_BLINK_COUNT = 5000 / (100 + 150) = 20`. -/
theorem C8_dialog_full_cycle (c : LedController) (v : Nat)
    (hcur : c.current_state ≠ LED_INIT) (hopen : c.tdd_driver_initialized = true) :
    all_pixels COLOR_BLUE (set_led_state LED_DIALOG v c).pixel_buffer ∧
      (∀ n, n ≤ 39 → (ticks n (set_led_state LED_DIALOG v c)).current_state = LED_DIALOG) ∧
      ((ticks 40 (set_led_state LED_DIALOG v c)).current_state = LED_IDLE ∧
        all_pixels COLOR_BLACK (ticks 40 (set_led_state LED_DIALOG v c)).pixel_buffer ∧
        (ticks 40 (set_led_state LED_DIALOG v c)).main_timer = none) ∧
      (∀ n, n ≤ 39 →
        (n % 2 = 0 →
          all_pixels COLOR_BLUE (ticks n (set_led_state LED_DIALOG v c)).pixel_buffer ∧
          (ticks n (set_led_state LED_DIALOG v c)).main_timer = some 100) ∧
        (n % 2 = 1 →
          all_pixels COLOR_BLACK (ticks n (set_led_state LED_DIALOG v c)).pixel_buffer ∧
          (ticks n (set_led_state LED_DIALOG v c)).main_timer = some 150)) ∧
      ((List.range 40).filter
        (fun n => decide
          (all_pixels COLOR_BLUE (ticks n (set_led_state LED_DIALOG v c)).pixel_buffer))).length =
        20 ∧
      elapsed 40 (set_led_state LED_DIALOG v c) = 20 * (100 + 150) ∧
      20 * (100 + 150) = 5000 ∧
      DIALOG_BLINK_COUNT = 5000 / (100 + 150) ∧ DIALOG_BLINK_COUNT = 20 := by
  have h0 : same_display (set_led_state LED_DIALOG v c) dialog_ref :=
    set_led_state_same_display LED_DIALOG v 0 c idle_after_init
      ⟨by decide, by decide, by decide⟩ hcur (by decide) hopen (by decide)
  have hne : (set_led_state LED_DIALOG v c).current_state ≠ LED_INIT := by
    rw [set_led_state_current_state LED_DIALOG v c (Or.inl hcur)]
    decide
  have hs : ∀ n, (ticks n (set_led_state LED_DIALOG v c)).current_state =
      (ticks n dialog_ref).current_state :=
    fun n => (ticks_same_display n _ _ h0 hne).1
  have ht : ∀ n, (ticks n (set_led_state LED_DIALOG v c)).main_timer =
      (ticks n dialog_ref).main_timer :=
    fun n => (ticks_same_display n _ _ h0 hne).2.2.1
  have hb : ∀ n, (ticks n (set_led_state LED_DIALOG v c)).pixel_buffer =
      (ticks n dialog_ref).pixel_buffer :=
    fun n => (ticks_same_display n _ _ h0 hne).2.2.2.1
  have he := elapsed_same_display 40 _ _ h0 hne
  have hb0 := hb 0
  simp only [ticks] at hb0
  simp only [hs, ht, hb, he, hb0]
  obtain ⟨r1, r2, r3, r4, r5, r6⟩ := dialog_ref_run
  exact ⟨r1, r2, r3, r4, r5, r6, by decide, by decide, by decide⟩

theorem C8_dialog_full_cycle_witness :
    idle_after_init.current_state ≠ LED_INIT ∧
      idle_after_init.tdd_driver_initialized = true ∧
      (ticks 39 (set_led_state LED_DIALOG 7 idle_after_init)).current_state = LED_DIALOG ∧
      (ticks 40 (set_led_state LED_DIALOG 7 idle_after_init)).current_state = LED_IDLE ∧
      elapsed 40 (set_led_state LED_DIALOG 7 idle_after_init) = 20 * (100 + 150) :=
  have h := C8_dialog_full_cycle idle_after_init 7 (by decide) (by decide)
  ⟨by decide, by decide, h.2.1 39 (by decide), h.2.2.1.1, h.2.2.2.2.2.1⟩

/-! ### LED_WAKE -/

theorem wake_ref_run :
    (all_pixels COLOR_BLUE wake_ref.pixel_buffer ∧ wake_ref.main_timer = some 200) ∧
      (all_pixels COLOR_BLACK (ticks 1 wake_ref).pixel_buffer ∧
        (ticks 1 wake_ref).current_state = LED_WAKE ∧ elapsed 1 wake_ref = 200) ∧
      (all_pixels COLOR_BLUE (ticks 2 wake_ref).pixel_buffer ∧
        (ticks 2 wake_ref).current_state = LED_WAKE ∧ elapsed 2 wake_ref = 400) ∧
      (all_pixels COLOR_BLACK (ticks 3 wake_ref).pixel_buffer ∧
        (ticks 3 wake_ref).current_state = LED_WAKE ∧ elapsed 3 wake_ref = 600) ∧
      (all_pixels COLOR_BLUE (ticks 4 wake_ref).pixel_buffer ∧
        (ticks 4 wake_ref).current_state = LED_WAKE ∧ elapsed 4 wake_ref = 800 ∧
        (ticks 4 wake_ref).main_timer = some 12000) ∧
      ((ticks 5 wake_ref).current_state = LED_IDLE ∧
        all_pixels COLOR_BLACK (ticks 5 wake_ref).pixel_buffer ∧
        (ticks 5 wake_ref).main_timer = none ∧ elapsed 5 wake_ref = 12800) := by
  decide!

/-- C9: from any state other than `LED_INIT` (pixel driver initialised), after
`set_led_state LED_WAKE v` the ring is all blue with the timer armed for 200 ms;
the expiries 1 to 4, at 200, 400, 600 and 800 ms, leave the ring black, blue,
black, blue; the 4th enters the solid phase with the ring blue and the timer armed
for 12000 ms; the 5th, at 12800 ms, sets `LED_IDLE` with all pixels black and no
timer armed; the current state is `LED_WAKE` after each of the expiries 1 to 4. -/
theorem C9_wake_cycle (c : LedController) (v : Nat)
    (hcur : c.current_state ≠ LED_INIT) (hopen : c.tdd_driver_initialized = true) :
    (all_pixels COLOR_BLUE (set_led_state LED_WAKE v c).pixel_buffer ∧
        (set_led_state LED_WAKE v c).main_timer = some 200) ∧
      (all_pixels COLOR_BLACK (ticks 1 (set_led_state LED_WAKE v c)).pixel_buffer ∧
        (ticks 1 (set_led_state LED_WAKE v c)).current_state = LED_WAKE ∧
        elapsed 1 (set_led_state LED_WAKE v c) = 200) ∧
      (all_pixels COLOR_BLUE (ticks 2 (set_led_state LED_WAKE v c)).pixel_buffer ∧
        (ticks 2 (set_led_state LED_WAKE v c)).current_state = LED_WAKE ∧
        elapsed 2 (set_led_state LED_WAKE v c) = 400) ∧
      (all_pixels COLOR_BLACK (ticks 3 (set_led_state LED_WAKE v c)).pixel_buffer ∧
        (ticks 3 (set_led_state LED_WAKE v c)).current_state = LED_WAKE ∧
        elapsed 3 (set_led_state LED_WAKE v c) = 600) ∧
      (all_pixels COLOR_BLUE (ticks 4 (set_led_state LED_WAKE v c)).pixel_buffer ∧
        (ticks 4 (set_led_state LED_WAKE v c)).current_state = LED_WAKE ∧
        elapsed 4 (set_led_state LED_WAKE v c) = 800 ∧
        (ticks 4 (set_led_state LED_WAKE v c)).state_data.wake_in_solid_phase = true ∧
        (ticks 4 (set_led_state LED_WAKE v c)).main_timer = some 12000) ∧
      ((ticks 5 (set_led_state LED_WAKE v c)).current_state = LED_IDLE ∧
        all_pixels COLOR_BLACK (ticks 5 (set_led_state LED_WAKE v c)).pixel_buffer ∧
        (ticks 5 (set_led_state LED_WAKE v c)).main_timer = none ∧
        elapsed 5 (set_led_state LED_WAKE v c) = 12800) := by
  have h0 : same_display (set_led_state LED_WAKE v c) wake_ref :=
    set_led_state_same_display LED_WAKE v 0 c idle_after_init
      ⟨by decide, by decide, by decide⟩ hcur (by decide) hopen (by decide)
  have hne : (set_led_state LED_WAKE v c).current_state ≠ LED_INIT := by
    rw [set_led_state_current_state LED_WAKE v c (Or.inl hcur)]
    decide
  have hs : ∀ n, (ticks n (set_led_state LED_WAKE v c)).current_state =
      (ticks n wake_ref).current_state :=
    fun n => (ticks_same_display n _ _ h0 hne).1
  have hd : ∀ n, (ticks n (set_led_state LED_WAKE v c)).state_data =
      (ticks n wake_ref).state_data :=
    fun n => (ticks_same_display n _ _ h0 hne).2.1
  have ht : ∀ n, (ticks n (set_led_state LED_WAKE v c)).main_timer =
      (ticks n wake_ref).main_timer :=
    fun n => (ticks_same_display n _ _ h0 hne).2.2.1
  have hb : ∀ n, (ticks n (set_led_state LED_WAKE v c)).pixel_buffer =
      (ticks n wake_ref).pixel_buffer :=
    fun n => (ticks_same_display n _ _ h0 hne).2.2.2.1
  have he : ∀ n, elapsed n (set_led_state LED_WAKE v c) = elapsed n wake_ref :=
    fun n => elapsed_same_display n _ _ h0 hne
  have hb0 := hb 0
  have ht0 := ht 0
  simp only [ticks] at hb0 ht0
  simp only [hs, hd, ht, hb, he, hb0, ht0]
  obtain ⟨r0, r1, r2, r3, r4, r5⟩ := wake_ref_run
  exact ⟨r0, r1, r2, r3, ⟨r4.1, r4.2.1, r4.2.2.1, by decide!, r4.2.2.2⟩, r5⟩

theorem C9_wake_cycle_witness :
    dialog_ref.current_state ≠ LED_INIT ∧ dialog_ref.tdd_driver_initialized = true ∧
      (ticks 4 (set_led_state LED_WAKE 0 dialog_ref)).main_timer = some 12000 ∧
      (ticks 5 (set_led_state LED_WAKE 0 dialog_ref)).current_state = LED_IDLE ∧
      elapsed 5 (set_led_state LED_WAKE 0 dialog_ref) = 12800 :=
  have h := C9_wake_cycle dialog_ref 0 (by decide) (by decide)
  ⟨by decide, by decide, h.2.2.2.2.1.2.2.2.2, h.2.2.2.2.2.1, h.2.2.2.2.2.2.2.2⟩

/-! ### LED_STANDBY -/

theorem ticks_add (a b : Nat) (c : LedController) : ticks (a + b) c = ticks a (ticks b c) := by
  induction a with
  | zero => simp [ticks]
  | succ a ih =>
    rw [Nat.succ_add]
    show timer_expire (ticks (a + b) c) = timer_expire (ticks a (ticks b c))
    rw [ih]

theorem standby_ref_period : ticks 12 standby_ref = standby_ref := by
  decide!

theorem standby_ref_mod (n : Nat) : ticks n standby_ref = ticks (n % 12) standby_ref := by
  induction n using Nat.strong_induction_on with
  | _ n ih =>
    by_cases hn : n < 12
    · rw [Nat.mod_eq_of_lt hn]
    · have hge : 12 ≤ n := by omega
      have hsplit : n = (n - 12) + 12 := by omega
      have hmod : n % 12 = (n - 12) % 12 := by omega
      rw [hmod, ← ih (n - 12) (by omega)]
      conv => lhs; rw [hsplit]
      rw [ticks_add, standby_ref_period]

theorem standby_ref_run :
    ∀ r, r < 12 →
      (ticks r standby_ref).current_state = LED_STANDBY ∧
        (ticks r standby_ref).main_timer = some 250 ∧
        only_green_at (LED_ORDER.getD r 0) (ticks r standby_ref).pixel_buffer ∧
        count_pixels COLOR_GREEN (ticks r standby_ref).pixel_buffer = 1 := by
  decide!

/-- C10: for every `n`, after a non-deferred `set_led_state LED_STANDBY v` (pixel
driver initialised) followed by `n` timer expiries, the current state is
`LED_STANDBY`, the timer is armed for 250 ms, and exactly one of the twelve pixels
is green, namely physical pixel `LED_ORDER[n mod 12]`, all others being black; the
lit index runs 8, 7, 6, 5, 4, 3, 2, 1, 0, 11, 10, 9 and repeats with period 12. -/
theorem C10_standby_chase (c : LedController) (v n : Nat)
    (hcur : c.current_state ≠ LED_INIT) (hopen : c.tdd_driver_initialized = true) :
    (ticks n (set_led_state LED_STANDBY v c)).current_state = LED_STANDBY ∧
      (ticks n (set_led_state LED_STANDBY v c)).main_timer = some 250 ∧
      only_green_at (LED_ORDER.getD (n % 12) 0)
        (ticks n (set_led_state LED_STANDBY v c)).pixel_buffer ∧
      count_pixels COLOR_GREEN (ticks n (set_led_state LED_STANDBY v c)).pixel_buffer = 1 ∧
      (List.range 12).map (fun m => LED_ORDER.getD (m % 12) 0) =
        [8, 7, 6, 5, 4, 3, 2, 1, 0, 11, 10, 9] ∧
      LED_ORDER.getD ((n + 12) % 12) 0 = LED_ORDER.getD (n % 12) 0 := by
  have h0 : same_display (set_led_state LED_STANDBY v c) standby_ref :=
    set_led_state_same_display LED_STANDBY v 0 c idle_after_init
      ⟨by decide, by decide, by decide⟩ hcur (by decide) hopen (by decide)
  have hne : (set_led_state LED_STANDBY v c).current_state ≠ LED_INIT := by
    rw [set_led_state_current_state LED_STANDBY v c (Or.inl hcur)]
    decide
  obtain ⟨hs, _, ht, hb, _⟩ := ticks_same_display n _ _ h0 hne
  rw [hs, ht, hb, standby_ref_mod n]
  obtain ⟨r1, r2, r3, r4⟩ := standby_ref_run (n % 12) (Nat.mod_lt n (by decide))
  refine ⟨r1, r2, r3, r4, by decide, ?_⟩
  rw [Nat.add_mod_right]

theorem C10_standby_chase_witness :
    idle_after_init.current_state ≠ LED_INIT ∧
      idle_after_init.tdd_driver_initialized = true ∧
      (ticks 1000 (set_led_state LED_STANDBY 0 idle_after_init)).current_state =
        LED_STANDBY ∧
      only_green_at (LED_ORDER.getD (1000 % 12) 0)
        (ticks 1000 (set_led_state LED_STANDBY 0 idle_after_init)).pixel_buffer :=
  have h := C10_standby_chase idle_after_init 0 1000 (by decide) (by decide)
  ⟨by decide, by decide, h.1, h.2.2.1⟩

/-! ### The breathing table -/

theorem breath_table_length : BREATH_BRIGHTNESS_TABLE.length = 256 := by
  decide!

theorem breath_table_rise_step :
    ∀ i, i < 100 →
      BREATH_BRIGHTNESS_TABLE.getD i 0 ≤ BREATH_BRIGHTNESS_TABLE.getD (i + 1) 0 := by
  decide!

theorem breath_table_fall_step :
    ∀ i, i < 255 → 155 ≤ i →
      BREATH_BRIGHTNESS_TABLE.getD (i + 1) 0 ≤ BREATH_BRIGHTNESS_TABLE.getD i 0 := by
  decide!

theorem breath_table_rise :
    ∀ j, j ≤ 100 → ∀ i, i ≤ j →
      BREATH_BRIGHTNESS_TABLE.getD i 0 ≤ BREATH_BRIGHTNESS_TABLE.getD j 0 := by
  intro j
  induction j with
  | zero =>
    intro _ i hi
    have : i = 0 := by omega
    rw [this]
  | succ j ih =>
    intro hj i hi
    by_cases hij : i = j + 1
    · rw [hij]
    · exact Nat.le_trans (ih (by omega) i (by omega)) (breath_table_rise_step j (by omega))

theorem breath_table_fall :
    ∀ j, j ≤ 255 → ∀ i, i ≤ j → 155 ≤ i →
      BREATH_BRIGHTNESS_TABLE.getD j 0 ≤ BREATH_BRIGHTNESS_TABLE.getD i 0 := by
  intro j
  induction j with
  | zero =>
    intro _ i hi h155
    omega
  | succ j ih =>
    intro hj i hi h155
    by_cases hij : i = j + 1
    · rw [hij]
    · exact Nat.le_trans (breath_table_fall_step j (by omega) (by omega))
        (ih (by omega) i (by omega) h155)

theorem breath_table_peak :
    ∀ i, i < 256 →
      BREATH_BRIGHTNESS_TABLE.getD i 0 ≤ 255 ∧
        (BREATH_BRIGHTNESS_TABLE.getD i 0 = 255 ↔ 101 ≤ i ∧ i ≤ 154) := by
  decide!

/-- C17 (as stated, refuted): the table entry at index 100, the lower end of the
claimed plateau, is 254 and not 255; so is the entry at index 155, its upper end. -/
theorem C17_plateau_ends_are_254 :
    ¬ (∀ i, 100 ≤ i → i ≤ 155 → BREATH_BRIGHTNESS_TABLE.getD i 0 = 255) ∧
      BREATH_BRIGHTNESS_TABLE.getD 100 0 = 254 ∧
      BREATH_BRIGHTNESS_TABLE.getD 155 0 = 254 := by
  refine ⟨fun h => ?_, by decide, by decide⟩
  have h100 := h 100 (by decide) (by decide)
  revert h100
  decide

/-- C17 (amended): `BREATH_BRIGHTNESS_TABLE[i] = 255` for every index `i` with
`101 ≤ i ≤ 154`, and these are the only indices of the table holding 255. -/
theorem C17_plateau_101_to_154 (i : Nat) (hlo : 101 ≤ i) (hhi : i ≤ 154) :
    BREATH_BRIGHTNESS_TABLE.getD i 0 = 255 ∧
      ∀ j, j < 256 → BREATH_BRIGHTNESS_TABLE.getD j 0 = 255 → 101 ≤ j ∧ j ≤ 154 := by
  refine ⟨((breath_table_peak i (by omega)).2).mpr ⟨hlo, hhi⟩, fun j hj h => ?_⟩
  exact ((breath_table_peak j hj).2).mp h

theorem C17_plateau_witness :
    101 ≤ 128 ∧ 128 ≤ 154 ∧ BREATH_BRIGHTNESS_TABLE.getD 128 0 = 255 :=
  ⟨by decide, by decide, (C17_plateau_101_to_154 128 (by decide) (by decide)).1⟩

theorem breath_table_up_step :
    ∀ i, i < 154 →
      BREATH_BRIGHTNESS_TABLE.getD i 0 ≤ BREATH_BRIGHTNESS_TABLE.getD (i + 1) 0 := by
  decide!

theorem breath_table_down_step :
    ∀ i, i < 255 → 101 ≤ i →
      BREATH_BRIGHTNESS_TABLE.getD (i + 1) 0 ≤ BREATH_BRIGHTNESS_TABLE.getD i 0 := by
  decide!

theorem breath_table_up :
    ∀ j, j ≤ 154 → ∀ i, i ≤ j →
      BREATH_BRIGHTNESS_TABLE.getD i 0 ≤ BREATH_BRIGHTNESS_TABLE.getD j 0 := by
  intro j
  induction j with
  | zero =>
    intro _ i hi
    have : i = 0 := by omega
    rw [this]
  | succ j ih =>
    intro hj i hi
    by_cases hij : i = j + 1
    · rw [hij]
    · exact Nat.le_trans (ih (by omega) i (by omega)) (breath_table_up_step j (by omega))

theorem breath_table_down :
    ∀ j, j ≤ 255 → ∀ i, i ≤ j → 101 ≤ i →
      BREATH_BRIGHTNESS_TABLE.getD j 0 ≤ BREATH_BRIGHTNESS_TABLE.getD i 0 := by
  intro j
  induction j with
  | zero =>
    intro _ i hi h101
    omega
  | succ j ih =>
    intro hj i hi h101
    by_cases hij : i = j + 1
    · rw [hij]
    · exact Nat.le_trans (breath_table_down_step j (by omega) (by omega))
        (ih (by omega) i (by omega) h101)

theorem breath_table_strict_ends :
    (∀ i, i ≤ 100 → BREATH_BRIGHTNESS_TABLE.getD i 0 < 255) ∧
      (∀ i, 155 ≤ i → i < 256 → BREATH_BRIGHTNESS_TABLE.getD i 0 < 255) ∧
      BREATH_BRIGHTNESS_TABLE.getD 0 0 = 0 ∧ BREATH_BRIGHTNESS_TABLE.getD 255 0 = 0 := by
  decide!

/-- C18: the table has exactly 256 entries, is monotone non-decreasing on the
indices 0..100 and monotone non-increasing on the indices 155..255, and its
maximum value 255 is attained, and only at indices inside `[100..155]`.  The curve
is unimodal, rise then fall: it is non-decreasing from index 0 all the way to
index 154 and non-increasing from index 101 all the way to index 255, it holds 255
on the whole of 101..154 between the two slopes, stays below 255 on both slopes and
starts and ends at 0; so every index `p` of 101..154 is a peak with the table
non-decreasing up to `p` and non-increasing from `p` on. -/
theorem C18_breath_table_shape :
    BREATH_BRIGHTNESS_TABLE.length = 256 ∧
      (∀ i j, i ≤ j → j ≤ 100 →
        BREATH_BRIGHTNESS_TABLE.getD i 0 ≤ BREATH_BRIGHTNESS_TABLE.getD j 0) ∧
      (∀ i j, 155 ≤ i → i ≤ j → j ≤ 255 →
        BREATH_BRIGHTNESS_TABLE.getD j 0 ≤ BREATH_BRIGHTNESS_TABLE.getD i 0) ∧
      (∀ i, i < 256 → BREATH_BRIGHTNESS_TABLE.getD i 0 ≤ 255) ∧
      (∃ i, i < 256 ∧ BREATH_BRIGHTNESS_TABLE.getD i 0 = 255) ∧
      (∀ i, i < 256 → BREATH_BRIGHTNESS_TABLE.getD i 0 = 255 → 100 ≤ i ∧ i ≤ 155) ∧
      (∀ i j, i ≤ j → j ≤ 154 →
        BREATH_BRIGHTNESS_TABLE.getD i 0 ≤ BREATH_BRIGHTNESS_TABLE.getD j 0) ∧
      (∀ i j, 101 ≤ i → i ≤ j → j ≤ 255 →
        BREATH_BRIGHTNESS_TABLE.getD j 0 ≤ BREATH_BRIGHTNESS_TABLE.getD i 0) ∧
      (∀ i, 101 ≤ i → i ≤ 154 → BREATH_BRIGHTNESS_TABLE.getD i 0 = 255) ∧
      ((∀ i, i ≤ 100 → BREATH_BRIGHTNESS_TABLE.getD i 0 < 255) ∧
        (∀ i, 155 ≤ i → i < 256 → BREATH_BRIGHTNESS_TABLE.getD i 0 < 255) ∧
        BREATH_BRIGHTNESS_TABLE.getD 0 0 = 0 ∧ BREATH_BRIGHTNESS_TABLE.getD 255 0 = 0) ∧
      (∀ p, 101 ≤ p → p ≤ 154 →
        BREATH_BRIGHTNESS_TABLE.getD p 0 = 255 ∧
        (∀ i j, i ≤ j → j ≤ p →
          BREATH_BRIGHTNESS_TABLE.getD i 0 ≤ BREATH_BRIGHTNESS_TABLE.getD j 0) ∧
        (∀ i j, p ≤ i → i ≤ j → j ≤ 255 →
          BREATH_BRIGHTNESS_TABLE.getD j 0 ≤ BREATH_BRIGHTNESS_TABLE.getD i 0)) := by
  refine ⟨breath_table_length, ?_, ?_, ?_, ⟨128, by decide, by decide⟩, ?_, ?_, ?_, ?_,
    breath_table_strict_ends, ?_⟩
  · intro i j hij hj
    exact breath_table_rise j hj i hij
  · intro i j hi hij hj
    exact breath_table_fall j hj i hij hi
  · intro i hi
    exact (breath_table_peak i hi).1
  · intro i hi h
    have := ((breath_table_peak i hi).2).mp h
    omega
  · intro i j hij hj
    exact breath_table_up j hj i hij
  · intro i j hi hij hj
    exact breath_table_down j hj i hij hi
  · intro i hlo hhi
    exact ((breath_table_peak i (by omega)).2).mpr ⟨hlo, hhi⟩
  · intro p hlo hhi
    refine ⟨((breath_table_peak p (by omega)).2).mpr ⟨hlo, hhi⟩, ?_, ?_⟩
    · intro i j hij hj
      exact breath_table_up j (by omega) i hij
    · intro i j hi hij hj
      exact breath_table_down j hj i hij (by omega)

theorem C18_breath_table_shape_witness :
    (3 ≤ 50 ∧ 50 ≤ 100 ∧
        BREATH_BRIGHTNESS_TABLE.getD 3 0 ≤ BREATH_BRIGHTNESS_TABLE.getD 50 0) ∧
      (155 ≤ 160 ∧ 160 ≤ 250 ∧ 250 ≤ 255 ∧
        BREATH_BRIGHTNESS_TABLE.getD 250 0 ≤ BREATH_BRIGHTNESS_TABLE.getD 160 0) ∧
      (128 < 256 ∧ BREATH_BRIGHTNESS_TABLE.getD 128 0 = 255 ∧ 100 ≤ 128 ∧ 128 ≤ 155) ∧
      (90 ≤ 120 ∧ 120 ≤ 154 ∧
        BREATH_BRIGHTNESS_TABLE.getD 90 0 ≤ BREATH_BRIGHTNESS_TABLE.getD 120 0) ∧
      (101 ≤ 120 ∧ 120 ≤ 200 ∧ 200 ≤ 255 ∧
        BREATH_BRIGHTNESS_TABLE.getD 200 0 ≤ BREATH_BRIGHTNESS_TABLE.getD 120 0) ∧
      BREATH_BRIGHTNESS_TABLE.getD 120 0 = 255 :=
  have h := C18_breath_table_shape
  ⟨⟨by decide, by decide, h.2.1 3 50 (by decide) (by decide)⟩,
    ⟨by decide, by decide, by decide,
      h.2.2.1 160 250 (by decide) (by decide) (by decide)⟩,
    ⟨by decide, by decide, h.2.2.2.2.2.1 128 (by decide) (by decide)⟩,
    ⟨by decide, by decide, h.2.2.2.2.2.2.1 90 120 (by decide) (by decide)⟩,
    ⟨by decide, by decide, by decide,
      h.2.2.2.2.2.2.2.1 120 200 (by decide) (by decide) (by decide)⟩,
    h.2.2.2.2.2.2.2.2.1 120 (by decide) (by decide)⟩

/-! ### LED_BREATHING -/

theorem breathing_tick (c : LedController) (hcur : c.current_state = LED_BREATHING)
    (hopen : c.tdd_driver_initialized = true) :
    timer_expire c =
      { c with state_data :=
                 { c.state_data with breath_index := (c.state_data.breath_index + 1) % 256 },
               main_timer := some BREATH_TIMER_INTERVAL,
               pixel_buffer := fill_buf 0 0
                 (BREATH_BRIGHTNESS_TABLE.getD ((c.state_data.breath_index + 1) % 256) 0) } := by
  have hlt : ¬ ((c.state_data.breath_index + 1) % 256 ≥ BREATH_TABLE_SIZE) := by
    have := Nat.mod_lt (c.state_data.breath_index + 1) (by decide : 256 > 0)
    simp only [BREATH_TABLE_SIZE]
    omega
  simp only [timer_expire, main_timer_cb, hcur, hlt, if_false, tdd_pixel_set_all_lift,
    tdd_pixel_refresh_snd, tal_sw_timer_start, hopen, set_all_buf_open]

theorem breathing_entry (c : LedController) (v : Nat) (hcur : c.current_state ≠ LED_INIT) :
    set_led_state LED_BREATHING v c =
      { c with current_state := LED_BREATHING, state_data := StateData.zero,
               main_timer := some BREATH_TIMER_INTERVAL } := by
  simp [set_led_state, hcur, cleanup_current_state, tal_sw_timer_stop, tal_sw_timer_start,
    StateData.zero]

theorem breathing_run (c : LedController) (v : Nat) (hcur : c.current_state ≠ LED_INIT)
    (hopen : c.tdd_driver_initialized = true) (n : Nat) :
    (ticks n (set_led_state LED_BREATHING v c)).current_state = LED_BREATHING ∧
      (ticks n (set_led_state LED_BREATHING v c)).state_data.breath_index = n % 256 ∧
      (ticks n (set_led_state LED_BREATHING v c)).main_timer = some BREATH_TIMER_INTERVAL ∧
      (ticks n (set_led_state LED_BREATHING v c)).tdd_driver_initialized = true ∧
      (1 ≤ n → (ticks n (set_led_state LED_BREATHING v c)).pixel_buffer =
        fill_buf 0 0 (BREATH_BRIGHTNESS_TABLE.getD (n % 256) 0)) := by
  induction n with
  | zero =>
    rw [breathing_entry c v hcur]
    exact ⟨rfl, rfl, rfl, hopen, fun h => absurd h (by decide)⟩
  | succ n ih =>
    obtain ⟨h1, h2, h3, h4, _⟩ := ih
    show (timer_expire _).current_state = _ ∧ (timer_expire _).state_data.breath_index = _ ∧
      (timer_expire _).main_timer = _ ∧ (timer_expire _).tdd_driver_initialized = _ ∧
      (_ → (timer_expire _).pixel_buffer = _)
    rw [breathing_tick _ h1 h4, h2]
    have hm : (n % 256 + 1) % 256 = (n + 1) % 256 := by omega
    simp only [hm]
    exact ⟨h1, trivial, trivial, h4, fun _ => trivial⟩

/-- C11: for every `n ≥ 1`, after a non-deferred `set_led_state LED_BREATHING v`
(pixel driver initialised) followed by `n` timer expiries, the 8-bit index equals
`n mod 256`, every pixel is `(R = 0, G = 0, B = BREATH_BRIGHTNESS_TABLE[n mod 256])`,
the current state is still `LED_BREATHING` and the timer is armed for 10 ms; index
255 is visited and is followed by index 0, and the index read is always below the
256 entries of the table. -/
theorem C11_breathing_index_wraps (c : LedController) (v n : Nat)
    (hcur : c.current_state ≠ LED_INIT) (hopen : c.tdd_driver_initialized = true)
    (hn : 1 ≤ n) :
    (ticks n (set_led_state LED_BREATHING v c)).state_data.breath_index = n % 256 ∧
      all_pixels { r := 0, g := 0, b := BREATH_BRIGHTNESS_TABLE.getD (n % 256) 0 }
        (ticks n (set_led_state LED_BREATHING v c)).pixel_buffer ∧
      (ticks n (set_led_state LED_BREATHING v c)).current_state = LED_BREATHING ∧
      (ticks n (set_led_state LED_BREATHING v c)).main_timer = some 10 ∧
      ((ticks 255 (set_led_state LED_BREATHING v c)).state_data.breath_index = 255 ∧
        (ticks 256 (set_led_state LED_BREATHING v c)).state_data.breath_index = 0) ∧
      (ticks n (set_led_state LED_BREATHING v c)).state_data.breath_index <
        BREATH_BRIGHTNESS_TABLE.length := by
  obtain ⟨h1, h2, h3, _, h5⟩ := breathing_run c v hcur hopen n
  refine ⟨h2, ?_, h1, h3, ⟨?_, ?_⟩, ?_⟩
  · rw [h5 hn]
    exact all_pixels_fill { r := 0, g := 0, b := BREATH_BRIGHTNESS_TABLE.getD (n % 256) 0 }
  · exact (breathing_run c v hcur hopen 255).2.1
  · exact (breathing_run c v hcur hopen 256).2.1
  · rw [h2, breath_table_length]
    exact Nat.mod_lt n (by decide)

theorem C11_breathing_index_witness :
    idle_after_init.current_state ≠ LED_INIT ∧
      idle_after_init.tdd_driver_initialized = true ∧ 1 ≤ 300 ∧
      (ticks 300 (set_led_state LED_BREATHING 0 idle_after_init)).state_data.breath_index =
        300 % 256 ∧
      all_pixels { r := 0, g := 0, b := BREATH_BRIGHTNESS_TABLE.getD (300 % 256) 0 }
        (ticks 300 (set_led_state LED_BREATHING 0 idle_after_init)).pixel_buffer :=
  have h := C11_breathing_index_wraps idle_after_init 0 300 (by decide) (by decide)
    (by decide)
  ⟨by decide, by decide, by decide, h.1, h.2.1⟩

/-! ### LED_VOLUME -/

theorem set_level_buf_shown (color : RGBColor) (level : Nat) (buf : PixelBuffer) :
    level_shown color (min level WS2812_LED_COUNT) (set_level_buf true color level buf) := by
  have hmin : (if level > WS2812_LED_COUNT then WS2812_LED_COUNT else level) =
      min level WS2812_LED_COUNT := by
    split <;> omega
  have hfold : set_level_buf true color level buf =
      (List.range WS2812_LED_COUNT).foldl
        (fun (b : PixelBuffer) i =>
          b.put (LED_ORDER.getD i 0)
            (if i < min level WS2812_LED_COUNT then color.r else COLOR_BLACK.r)
            (if i < min level WS2812_LED_COUNT then color.g else COLOR_BLACK.g)
            (if i < min level WS2812_LED_COUNT then color.b else COLOR_BLACK.b))
        buf := by
    unfold set_level_buf
    simp only [hmin]
    apply List.foldl_ext
    intro b i _
    split <;> exact guarded_put_open _ _ _ _ b (order_lt i)
  rw [hfold]
  exact put_level color _ (Nat.min_le_right _ _) buf

theorem volume_entry (c : LedController) (v : Nat) (hcur : c.current_state ≠ LED_INIT) :
    set_led_state LED_VOLUME v c =
      { c with current_state := LED_VOLUME, state_data := StateData.zero,
               main_timer := some VOLUME_DISPLAY_TIMEOUT,
               pixel_buffer :=
                 set_level_buf c.tdd_driver_initialized COLOR_YELLOW v c.pixel_buffer } := by
  simp [set_led_state, hcur, cleanup_current_state, tal_sw_timer_stop, tal_sw_timer_start,
    set_level_leds_lift]

theorem set_level_buf_clamp (ini : Bool) (color : RGBColor) (level : Nat)
    (buf : PixelBuffer) (h : 12 ≤ level) :
    set_level_buf ini color level buf = set_level_buf ini color 12 buf := by
  have h1 : (if level > WS2812_LED_COUNT then WS2812_LED_COUNT else level) = 12 := by
    show (if level > 12 then 12 else level) = 12
    split <;> omega
  have h2 : (if 12 > WS2812_LED_COUNT then WS2812_LED_COUNT else 12) = 12 := by
    decide
  unfold set_level_buf
  simp only [h1, h2]

theorem volume_tick (c : LedController) (hcur : c.current_state = LED_VOLUME)
    (hopen : c.tdd_driver_initialized = true) :
    timer_expire c =
      { c with current_state := LED_IDLE, main_timer := none,
               pixel_buffer := fill_buf 0 0 0 } := by
  simp [timer_expire, main_timer_cb, hcur, set_all_leds_open, hopen, COLOR_BLACK]

/-- C12: for every value `v`, a non-deferred `set_led_state LED_VOLUME v` (pixel
driver initialised) leaves exactly `min v 12` pixels yellow `(255, 255, 0)`, at the
physical positions `LED_ORDER[0 .. min v 12 - 1]`, every other pixel black, and the
timer armed for 2000 ms; every `v ≥ 12` gives the same controller as `v = 12`; the
next timer expiry sets `LED_IDLE` with all pixels black and no timer armed. -/
theorem C12_volume_display (c : LedController) (v : Nat)
    (hcur : c.current_state ≠ LED_INIT) (hopen : c.tdd_driver_initialized = true) :
    (set_led_state LED_VOLUME v c).current_state = LED_VOLUME ∧
      level_shown COLOR_YELLOW (min v 12) (set_led_state LED_VOLUME v c).pixel_buffer ∧
      count_pixels COLOR_YELLOW (set_led_state LED_VOLUME v c).pixel_buffer = min v 12 ∧
      COLOR_YELLOW = { r := 255, g := 255, b := 0 } ∧
      (set_led_state LED_VOLUME v c).main_timer = some 2000 ∧
      (12 ≤ v → set_led_state LED_VOLUME v c = set_led_state LED_VOLUME 12 c) ∧
      (ticks 1 (set_led_state LED_VOLUME v c)).current_state = LED_IDLE ∧
      all_pixels COLOR_BLACK (ticks 1 (set_led_state LED_VOLUME v c)).pixel_buffer ∧
      (ticks 1 (set_led_state LED_VOLUME v c)).main_timer = none := by
  have hshown : level_shown COLOR_YELLOW (min v 12)
      (set_led_state LED_VOLUME v c).pixel_buffer := by
    rw [volume_entry c v hcur, hopen]
    exact set_level_buf_shown COLOR_YELLOW v c.pixel_buffer
  have htick : ticks 1 (set_led_state LED_VOLUME v c) =
      { set_led_state LED_VOLUME v c with
        current_state := LED_IDLE, main_timer := none, pixel_buffer := fill_buf 0 0 0 } := by
    show timer_expire (set_led_state LED_VOLUME v c) = _
    apply volume_tick
    · rw [volume_entry c v hcur]
    · rw [volume_entry c v hcur]
      exact hopen
  refine ⟨?_, hshown, ?_, rfl, ?_, ?_, ?_, ?_, ?_⟩
  · rw [volume_entry c v hcur]
  · exact level_shown_count COLOR_YELLOW (by decide) _ (Nat.min_le_right _ _) _ hshown
  · rw [volume_entry c v hcur]
    rfl
  · intro hv
    rw [volume_entry c v hcur, volume_entry c 12 hcur, set_level_buf_clamp _ _ v _ hv]
  · rw [htick]
  · rw [htick]
    exact all_pixels_fill COLOR_BLACK
  · rw [htick]

theorem C12_volume_display_witness :
    idle_after_init.current_state ≠ LED_INIT ∧
      idle_after_init.tdd_driver_initialized = true ∧
      count_pixels COLOR_YELLOW (set_led_state LED_VOLUME 200 idle_after_init).pixel_buffer =
        min 200 12 ∧
      (12 ≤ 200 →
        set_led_state LED_VOLUME 200 idle_after_init =
          set_led_state LED_VOLUME 12 idle_after_init) ∧
      (ticks 1 (set_led_state LED_VOLUME 200 idle_after_init)).current_state = LED_IDLE :=
  have h := C12_volume_display idle_after_init 200 (by decide) (by decide)
  ⟨by decide, by decide, h.2.2.1, h.2.2.2.2.2.1, h.2.2.2.2.2.2.1⟩

/-! ### LED_CONFIGURING -/

theorem ticks_period (c : LedController) (k : Nat) (hk : 0 < k) (h : ticks k c = c)
    (n : Nat) : ticks n c = ticks (n % k) c := by
  induction n using Nat.strong_induction_on with
  | _ n ih =>
    by_cases hn : n < k
    · rw [Nat.mod_eq_of_lt hn]
    · have hsplit : n = (n - k) + k := by omega
      have hmod : n % k = (n - k) % k := by
        conv => lhs; rw [hsplit]
        exact Nat.add_mod_right _ _
      rw [hmod, ← ih (n - k) (by omega)]
      conv => lhs; rw [hsplit]
      rw [ticks_add, h]

theorem configuring_ref_period : ticks 2 configuring_ref = configuring_ref := by
  decide!

theorem configuring_ref_run :
    ∀ r, r < 2 →
      (ticks r configuring_ref).current_state = LED_CONFIGURING ∧
        (ticks r configuring_ref).main_timer = some 250 ∧
        (r = 0 → all_pixels COLOR_GREEN (ticks r configuring_ref).pixel_buffer) ∧
        (r = 1 → all_pixels COLOR_BLACK (ticks r configuring_ref).pixel_buffer) := by
  decide!

/-- C13: `LED_CONFIGURING` never ends by itself: for every `n`, after a
non-deferred `set_led_state LED_CONFIGURING v` (pixel driver initialised) followed
by `n` timer expiries, the current state is still `LED_CONFIGURING`, the timer is
armed for 250 ms, and the ring is all green when `n` is even and all black when `n`
is odd. -/
theorem C13_configuring_never_ends (c : LedController) (v n : Nat)
    (hcur : c.current_state ≠ LED_INIT) (hopen : c.tdd_driver_initialized = true) :
    (ticks n (set_led_state LED_CONFIGURING v c)).current_state = LED_CONFIGURING ∧
      (ticks n (set_led_state LED_CONFIGURING v c)).main_timer = some 250 ∧
      (n % 2 = 0 →
        all_pixels COLOR_GREEN (ticks n (set_led_state LED_CONFIGURING v c)).pixel_buffer) ∧
      (n % 2 = 1 →
        all_pixels COLOR_BLACK (ticks n (set_led_state LED_CONFIGURING v c)).pixel_buffer) := by
  have h0 : same_display (set_led_state LED_CONFIGURING v c) configuring_ref :=
    set_led_state_same_display LED_CONFIGURING v 0 c idle_after_init
      ⟨by decide, by decide, by decide⟩ hcur (by decide) hopen (by decide)
  have hne : (set_led_state LED_CONFIGURING v c).current_state ≠ LED_INIT := by
    rw [set_led_state_current_state LED_CONFIGURING v c (Or.inl hcur)]
    decide
  obtain ⟨hs, _, ht, hb, _⟩ := ticks_same_display n _ _ h0 hne
  rw [hs, ht, hb, ticks_period configuring_ref 2 (by decide) configuring_ref_period n]
  obtain ⟨r1, r2, r3, r4⟩ := configuring_ref_run (n % 2) (Nat.mod_lt n (by decide))
  exact ⟨r1, r2, r3, r4⟩

theorem C13_configuring_witness :
    idle_after_init.current_state ≠ LED_INIT ∧
      idle_after_init.tdd_driver_initialized = true ∧
      (ticks 1001 (set_led_state LED_CONFIGURING 0 idle_after_init)).current_state =
        LED_CONFIGURING ∧
      (1001 % 2 = 1 →
        all_pixels COLOR_BLACK
          (ticks 1001 (set_led_state LED_CONFIGURING 0 idle_after_init)).pixel_buffer) :=
  have h := C13_configuring_never_ends idle_after_init 0 1001 (by decide) (by decide)
  ⟨by decide, by decide, h.1, h.2.2.2⟩

/-! ### Failed initialisation -/

/-- C16 (as stated, refuted): after a `led_controller_init` at power-on whose driver
registration fails, the current state is `LED_INIT`, the value left by the
`memset`, and not `LED_IDLE`. -/
theorem C16_failed_init_is_not_idle :
    (tdd_pixel_init OPRT_COM_ERROR OPRT_OK power_on).1 ≠ OPRT_OK ∧
      failed_init.current_state = LED_INIT ∧
      ¬ (failed_init.current_state = LED_IDLE ∧ failed_init.main_timer = none) := by
  decide

/-- C16 (amended): if registering or opening the pixel sink fails inside
`led_controller_init`, then on return the current state is `LED_INIT` (the zero
value of the enum, left by the `memset`), the pending slot is empty and no timer
is armed. -/
theorem C16_failed_init_leaves_init_unarmed (reg_ret open_ret : OPERATE_RET)
    (c0 : LedController) (h0 : c0.tdd_driver_initialized = false)
    (hfail : reg_ret ≠ OPRT_OK ∨ open_ret ≠ OPRT_OK) :
    (tdd_pixel_init reg_ret open_ret c0).1 ≠ OPRT_OK ∧
      (led_controller_init reg_ret open_ret c0).current_state = LED_INIT ∧
      (led_controller_init reg_ret open_ret c0).has_pending_state = false ∧
      (led_controller_init reg_ret open_ret c0).main_timer = none ∧
      (led_controller_init reg_ret open_ret c0).tdd_driver_initialized = false := by
  by_cases h1 : reg_ret = OPRT_OK
  · have h2 : open_ret ≠ OPRT_OK := by
      rcases hfail with h | h
      · exact absurd h1 h
      · exact h
    simp [led_controller_init, tdd_pixel_init, h0, h1, h2]
  · simp [led_controller_init, tdd_pixel_init, h0, h1]

theorem C16_failed_init_witness :
    power_on.tdd_driver_initialized = false ∧
      (OPRT_OK ≠ OPRT_OK ∨ OPRT_COM_ERROR ≠ OPRT_OK) ∧
      (led_controller_init OPRT_OK OPRT_COM_ERROR power_on).current_state = LED_INIT ∧
      (led_controller_init OPRT_OK OPRT_COM_ERROR power_on).main_timer = none :=
  have h := C16_failed_init_leaves_init_unarmed OPRT_OK OPRT_COM_ERROR power_on
    (by decide) (by decide)
  ⟨by decide, by decide, h.2.1, h.2.2.2.1⟩

/-! ### Self-test with a deferred request -/

theorem init_tick_pending (c : LedController) (hcur : c.current_state = LED_INIT)
    (hstep : c.state_data.init_step = 2) (hpend : c.has_pending_state = true) :
    timer_expire c =
      set_led_state c.pending_state c.pending_value
        { c with current_state := LED_IDLE, has_pending_state := false } := by
  have h := set_led_state_run c.pending_state c.pending_value
    { c with current_state := LED_IDLE, has_pending_state := false }
    (Or.inl (by simp)) none
    { c.state_data with init_step := (c.state_data.init_step + 1) % 256 }
  rw [← h]
  simp [timer_expire, main_timer_cb, hcur, hstep, hpend]

theorem net_error_entry (c : LedController) (v : Nat) (hcur : c.current_state ≠ LED_INIT)
    (hopen : c.tdd_driver_initialized = true) :
    set_led_state LED_NET_ERROR v c =
      { c with current_state := LED_NET_ERROR, state_data := StateData.zero,
               main_timer := none, pixel_buffer := fill_buf 255 0 0 } := by
  simp [set_led_state, hcur, cleanup_current_state, tal_sw_timer_stop, set_all_leds_open,
    hopen, COLOR_RED]

/-- C19 (as stated, refuted): after a successful `led_controller_init` at power-on
followed by `set_led_state LED_NET_ERROR 0` in the red phase, the frame buffer is
all red right after the deferred call but all green, not red, after the timer
expiry at 1000 ms. -/
theorem C19_buffer_is_green_at_1000ms :
    all_pixels COLOR_RED (set_led_state LED_NET_ERROR 0 after_init).pixel_buffer ∧
      elapsed 1 (set_led_state LED_NET_ERROR 0 after_init) = 1000 ∧
      all_pixels COLOR_GREEN (ticks 1 (set_led_state LED_NET_ERROR 0 after_init)).pixel_buffer ∧
      ¬ all_pixels COLOR_RED (ticks 1 (set_led_state LED_NET_ERROR 0 after_init)).pixel_buffer := by
  decide

/-- C19 (amended): after a successful `led_controller_init` followed by
`set_led_state LED_NET_ERROR 0` in the red phase, the self-test runs on: the frame
buffer is all red right after the deferred call, all green after the timer expiry
at 1000 ms and all blue after the one at 2000 ms, the current state being
`LED_INIT` throughout; the expiry at 3000 ms consumes the request: the current
state is `LED_NET_ERROR`, the buffer all red, the slot empty and no timer armed. -/
theorem C19_self_test_runs_on_then_net_error (reg_ret open_ret : OPERATE_RET)
    (c0 : LedController) (hok : (tdd_pixel_init reg_ret open_ret c0).1 = OPRT_OK) :
    ((set_led_state LED_NET_ERROR 0
          (led_controller_init reg_ret open_ret c0)).current_state = LED_INIT ∧
        all_pixels COLOR_RED (set_led_state LED_NET_ERROR 0
          (led_controller_init reg_ret open_ret c0)).pixel_buffer) ∧
      ((ticks 1 (set_led_state LED_NET_ERROR 0
          (led_controller_init reg_ret open_ret c0))).current_state = LED_INIT ∧
        all_pixels COLOR_GREEN (ticks 1 (set_led_state LED_NET_ERROR 0
          (led_controller_init reg_ret open_ret c0))).pixel_buffer ∧
        elapsed 1 (set_led_state LED_NET_ERROR 0
          (led_controller_init reg_ret open_ret c0)) = 1000) ∧
      ((ticks 2 (set_led_state LED_NET_ERROR 0
          (led_controller_init reg_ret open_ret c0))).current_state = LED_INIT ∧
        all_pixels COLOR_BLUE (ticks 2 (set_led_state LED_NET_ERROR 0
          (led_controller_init reg_ret open_ret c0))).pixel_buffer ∧
        elapsed 2 (set_led_state LED_NET_ERROR 0
          (led_controller_init reg_ret open_ret c0)) = 2000) ∧
      ((ticks 3 (set_led_state LED_NET_ERROR 0
          (led_controller_init reg_ret open_ret c0))).current_state = LED_NET_ERROR ∧
        all_pixels COLOR_RED (ticks 3 (set_led_state LED_NET_ERROR 0
          (led_controller_init reg_ret open_ret c0))).pixel_buffer ∧
        (ticks 3 (set_led_state LED_NET_ERROR 0
          (led_controller_init reg_ret open_ret c0))).has_pending_state = false ∧
        (ticks 3 (set_led_state LED_NET_ERROR 0
          (led_controller_init reg_ret open_ret c0))).main_timer = none ∧
        elapsed 3 (set_led_state LED_NET_ERROR 0
          (led_controller_init reg_ret open_ret c0)) = 3000) := by
  rw [led_controller_init_ok reg_ret open_ret c0 hok]
  generalize (tdd_pixel_init reg_ret open_ret c0).2.tdd_pixel_handle = hdl
  have hd : set_led_state LED_NET_ERROR 0
      { current_state := LED_INIT, pending_state := LED_INIT, pending_value := 0,
        has_pending_state := false, state_data := StateData.zero,
        main_timer := some INIT_RED_TIME, tdd_pixel_handle := hdl,
        pixel_buffer := fill_buf 255 0 0, tdd_driver_initialized := true } =
      { current_state := LED_INIT, pending_state := LED_NET_ERROR, pending_value := 0,
        has_pending_state := true, state_data := StateData.zero,
        main_timer := some INIT_RED_TIME, tdd_pixel_handle := hdl,
        pixel_buffer := fill_buf 255 0 0, tdd_driver_initialized := true } := by
    simp [set_led_state]
  rw [hd]
  have h1 := init_tick_green
    { current_state := LED_INIT, pending_state := LED_NET_ERROR, pending_value := 0,
      has_pending_state := true, state_data := StateData.zero,
      main_timer := some INIT_RED_TIME, tdd_pixel_handle := hdl,
      pixel_buffer := fill_buf 255 0 0, tdd_driver_initialized := true } rfl rfl rfl
  have h2 := init_tick_blue
    { current_state := LED_INIT, pending_state := LED_NET_ERROR, pending_value := 0,
      has_pending_state := true, state_data := { StateData.zero with init_step := 1 },
      main_timer := some INIT_GREEN_TIME, tdd_pixel_handle := hdl,
      pixel_buffer := fill_buf 0 255 0, tdd_driver_initialized := true } rfl rfl rfl
  have h3 := init_tick_pending
    { current_state := LED_INIT, pending_state := LED_NET_ERROR, pending_value := 0,
      has_pending_state := true, state_data := { StateData.zero with init_step := 2 },
      main_timer := some INIT_BLUE_TIME, tdd_pixel_handle := hdl,
      pixel_buffer := fill_buf 0 0 255, tdd_driver_initialized := true } rfl rfl rfl
  rw [net_error_entry _ _ (by simp) rfl] at h3
  simp only [elapsed, ticks, armed_ms]
  rw [h1, h2, h3]
  refine ⟨⟨?_, all_pixels_fill COLOR_RED⟩, ⟨?_, all_pixels_fill COLOR_GREEN, ?_⟩,
    ⟨?_, all_pixels_fill COLOR_BLUE, ?_⟩, ⟨?_, all_pixels_fill COLOR_RED, ?_, ?_, ?_⟩⟩
  all_goals trivial

theorem C19_self_test_runs_on_witness :
    (tdd_pixel_init OPRT_OK OPRT_OK power_on).1 = OPRT_OK ∧
      all_pixels COLOR_GREEN (ticks 1 (set_led_state LED_NET_ERROR 0
        (led_controller_init OPRT_OK OPRT_OK power_on))).pixel_buffer ∧
      (ticks 3 (set_led_state LED_NET_ERROR 0
        (led_controller_init OPRT_OK OPRT_OK power_on))).current_state = LED_NET_ERROR :=
  have h := C19_self_test_runs_on_then_net_error OPRT_OK OPRT_OK power_on (by decide)
  ⟨by decide, h.2.1.2.1, h.2.2.2.1⟩

/-! ### The timer is armed exactly in the animated states -/

theorem set_led_state_armed (s : LedState) (v : Nat) (c : LedController)
    (h : c.current_state ≠ LED_INIT ∨ s = LED_INIT) :
    armed_iff_animated (set_led_state s v c) := by
  have hnd : ¬ (c.current_state = LED_INIT ∧ s ≠ LED_INIT) := by
    rintro ⟨h1, h2⟩
    rcases h with h | h
    · exact h h1
    · exact h2 h
  unfold armed_iff_animated set_led_state
  rw [if_neg hnd]
  cases s <;>
    simp [cleanup_current_state, tal_sw_timer_stop, tal_sw_timer_start, tdd_pixel_refresh_snd]
  repeat' split
  all_goals simp

theorem timer_expire_armed (c : LedController) : armed_iff_animated (timer_expire c) := by
  cases hc : c.current_state
  case LED_INIT =>
    unfold timer_expire main_timer_cb
    simp only [hc]
    split
    · simp [armed_iff_animated, tal_sw_timer_start, hc]
    · split
      · simp [armed_iff_animated, tal_sw_timer_start, hc]
      · split
        · exact set_led_state_armed _ _ _ (Or.inl (by simp))
        · simp [armed_iff_animated]
  all_goals
    unfold armed_iff_animated timer_expire main_timer_cb
    simp only [hc, tal_sw_timer_start, tdd_pixel_refresh_snd]
  all_goals repeat' split
  all_goals simp [hc]

/-- C20: in every controller state reachable from a successful
`led_controller_init` by `set_led_state` calls and timer expiries (the timer
service succeeding, an expiry happening only while the timer is armed and
consuming that arming), the one-shot timer is armed if and only if the current
state is neither `LED_IDLE` nor `LED_NET_ERROR`. -/
theorem C20_timer_armed_iff_animated (c : LedController) (hlive : Live c) :
    c.main_timer ≠ none ↔ (c.current_state ≠ LED_IDLE ∧ c.current_state ≠ LED_NET_ERROR) := by
  show armed_iff_animated c
  induction hlive with
  | init reg_ret open_ret c0 hok =>
    rw [led_controller_init_ok reg_ret open_ret c0 hok]
    simp [armed_iff_animated]
  | @set s v c _ ih =>
    by_cases hd : c.current_state = LED_INIT ∧ s ≠ LED_INIT
    · have heq : set_led_state s v c =
          { c with pending_state := s, pending_value := v, has_pending_state := true } := by
        simp [set_led_state, hd]
      rw [heq]
      exact ih
    · apply set_led_state_armed
      by_cases h1 : c.current_state = LED_INIT
      · right
        by_contra h2
        exact hd ⟨h1, h2⟩
      · exact Or.inl h1
  | @tick c _ _ _ => exact timer_expire_armed c

theorem C20_timer_armed_witness :
    Live (ticks 1 (set_led_state LED_WAKE 0 idle_after_init)) ∧
      ((ticks 1 (set_led_state LED_WAKE 0 idle_after_init)).main_timer ≠ none ↔
        ((ticks 1 (set_led_state LED_WAKE 0 idle_after_init)).current_state ≠ LED_IDLE ∧
          (ticks 1 (set_led_state LED_WAKE 0 idle_after_init)).current_state ≠
            LED_NET_ERROR)) :=
  have h0 : Live after_init := Live.init OPRT_OK OPRT_OK power_on (by decide)
  have h1 : Live (ticks 1 after_init) := Live.tick h0 (by decide)
  have h2 : Live (ticks 2 after_init) := Live.tick h1 (by decide)
  have h3 : Live idle_after_init := Live.tick h2 (by decide)
  have h4 : Live (set_led_state LED_WAKE 0 idle_after_init) := Live.set LED_WAKE 0 h3
  have h5 : Live (ticks 1 (set_led_state LED_WAKE 0 idle_after_init)) :=
    Live.tick h4 (by decide)
  ⟨h5, C20_timer_armed_iff_animated _ h5⟩

/-! ### History independence and idempotence of `set_led_state` -/

theorem PixelBuffer.read_eq_getElem (buf : PixelBuffer) (n : Nat)
    (h : n < buf.val.length) : buf.read n = buf.val[n] := by
  unfold PixelBuffer.read
  rw [List.getD_eq_getElem _ _ h]

theorem pixels_ext (b1 b2 : PixelBuffer)
    (h : ∀ p, p < WS2812_LED_COUNT → pixel_at b1 p = pixel_at b2 p) : b1 = b2 := by
  apply Subtype.ext
  apply List.ext_getElem
  · rw [b1.property, b2.property]
  · intro n h1 h2
    rw [← PixelBuffer.read_eq_getElem b1 n h1, ← PixelBuffer.read_eq_getElem b2 n h2]
    have hn : n < 36 := by
      have := b1.property
      simp only [WS2812_LED_COUNT] at this
      omega
    have hp := h (n / 3) (by simp only [WS2812_LED_COUNT]; omega)
    simp only [pixel_at, RGBColor.mk.injEq, Nat.add_zero] at hp
    obtain ⟨hr, hg, hb⟩ := hp
    have hcases : n % 3 = 0 ∨ n % 3 = 1 ∨ n % 3 = 2 := by omega
    rcases hcases with h0 | h0 | h0
    · have e : n = n / 3 * 3 := by omega
      rw [e]; exact hg
    · have e : n = n / 3 * 3 + 1 := by omega
      rw [e]; exact hr
    · have e : n = n / 3 * 3 + 2 := by omega
      rw [e]; exact hb

theorem set_level_buf_indep (color : RGBColor) (level : Nat) (b1 b2 : PixelBuffer) :
    set_level_buf true color level b1 = set_level_buf true color level b2 := by
  apply pixels_ext
  intro p hp
  rw [set_level_buf_shown color level b1 p hp, set_level_buf_shown color level b2 p hp]

theorem ctrl_ext (a b : LedController)
    (h1 : a.current_state = b.current_state) (h2 : a.pending_state = b.pending_state)
    (h3 : a.pending_value = b.pending_value)
    (h4 : a.has_pending_state = b.has_pending_state) (h5 : a.state_data = b.state_data)
    (h6 : a.main_timer = b.main_timer) (h7 : a.tdd_pixel_handle = b.tdd_pixel_handle)
    (h8 : a.pixel_buffer = b.pixel_buffer)
    (h9 : a.tdd_driver_initialized = b.tdd_driver_initialized) : a = b := by
  cases a
  cases b
  simp_all

theorem set_led_state_entry (s : LedState) (v : Nat) (c : LedController)
    (h : c.current_state ≠ LED_INIT ∨ s = LED_INIT) :
    set_led_state s v c =
      { c with current_state := s, state_data := entry_scratch s v,
               main_timer := entry_timer s v,
               pixel_buffer := entry_frame s v c.tdd_driver_initialized c.pixel_buffer } := by
  have hnd : ¬ (c.current_state = LED_INIT ∧ s ≠ LED_INIT) := by
    rintro ⟨h1, h2⟩
    rcases h with h | h
    · exact h h1
    · exact h2 h
  have hmin : (if v > WS2812_LED_COUNT then WS2812_LED_COUNT else v) = min v 12 := by
    show (if v > 12 then 12 else v) = min v 12
    split <;> omega
  unfold set_led_state
  rw [if_neg hnd]
  cases s
  case LED_CONFIG_SUCCESS =>
    simp only [hmin, cleanup_current_state, tal_sw_timer_stop, tal_sw_timer_start,
      set_level_leds_lift, entry_scratch, entry_timer, entry_frame]
    by_cases hz : min v 12 = 0
    · simp [hz, StateData.zero, CONFIG_SUCCESS_HOLD_TIME]
    · simp [hz, StateData.zero, CONFIG_SUCCESS_STEP_INTERVAL]
  all_goals
    simp [cleanup_current_state, tal_sw_timer_stop, tal_sw_timer_start, set_all_leds_lift,
      set_level_leds_lift, tdd_pixel_set_all_lift, tdd_pixel_set_pixel_lift,
      tdd_pixel_refresh_snd, entry_scratch, entry_timer, entry_frame, StateData.zero,
      COLOR_RED, COLOR_GREEN, COLOR_BLUE, COLOR_BLACK, INIT_RED_TIME,
      CONFIGURING_BLINK_ON_TIME, DIALOG_LIGHT_ON_TIME, VOLUME_DISPLAY_TIMEOUT,
      BREATH_TIMER_INTERVAL, WAKE_BLINK_INTERVAL, STANDBY_STEP_INTERVAL, LED_ORDER]

theorem set_led_state_entry_open (s : LedState) (v : Nat) (c : LedController)
    (h : c.current_state ≠ LED_INIT ∨ s = LED_INIT)
    (hopen : c.tdd_driver_initialized = true) :
    set_led_state s v c =
      { c with current_state := s, state_data := entry_scratch s v,
               main_timer := entry_timer s v,
               pixel_buffer := entry_frame s v true c.pixel_buffer } := by
  rw [set_led_state_entry s v c h]
  simp only [hopen]

theorem entry_frame_indep (s : LedState) (v : Nat) (b1 b2 : PixelBuffer)
    (hs : s ≠ LED_BREATHING) :
    entry_frame s v true b1 = entry_frame s v true b2 := by
  cases s
  case LED_BREATHING => exact absurd rfl hs
  case LED_CONFIG_SUCCESS =>
    simp only [entry_frame]
    exact set_level_buf_indep _ _ b1 b2
  case LED_VOLUME =>
    simp only [entry_frame]
    exact set_level_buf_indep _ _ b1 b2
  all_goals simp only [entry_frame, set_all_buf_open]

theorem entry_frame_idem (s : LedState) (v : Nat) (buf : PixelBuffer) :
    entry_frame s v true (entry_frame s v true buf) = entry_frame s v true buf := by
  by_cases hs : s = LED_BREATHING
  · rw [hs]
    simp only [entry_frame]
  · exact entry_frame_indep s v _ _ hs

/-- C14: for any two controllers `c1` and `c2` with the pixel driver initialised and
a current state other than `LED_INIT`, and every `s` and `v`, `set_led_state s v`
gives results that agree on the current state (`= s`), on every scratch field and on
the armed timer interval, and, for every `s` other than `LED_BREATHING`, on the whole
frame buffer: each result is the controller with the timer stopped, the scratch
zeroed and the entry action of `(s, v)` applied, whatever state is replaced. -/
theorem C14_set_state_history_independent (c1 c2 : LedController) (s : LedState) (v : Nat)
    (hcur1 : c1.current_state ≠ LED_INIT) (hcur2 : c2.current_state ≠ LED_INIT)
    (hopen1 : c1.tdd_driver_initialized = true) (hopen2 : c2.tdd_driver_initialized = true) :
    ((set_led_state s v c1).current_state = s ∧ (set_led_state s v c2).current_state = s) ∧
      (set_led_state s v c1).state_data = (set_led_state s v c2).state_data ∧
      (set_led_state s v c1).main_timer = (set_led_state s v c2).main_timer ∧
      (s ≠ LED_BREATHING →
        (set_led_state s v c1).pixel_buffer = (set_led_state s v c2).pixel_buffer) ∧
      (set_led_state s v c1 = set_led_state s v (cleanup_current_state c1) ∧
        set_led_state s v c1 =
          { c1 with current_state := s, state_data := entry_scratch s v,
                    main_timer := entry_timer s v,
                    pixel_buffer := entry_frame s v true c1.pixel_buffer }) := by
  have e1 := set_led_state_entry_open s v c1 (Or.inl hcur1) hopen1
  have e2 := set_led_state_entry_open s v c2 (Or.inl hcur2) hopen2
  refine ⟨⟨?_, ?_⟩, ?_, ?_, ?_, ?_, e1⟩
  · rw [e1]
  · rw [e2]
  · rw [e1, e2]
  · rw [e1, e2]
  · intro hs
    rw [e1, e2]
    exact entry_frame_indep s v _ _ hs
  · exact (set_led_state_run s v c1 (Or.inl hcur1) none StateData.zero).symm

theorem C14_history_independent_witness :
    (idle_after_init.current_state ≠ LED_INIT ∧ dialog_ref.current_state ≠ LED_INIT ∧
        idle_after_init.tdd_driver_initialized = true ∧
        dialog_ref.tdd_driver_initialized = true) ∧
      (set_led_state LED_VOLUME 5 idle_after_init).state_data =
        (set_led_state LED_VOLUME 5 dialog_ref).state_data ∧
      (LED_VOLUME ≠ LED_BREATHING →
        (set_led_state LED_VOLUME 5 idle_after_init).pixel_buffer =
          (set_led_state LED_VOLUME 5 dialog_ref).pixel_buffer) :=
  have h := C14_set_state_history_independent idle_after_init dialog_ref LED_VOLUME 5
    (by decide) (by decide) (by decide) (by decide)
  ⟨⟨by decide, by decide, by decide, by decide⟩, h.2.1, h.2.2.2.1⟩

/-- C15: for every controller state with the pixel driver initialised, every `s`
and every `v`, two successive `set_led_state s v` calls with no timer expiry in
between leave the same controller (current state, pending slot, scratch, armed
timer, frame buffer) as one call; for `s = LED_IDLE` from a state other than
`LED_INIT` that controller has all 36 buffer cells zero. -/
theorem C15_set_state_idempotent (c : LedController) (s : LedState) (v : Nat)
    (hopen : c.tdd_driver_initialized = true) :
    set_led_state s v (set_led_state s v c) = set_led_state s v c ∧
      (s = LED_IDLE → c.current_state ≠ LED_INIT →
        (set_led_state s v c).pixel_buffer.val = List.replicate 36 0) := by
  constructor
  · by_cases hd : c.current_state = LED_INIT ∧ s ≠ LED_INIT
    · have heq : set_led_state s v c =
          { c with pending_state := s, pending_value := v, has_pending_state := true } := by
        simp [set_led_state, hd]
      rw [heq]
      simp [set_led_state, hd]
    · have hnd : c.current_state ≠ LED_INIT ∨ s = LED_INIT := by
        by_cases h1 : c.current_state = LED_INIT
        · right
          by_contra h2
          exact hd ⟨h1, h2⟩
        · exact Or.inl h1
      have e1 := set_led_state_entry_open s v c hnd hopen
      have hnd2 : (set_led_state s v c).current_state ≠ LED_INIT ∨ s = LED_INIT := by
        rw [e1]
        by_cases hs : s = LED_INIT
        · exact Or.inr hs
        · exact Or.inl hs
      have hopen2 : (set_led_state s v c).tdd_driver_initialized = true := by
        rw [e1]
        exact hopen
      have e2 := set_led_state_entry_open s v (set_led_state s v c) hnd2 hopen2
      rw [e2, e1]
      simp only [entry_frame_idem]
  · intro hs hcur
    rw [set_led_state_entry_open s v c (Or.inl hcur) hopen, hs]
    simp only [entry_frame, set_all_buf_open]
    rfl

theorem C15_set_state_idempotent_witness :
    dialog_ref.tdd_driver_initialized = true ∧
      set_led_state LED_STANDBY 3 (set_led_state LED_STANDBY 3 dialog_ref) =
        set_led_state LED_STANDBY 3 dialog_ref ∧
      after_init.tdd_driver_initialized = true ∧
      set_led_state LED_VOLUME 3 (set_led_state LED_VOLUME 3 after_init) =
        set_led_state LED_VOLUME 3 after_init :=
  ⟨by decide, (C15_set_state_idempotent dialog_ref LED_STANDBY 3 (by decide)).1,
    by decide, (C15_set_state_idempotent after_init LED_VOLUME 3 (by decide)).1⟩

/-! ### `set_level_leds` and `tdd_pixel_set_pixel` -/

theorem order_mem_take_iff (n p : Nat) (hn : n ≤ 12) (hp : p < WS2812_LED_COUNT) :
    p ∈ LED_ORDER.take n ↔ ∃ i, i < n ∧ LED_ORDER.getD i 0 = p := by
  obtain ⟨i0, hi0, hpi⟩ := order_onto p hp
  constructor
  · intro hmem
    rw [← hpi] at hmem
    exact ⟨i0, (order_mem_take n hn i0 hi0).mp hmem, hpi⟩
  · rintro ⟨i, hi, hpi2⟩
    rw [← hpi2]
    exact (order_mem_take n hn i (by simp only [WS2812_LED_COUNT]; omega)).mpr hi

theorem order_perm : LED_ORDER.Perm (List.range 12) := by
  decide

/-- C21: for every colour, every level `L` and every prior buffer content, with the
pixel driver initialised, after `set_level_leds color L` physical pixel `p` holds
the colour if `p = LED_ORDER[i]` for some `i < min L 12` and black otherwise;
`LED_ORDER = [8,7,6,5,4,3,2,1,0,11,10,9]` is a permutation of `0..11`, so all twelve
pixels are overwritten (the resulting buffer does not depend on the prior one,
nothing but the buffer changes) and, for a colour other than black, exactly
`min L 12` pixels hold it. -/
theorem C21_set_level_leds_display (color : RGBColor) (L : Nat) (c : LedController)
    (hopen : c.tdd_driver_initialized = true) :
    (∀ p, p < 12 →
        ((∃ i, i < min L 12 ∧ LED_ORDER.getD i 0 = p) →
          pixel_at (set_level_leds color L c).pixel_buffer p = color) ∧
        ((¬ ∃ i, i < min L 12 ∧ LED_ORDER.getD i 0 = p) →
          pixel_at (set_level_leds color L c).pixel_buffer p = COLOR_BLACK)) ∧
      (LED_ORDER = [8, 7, 6, 5, 4, 3, 2, 1, 0, 11, 10, 9] ∧
        LED_ORDER.Perm (List.range 12)) ∧
      (∀ c2 : LedController, c2.tdd_driver_initialized = true →
        (set_level_leds color L c2).pixel_buffer = (set_level_leds color L c).pixel_buffer) ∧
      set_level_leds color L c =
        { c with pixel_buffer := (set_level_leds color L c).pixel_buffer } ∧
      (color ≠ COLOR_BLACK →
        count_pixels color (set_level_leds color L c).pixel_buffer = min L 12) := by
  have hshown := set_level_leds_open color L c hopen
  refine ⟨fun p hp => ⟨fun hex => ?_, fun hnex => ?_⟩, ⟨rfl, order_perm⟩, fun c2 h2 => ?_,
    ?_, fun hcol => ?_⟩
  · rw [hshown p hp, if_pos ((order_mem_take_iff _ p (Nat.min_le_right _ _) hp).mpr hex)]
  · have hnot : ¬ p ∈ LED_ORDER.take (min L WS2812_LED_COUNT) := fun hmem =>
      hnex ((order_mem_take_iff _ p (Nat.min_le_right _ _) hp).mp hmem)
    rw [hshown p hp, if_neg hnot]
  · rw [set_level_leds_lift, set_level_leds_lift, hopen, h2]
    exact set_level_buf_indep color L _ _
  · rw [set_level_leds_lift]
  · exact level_shown_count color hcol _ (Nat.min_le_right _ _) _ hshown

theorem C21_set_level_leds_witness :
    dialog_ref.tdd_driver_initialized = true ∧
      count_pixels COLOR_YELLOW (set_level_leds COLOR_YELLOW 200 dialog_ref).pixel_buffer =
        min 200 12 ∧
      pixel_at (set_level_leds COLOR_YELLOW 3 dialog_ref).pixel_buffer 6 = COLOR_YELLOW ∧
      pixel_at (set_level_leds COLOR_YELLOW 3 dialog_ref).pixel_buffer 5 = COLOR_BLACK :=
  ⟨by decide,
    (C21_set_level_leds_display COLOR_YELLOW 200 dialog_ref (by decide)).2.2.2.2 (by decide),
    ((C21_set_level_leds_display COLOR_YELLOW 3 dialog_ref (by decide)).1 6 (by decide)).1
      ⟨2, by decide, by decide⟩,
    ((C21_set_level_leds_display COLOR_YELLOW 3 dialog_ref (by decide)).1 5 (by decide)).2
      (by decide)⟩

/-- C22: for every index `i` and bytes `r`, `g`, `b`: if the pixel driver is
initialised and `i < 12`, `tdd_pixel_set_pixel` returns `OPRT_OK`, sets
`buffer[3i] = g`, `buffer[3i+1] = r`, `buffer[3i+2] = b` and leaves the other 33
cells unchanged; otherwise (`i ≥ 12` or driver not initialised) it returns
`OPRT_INVALID_PARM` and leaves the statics, all 36 cells included, unchanged; the
buffer keeps its 36 cells, every cell stays at most 255, and nothing but the buffer
is changed. -/
theorem C22_tdd_pixel_set_pixel (i r g b : Nat) (c : LedController)
    (hr : r ≤ 255) (hg : g ≤ 255) (hb : b ≤ 255) :
    ((c.tdd_driver_initialized = true ∧ i < 12) →
        (tdd_pixel_set_pixel i r g b c).1 = OPRT_OK ∧
        (tdd_pixel_set_pixel i r g b c).2.pixel_buffer.read (3 * i) = g ∧
        (tdd_pixel_set_pixel i r g b c).2.pixel_buffer.read (3 * i + 1) = r ∧
        (tdd_pixel_set_pixel i r g b c).2.pixel_buffer.read (3 * i + 2) = b ∧
        ∀ j, j ≠ 3 * i → j ≠ 3 * i + 1 → j ≠ 3 * i + 2 →
          (tdd_pixel_set_pixel i r g b c).2.pixel_buffer.read j = c.pixel_buffer.read j) ∧
      (¬ (c.tdd_driver_initialized = true ∧ i < 12) →
        (tdd_pixel_set_pixel i r g b c).1 = OPRT_INVALID_PARM ∧
        (tdd_pixel_set_pixel i r g b c).2 = c) ∧
      (tdd_pixel_set_pixel i r g b c).2.pixel_buffer.val.length = 36 ∧
      ((∀ j, j < 36 → c.pixel_buffer.read j ≤ 255) →
        ∀ j, j < 36 → (tdd_pixel_set_pixel i r g b c).2.pixel_buffer.read j ≤ 255) ∧
      (tdd_pixel_set_pixel i r g b c).2 =
        { c with pixel_buffer := (tdd_pixel_set_pixel i r g b c).2.pixel_buffer } := by
  by_cases hok : c.tdd_driver_initialized = true ∧ i < 12
  · obtain ⟨hopen, hi⟩ := hok
    have hguard : ¬ (c.tdd_driver_initialized = false ∨ i ≥ WS2812_LED_COUNT) := by
      simp only [hopen, WS2812_LED_COUNT]
      simp
      omega
    have h0 : i * 3 < WS2812_LED_COUNT * 3 := by simp only [WS2812_LED_COUNT]; omega
    have h1 : i * 3 + 1 < WS2812_LED_COUNT * 3 := by simp only [WS2812_LED_COUNT]; omega
    have h2 : i * 3 + 2 < WS2812_LED_COUNT * 3 := by simp only [WS2812_LED_COUNT]; omega
    have hread : ∀ j, (tdd_pixel_set_pixel i r g b c).2.pixel_buffer.read j =
        if j = i * 3 + 2 then b else if j = i * 3 + 1 then r else if j = i * 3 then g
        else c.pixel_buffer.read j := by
      intro j
      unfold tdd_pixel_set_pixel
      rw [if_neg hguard]
      simp only [Nat.add_zero, PixelBuffer.read_write _ _ _ _ h0,
        PixelBuffer.read_write _ _ _ _ h1, PixelBuffer.read_write _ _ _ _ h2]
    refine ⟨fun _ => ⟨?_, ?_, ?_, ?_, ?_⟩, fun hn => absurd ⟨hopen, hi⟩ hn, ?_, ?_, ?_⟩
    · unfold tdd_pixel_set_pixel
      rw [if_neg hguard]
    · rw [hread, if_neg (by omega), if_neg (by omega), if_pos (by omega)]
    · rw [hread, if_neg (by omega), if_pos (by omega)]
    · rw [hread, if_pos (by omega)]
    · intro j j0 j1 j2
      rw [hread, if_neg (by omega), if_neg (by omega), if_neg (by omega)]
    · exact (tdd_pixel_set_pixel i r g b c).2.pixel_buffer.property
    · intro hall j hj
      rw [hread]
      split
      · exact hb
      · split
        · exact hr
        · split
          · exact hg
          · exact hall j hj
    · rw [tdd_pixel_set_pixel_lift]
  · have hguard : c.tdd_driver_initialized = false ∨ i ≥ WS2812_LED_COUNT := by
      by_cases hopen : c.tdd_driver_initialized = true
      · right
        have : ¬ i < 12 := fun h => hok ⟨hopen, h⟩
        simp only [WS2812_LED_COUNT]
        omega
      · left
        simpa using hopen
    have hres : tdd_pixel_set_pixel i r g b c = (OPRT_INVALID_PARM, c) := by
      unfold tdd_pixel_set_pixel
      rw [if_pos hguard]
    rw [hres]
    exact ⟨fun h => absurd h hok, fun _ => ⟨rfl, rfl⟩, c.pixel_buffer.property,
      fun hall => hall, rfl⟩

theorem C22_tdd_pixel_set_pixel_witness :
    (7 ≤ 255 ∧ 200 ≤ 255 ∧ 255 ≤ 255) ∧
      ((tdd_pixel_set_pixel 4 7 200 255 idle_after_init).1 = OPRT_OK ∧
        (tdd_pixel_set_pixel 4 7 200 255 idle_after_init).2.pixel_buffer.read (3 * 4) = 200) ∧
      (tdd_pixel_set_pixel 12 7 200 255 idle_after_init).1 = OPRT_INVALID_PARM ∧
      (tdd_pixel_set_pixel 4 7 200 255 power_on).2 = power_on :=
  ⟨⟨by decide, by decide, by decide⟩,
    ⟨((C22_tdd_pixel_set_pixel 4 7 200 255 idle_after_init (by decide) (by decide)
        (by decide)).1 (by decide)).1,
      ((C22_tdd_pixel_set_pixel 4 7 200 255 idle_after_init (by decide) (by decide)
        (by decide)).1 (by decide)).2.1⟩,
    ((C22_tdd_pixel_set_pixel 12 7 200 255 idle_after_init (by decide) (by decide)
      (by decide)).2.1 (by decide)).1,
    ((C22_tdd_pixel_set_pixel 4 7 200 255 power_on (by decide) (by decide)
      (by decide)).2.1 (by decide)).2⟩

/-! ### Duration of `LED_CONFIG_SUCCESS` for every value -/

theorem timer_expire_same_control (c1 c2 : LedController) (h : same_control c1 c2)
    (hcur : c2.current_state ≠ LED_INIT) :
    same_control (timer_expire c1) (timer_expire c2) := by
  obtain ⟨h1, h2, h3⟩ := h
  unfold same_control timer_expire main_timer_cb
  cases hs : c2.current_state
  case LED_INIT => exact absurd hs hcur
  all_goals
    simp only [h1, h2, hs, set_all_leds_lift, set_level_leds_lift,
      tdd_pixel_set_all_lift, tdd_pixel_set_pixel_lift, tdd_pixel_refresh_snd,
      tal_sw_timer_start]
    repeat' split
    all_goals simp

theorem ticks_same_control (n : Nat) (c1 c2 : LedController) (h : same_control c1 c2)
    (hcur : c2.current_state ≠ LED_INIT) :
    same_control (ticks n c1) (ticks n c2) := by
  induction n with
  | zero => exact h
  | succ n ih => exact timer_expire_same_control _ _ ih (ticks_ne_init n c2 hcur)

theorem elapsed_same_control (n : Nat) (c1 c2 : LedController) (h : same_control c1 c2)
    (hcur : c2.current_state ≠ LED_INIT) :
    elapsed n c1 = elapsed n c2 := by
  induction n with
  | zero => rfl
  | succ n ih =>
    show elapsed n c1 + armed_ms (ticks n c1) = elapsed n c2 + armed_ms (ticks n c2)
    rw [ih]
    unfold armed_ms
    rw [(ticks_same_control n c1 c2 h hcur).2.2]

theorem cfgsucc_same_control (c : LedController) (v : Nat)
    (hcur : c.current_state ≠ LED_INIT) :
    same_control (set_led_state LED_CONFIG_SUCCESS v c) (cfgsucc_ref (min v 12)) := by
  have hidle : idle_after_init.current_state ≠ LED_INIT := by decide
  have hmm : min (min v 12) 12 = min v 12 := by omega
  unfold cfgsucc_ref
  rw [set_led_state_entry _ v c (Or.inl hcur),
    set_led_state_entry _ (min v 12) idle_after_init (Or.inl hidle)]
  refine ⟨rfl, ?_, ?_⟩
  · simp only [entry_scratch, hmm]
  · simp only [entry_timer, hmm]

theorem cfgsucc_ref_run (k : Nat) (hk : k ≤ 12) :
    (∀ j, j < cfgsucc_step_intervals k →
        (ticks j (cfgsucc_ref k)).current_state = LED_CONFIG_SUCCESS ∧
        (ticks j (cfgsucc_ref k)).main_timer = some 200 ∧
        (ticks j (cfgsucc_ref k)).state_data.cfgsucc_hold_phase = false) ∧
      ((ticks (cfgsucc_step_intervals k) (cfgsucc_ref k)).current_state =
          LED_CONFIG_SUCCESS ∧
        (ticks (cfgsucc_step_intervals k) (cfgsucc_ref k)).main_timer = some 2000 ∧
        (ticks (cfgsucc_step_intervals k) (cfgsucc_ref k)).state_data.cfgsucc_hold_phase =
          true) ∧
      ((ticks (cfgsucc_step_intervals k + 1) (cfgsucc_ref k)).current_state = LED_IDLE ∧
        (ticks (cfgsucc_step_intervals k + 1) (cfgsucc_ref k)).main_timer = none) ∧
      elapsed (cfgsucc_step_intervals k) (cfgsucc_ref k) = 200 * cfgsucc_step_intervals k ∧
      elapsed (cfgsucc_step_intervals k + 1) (cfgsucc_ref k) =
        2000 + 200 * cfgsucc_step_intervals k := by
  interval_cases k <;> decide!

theorem cfgsucc_tick_at_target (c : LedController) (v : Nat)
    (hcur : c.current_state ≠ LED_INIT) (h1 : min v 12 = 1) :
    (ticks 1 (set_led_state LED_CONFIG_SUCCESS v c)).pixel_buffer =
      (set_led_state LED_CONFIG_SUCCESS v c).pixel_buffer := by
  rw [set_led_state_entry _ v c (Or.inl hcur)]
  simp [ticks, timer_expire, main_timer_cb, entry_scratch, h1, tal_sw_timer_start,
    StateData.zero]

/-- C23: for every value `v`, with `k = min v 12`, after a non-deferred
`set_led_state LED_CONFIG_SUCCESS v` the number `m` of 200 ms step intervals that
elapse before the 2000 ms hold interval is armed is 0 when `k = 0` (the hold phase
is already entered on return from `set_led_state`), 1 when `k = 1` (the first
expiry writes no pixel and only starts the hold) and `k - 1` when `k ≥ 2`: before
each of the first `m` expiries the timer is armed for 200 ms outside the hold
phase, after the `m`-th it is armed for 2000 ms in the hold phase, and the next
expiry enters `LED_IDLE` with no timer armed.  The time from entry to `LED_IDLE` is
2000 ms for `k = 0` and `2000 + 200 * max (k - 1) 1` ms for `k ≥ 1`, so levels 1
and 2 both take 2200 ms. -/
theorem C23_config_success_actual_duration (c : LedController) (v : Nat)
    (hcur : c.current_state ≠ LED_INIT) :
    (cfgsucc_step_intervals (min v 12) =
        (if min v 12 = 0 then 0 else if min v 12 = 1 then 1 else min v 12 - 1)) ∧
      (∀ j, j < cfgsucc_step_intervals (min v 12) →
        (ticks j (set_led_state LED_CONFIG_SUCCESS v c)).current_state =
          LED_CONFIG_SUCCESS ∧
        (ticks j (set_led_state LED_CONFIG_SUCCESS v c)).main_timer = some 200 ∧
        (ticks j (set_led_state LED_CONFIG_SUCCESS v c)).state_data.cfgsucc_hold_phase =
          false) ∧
      ((ticks (cfgsucc_step_intervals (min v 12))
          (set_led_state LED_CONFIG_SUCCESS v c)).current_state = LED_CONFIG_SUCCESS ∧
        (ticks (cfgsucc_step_intervals (min v 12))
          (set_led_state LED_CONFIG_SUCCESS v c)).main_timer = some 2000 ∧
        (ticks (cfgsucc_step_intervals (min v 12))
          (set_led_state LED_CONFIG_SUCCESS v c)).state_data.cfgsucc_hold_phase = true) ∧
      ((ticks (cfgsucc_step_intervals (min v 12) + 1)
          (set_led_state LED_CONFIG_SUCCESS v c)).current_state = LED_IDLE ∧
        (ticks (cfgsucc_step_intervals (min v 12) + 1)
          (set_led_state LED_CONFIG_SUCCESS v c)).main_timer = none) ∧
      elapsed (cfgsucc_step_intervals (min v 12)) (set_led_state LED_CONFIG_SUCCESS v c) =
        200 * cfgsucc_step_intervals (min v 12) ∧
      (min v 12 = 0 →
        (set_led_state LED_CONFIG_SUCCESS v c).state_data.cfgsucc_hold_phase = true ∧
        (set_led_state LED_CONFIG_SUCCESS v c).main_timer = some 2000 ∧
        (ticks 1 (set_led_state LED_CONFIG_SUCCESS v c)).current_state = LED_IDLE ∧
        elapsed 1 (set_led_state LED_CONFIG_SUCCESS v c) = 2000) ∧
      (1 ≤ min v 12 →
        (ticks (max (min v 12 - 1) 1 + 1)
          (set_led_state LED_CONFIG_SUCCESS v c)).current_state = LED_IDLE ∧
        elapsed (max (min v 12 - 1) 1 + 1) (set_led_state LED_CONFIG_SUCCESS v c) =
          2000 + 200 * max (min v 12 - 1) 1) ∧
      (min v 12 = 1 →
        (ticks 1 (set_led_state LED_CONFIG_SUCCESS v c)).pixel_buffer =
          (set_led_state LED_CONFIG_SUCCESS v c).pixel_buffer ∧
        elapsed 2 (set_led_state LED_CONFIG_SUCCESS v c) = 2200) ∧
      (min v 12 = 2 → elapsed 2 (set_led_state LED_CONFIG_SUCCESS v c) = 2200) := by
  have hk : min v 12 ≤ 12 := Nat.min_le_right _ _
  have hsc := cfgsucc_same_control c v hcur
  have hne : (cfgsucc_ref (min v 12)).current_state ≠ LED_INIT := by
    unfold cfgsucc_ref
    rw [set_led_state_current_state _ _ _ (Or.inl (by decide))]
    decide
  have hst : ∀ n, (ticks n (set_led_state LED_CONFIG_SUCCESS v c)).current_state =
      (ticks n (cfgsucc_ref (min v 12))).current_state := fun n =>
    (ticks_same_control n _ _ hsc hne).1
  have hsd : ∀ n, (ticks n (set_led_state LED_CONFIG_SUCCESS v c)).state_data =
      (ticks n (cfgsucc_ref (min v 12))).state_data := fun n =>
    (ticks_same_control n _ _ hsc hne).2.1
  have htm : ∀ n, (ticks n (set_led_state LED_CONFIG_SUCCESS v c)).main_timer =
      (ticks n (cfgsucc_ref (min v 12))).main_timer := fun n =>
    (ticks_same_control n _ _ hsc hne).2.2
  have hel : ∀ n, elapsed n (set_led_state LED_CONFIG_SUCCESS v c) =
      elapsed n (cfgsucc_ref (min v 12)) := fun n =>
    elapsed_same_control n _ _ hsc hne
  obtain ⟨r1, r2, r3, r4, r5⟩ := cfgsucc_ref_run (min v 12) hk
  have hm : cfgsucc_step_intervals (min v 12) =
      (if min v 12 = 0 then 0 else if min v 12 = 1 then 1 else min v 12 - 1) := by
    unfold cfgsucc_step_intervals
    split
    · rfl
    · split <;> omega
  refine ⟨hm, ?_, ?_, ?_, ?_, ?_, ?_, ?_, ?_⟩
  · intro j hj
    rw [hst, htm, hsd]
    exact r1 j hj
  · rw [hst, htm, hsd]
    exact r2
  · rw [hst, htm]
    exact r3
  · rw [hel]
    exact r4
  · intro h0
    have hm0 : cfgsucc_step_intervals (min v 12) = 0 := by rw [hm, if_pos h0]
    rw [hm0] at r2 r3 r5
    have e0 : ∀ x : LedController, ticks 0 x = x := fun _ => rfl
    rw [e0] at r2
    have s0 := hsd 0
    have t0 := htm 0
    rw [e0, e0] at s0 t0
    rw [s0, t0, hst, hel]
    exact ⟨r2.2.2, r2.2.1, r3.1, r5⟩
  · intro h1
    have hm1 : cfgsucc_step_intervals (min v 12) = max (min v 12 - 1) 1 := by
      unfold cfgsucc_step_intervals
      rw [if_neg (by omega)]
    rw [hm1] at r3 r5
    rw [hst, hel]
    exact ⟨r3.1, r5⟩
  · intro h1
    have hm1 : cfgsucc_step_intervals (min v 12) = 1 := by rw [hm, h1]; rfl
    rw [hm1] at r5
    rw [hel]
    exact ⟨cfgsucc_tick_at_target c v hcur h1, r5⟩
  · intro h2
    have hm2 : cfgsucc_step_intervals (min v 12) = 1 := by rw [hm, h2]; rfl
    rw [hm2] at r5
    rw [hel]
    exact r5

theorem C23_config_success_duration_witness :
    idle_after_init.current_state ≠ LED_INIT ∧
      elapsed 2 (set_led_state LED_CONFIG_SUCCESS 1 idle_after_init) = 2200 ∧
      elapsed 2 (set_led_state LED_CONFIG_SUCCESS 2 idle_after_init) = 2200 ∧
      elapsed 1 (set_led_state LED_CONFIG_SUCCESS 0 idle_after_init) = 2000 ∧
      elapsed (max (min 200 12 - 1) 1 + 1)
          (set_led_state LED_CONFIG_SUCCESS 200 idle_after_init) =
        2000 + 200 * max (min 200 12 - 1) 1 :=
  ⟨by decide,
    ((C23_config_success_actual_duration idle_after_init 1 (by decide)).2.2.2.2.2.2.2.1
      (by decide)).2,
    (C23_config_success_actual_duration idle_after_init 2 (by decide)).2.2.2.2.2.2.2.2
      (by decide),
    ((C23_config_success_actual_duration idle_after_init 0 (by decide)).2.2.2.2.2.1
      (by decide)).2.2.2,
    ((C23_config_success_actual_duration idle_after_init 200 (by decide)).2.2.2.2.2.2.1
      (by decide)).2⟩

/-! ### Re-entering `LED_INIT` during the self-test -/

theorem init_tick_green_lift (c : LedController) (hcur : c.current_state = LED_INIT)
    (hstep : c.state_data.init_step = 0) :
    timer_expire c =
      { c with state_data := { c.state_data with init_step := 1 },
               main_timer := some INIT_GREEN_TIME,
               pixel_buffer := set_all_buf c.tdd_driver_initialized 0 255 0 c.pixel_buffer } := by
  simp [timer_expire, main_timer_cb, hcur, hstep, set_all_leds_lift, tal_sw_timer_start,
    COLOR_GREEN]

theorem init_tick_blue_lift (c : LedController) (hcur : c.current_state = LED_INIT)
    (hstep : c.state_data.init_step = 1) :
    timer_expire c =
      { c with state_data := { c.state_data with init_step := 2 },
               main_timer := some INIT_BLUE_TIME,
               pixel_buffer := set_all_buf c.tdd_driver_initialized 0 0 255 c.pixel_buffer } := by
  simp [timer_expire, main_timer_cb, hcur, hstep, set_all_leds_lift, tal_sw_timer_start,
    COLOR_BLUE]

theorem init_restart_run (c : LedController) (hcur : c.current_state = LED_INIT)
    (hstep : c.state_data.init_step = 0) (ht : c.main_timer = some INIT_RED_TIME) :
    ((ticks 1 c).current_state = LED_INIT ∧ (ticks 1 c).main_timer = some INIT_GREEN_TIME ∧
        (ticks 1 c).state_data.init_step = 1) ∧
      ((ticks 2 c).current_state = LED_INIT ∧ (ticks 2 c).main_timer = some INIT_BLUE_TIME ∧
        (ticks 2 c).state_data.init_step = 2) ∧
      ((ticks 2 c).pending_state = c.pending_state ∧
        (ticks 2 c).pending_value = c.pending_value ∧
        (ticks 2 c).has_pending_state = c.has_pending_state) ∧
      elapsed 3 c = INIT_RED_TIME + INIT_GREEN_TIME + INIT_BLUE_TIME := by
  have e1 : ticks 1 c = timer_expire c := rfl
  have e2 : ticks 2 c = timer_expire (ticks 1 c) := rfl
  have h1 := init_tick_green_lift c hcur hstep
  rw [← e1] at h1
  have h2 := init_tick_blue_lift (ticks 1 c) (by rw [h1]; exact hcur) (by rw [h1])
  rw [← e2] at h2
  refine ⟨by rw [h1]; exact ⟨hcur, rfl, rfl⟩, ?_, ?_, ?_⟩
  · rw [h2, h1]
    exact ⟨hcur, rfl, rfl⟩
  · rw [h2, h1]
    exact ⟨rfl, rfl, rfl⟩
  · show 0 + armed_ms c + armed_ms (ticks 1 c) + armed_ms (ticks 2 c) = _
    have a2 : armed_ms (ticks 2 c) = INIT_BLUE_TIME := by rw [h2]; rfl
    have a1 : armed_ms (ticks 1 c) = INIT_GREEN_TIME := by rw [h1]; rfl
    have a0 : armed_ms c = INIT_RED_TIME := by unfold armed_ms; rw [ht]; rfl
    rw [a0, a1, a2, Nat.zero_add]

theorem timer_expire_init_driver (c : LedController) (hcur : c.current_state = LED_INIT) :
    (timer_expire c).tdd_driver_initialized = c.tdd_driver_initialized := by
  unfold timer_expire main_timer_cb
  simp only [hcur]
  split
  · simp [tal_sw_timer_start]
  · split
    · simp [tal_sw_timer_start]
    · split
      · rw [set_led_state_tdd_driver_initialized _ _ _ (Or.inl (by simp))]
      · simp

theorem live_driver_initialized (c : LedController) (hlive : Live c) :
    c.tdd_driver_initialized = true := by
  induction hlive with
  | init reg_ret open_ret c0 hok =>
    rw [led_controller_init_ok reg_ret open_ret c0 hok]
  | @set s v c1 _ ih =>
    by_cases hd : c1.current_state = LED_INIT ∧ s ≠ LED_INIT
    · unfold set_led_state
      rw [if_pos hd]
      exact ih
    · rw [set_led_state_tdd_driver_initialized s v c1 (by
        by_cases h1 : c1.current_state = LED_INIT
        · right
          by_contra h2
          exact hd ⟨h1, h2⟩
        · exact Or.inl h1)]
      exact ih
  | @tick c1 _ _ ih =>
    by_cases h1 : c1.current_state = LED_INIT
    · rw [timer_expire_init_driver c1 h1]
      exact ih
    · rw [timer_expire_tdd_driver_initialized c1 h1]
      exact ih

/-- C24: for every controller state reached after a successful
`led_controller_init` (so that the timer of `led_ctrl.main_timer` has been created
and the pixel driver is initialised) with `current_state = LED_INIT` (any step, any
content of the pending slot) and every `v`, `set_led_state LED_INIT v` is not
deferred: it restarts the self-test (all pixels red, step 0, timer armed for
1000 ms, current state `LED_INIT`) and leaves the pending slot unchanged; the
restarted self-test runs its green and blue phases with the slot untouched and,
when a request was deferred before the restart, the third expiry, 3000 ms after the
restart, executes exactly that request. -/
theorem C24_reenter_init_keeps_pending (c : LedController) (v : Nat)
    (hlive : Live c) (hcur : c.current_state = LED_INIT) :
    set_led_state LED_INIT v c =
        { c with state_data := StateData.zero, main_timer := some 1000,
                 pixel_buffer := fill_buf 255 0 0 } ∧
      ((set_led_state LED_INIT v c).current_state = LED_INIT ∧
        (set_led_state LED_INIT v c).state_data.init_step = 0 ∧
        (set_led_state LED_INIT v c).main_timer = some 1000) ∧
      ((set_led_state LED_INIT v c).pending_state = c.pending_state ∧
        (set_led_state LED_INIT v c).pending_value = c.pending_value ∧
        (set_led_state LED_INIT v c).has_pending_state = c.has_pending_state) ∧
      all_pixels COLOR_RED (set_led_state LED_INIT v c).pixel_buffer ∧
      ((ticks 1 (set_led_state LED_INIT v c)).current_state = LED_INIT ∧
        (ticks 2 (set_led_state LED_INIT v c)).current_state = LED_INIT ∧
        (ticks 2 (set_led_state LED_INIT v c)).pending_state = c.pending_state ∧
        (ticks 2 (set_led_state LED_INIT v c)).pending_value = c.pending_value ∧
        (ticks 2 (set_led_state LED_INIT v c)).has_pending_state = c.has_pending_state ∧
        elapsed 3 (set_led_state LED_INIT v c) = 3000) ∧
      (c.has_pending_state = true →
        ticks 3 (set_led_state LED_INIT v c) =
          set_led_state c.pending_state c.pending_value
            { ticks 2 (set_led_state LED_INIT v c) with
              current_state := LED_IDLE, has_pending_state := false } ∧
        (ticks 3 (set_led_state LED_INIT v c)).current_state = c.pending_state ∧
        (ticks 3 (set_led_state LED_INIT v c)).has_pending_state = false) := by
  have hopen := live_driver_initialized c hlive
  have hent := set_led_state_entry_open LED_INIT v c (Or.inr rfl) hopen
  have hform : set_led_state LED_INIT v c =
      { c with state_data := StateData.zero, main_timer := some 1000,
               pixel_buffer := fill_buf 255 0 0 } := by
    rw [hent]
    exact ctrl_ext _ _ hcur.symm rfl rfl rfl rfl rfl rfl (set_all_buf_open 255 0 0 _) rfl
  have hd1 : (set_led_state LED_INIT v c).current_state = LED_INIT := by rw [hform]; exact hcur
  have hd2 : (set_led_state LED_INIT v c).state_data.init_step = 0 := by rw [hform]; rfl
  have hd3 : (set_led_state LED_INIT v c).main_timer = some INIT_RED_TIME := by
    rw [hform]; rfl
  have hp1 : (set_led_state LED_INIT v c).pending_state = c.pending_state := by rw [hform]
  have hp2 : (set_led_state LED_INIT v c).pending_value = c.pending_value := by rw [hform]
  have hp3 : (set_led_state LED_INIT v c).has_pending_state = c.has_pending_state := by
    rw [hform]
  obtain ⟨r1, r2, r3, r4⟩ := init_restart_run (set_led_state LED_INIT v c) hd1 hd2 hd3
  refine ⟨hform, ⟨hd1, hd2, hd3⟩, ⟨hp1, hp2, hp3⟩, ?_, ?_, ?_⟩
  · rw [hform]
    exact all_pixels_fill COLOR_RED
  · exact ⟨r1.1, r2.1, r3.1.trans hp1, r3.2.1.trans hp2, r3.2.2.trans hp3, r4⟩
  · intro hpend
    have h3 := init_tick_pending (ticks 2 (set_led_state LED_INIT v c)) r2.1 r2.2.2
      (by rw [r3.2.2, hp3]; exact hpend)
    have e3 : ticks 3 (set_led_state LED_INIT v c) =
        timer_expire (ticks 2 (set_led_state LED_INIT v c)) := rfl
    have ps : (ticks 2 (set_led_state LED_INIT v c)).pending_state = c.pending_state :=
      r3.1.trans hp1
    have pv : (ticks 2 (set_led_state LED_INIT v c)).pending_value = c.pending_value :=
      r3.2.1.trans hp2
    have h3c : ticks 3 (set_led_state LED_INIT v c) =
        set_led_state c.pending_state c.pending_value
          { ticks 2 (set_led_state LED_INIT v c) with
            current_state := LED_IDLE, has_pending_state := false } := by
      rw [← ps, ← pv, e3]
      exact h3
    refine ⟨h3c, ?_, ?_⟩
    · rw [h3c]
      exact set_led_state_current_state _ _ _ (Or.inl (by simp))
    · rw [h3c, set_led_state_has_pending_state _ _ _ (Or.inl (by simp))]

theorem C24_reenter_init_witness :
    Live blue_phase_pending ∧ blue_phase_pending.current_state = LED_INIT ∧
      blue_phase_pending.has_pending_state = true ∧
      (set_led_state LED_INIT 7 blue_phase_pending).main_timer = some 1000 ∧
      (set_led_state LED_INIT 7 blue_phase_pending).pending_state =
        blue_phase_pending.pending_state ∧
      all_pixels COLOR_RED (set_led_state LED_INIT 7 blue_phase_pending).pixel_buffer ∧
      (ticks 3 (set_led_state LED_INIT 7 blue_phase_pending)).current_state =
        blue_phase_pending.pending_state :=
  have h0 : Live after_init := Live.init OPRT_OK OPRT_OK power_on (by decide)
  have h1 : Live (set_led_state LED_NET_ERROR 0 after_init) := Live.set LED_NET_ERROR 0 h0
  have h2 : Live (ticks 1 (set_led_state LED_NET_ERROR 0 after_init)) :=
    Live.tick h1 (by decide)
  have h3 : Live (ticks 2 (set_led_state LED_NET_ERROR 0 after_init)) :=
    Live.tick h2 (by decide)
  ⟨h3, by decide, by decide,
    (C24_reenter_init_keeps_pending blue_phase_pending 7 h3 (by decide)).2.1.2.2,
    (C24_reenter_init_keeps_pending blue_phase_pending 7 h3 (by decide)).2.2.1.1,
    (C24_reenter_init_keeps_pending blue_phase_pending 7 h3 (by decide)).2.2.2.1,
    ((C24_reenter_init_keeps_pending blue_phase_pending 7 h3 (by decide)).2.2.2.2.2
      (by decide)).2.1⟩

/-! ### `LED_BREATHING` entry -/

/-- C25: for every controller state with `current_state ≠ LED_INIT` and every `v`,
`set_led_state LED_BREATHING v` leaves all 36 cells of the frame buffer exactly as
they were; with the pixel driver initialised the first expiry writes brightness
`BREATH_BRIGHTNESS_TABLE[1]`, every expiry `n` with `1 ≤ n < 256` reads table index
`n`, which is not 0, and table entry 0 is first displayed at the 256th expiry. -/
theorem C25_breathing_entry_writes_no_pixel (c : LedController) (v : Nat)
    (hcur : c.current_state ≠ LED_INIT) :
    (set_led_state LED_BREATHING v c).pixel_buffer = c.pixel_buffer ∧
      (∀ j, j < 36 →
        (set_led_state LED_BREATHING v c).pixel_buffer.read j = c.pixel_buffer.read j) ∧
      (set_led_state LED_BREATHING v c).state_data.breath_index = 0 ∧
      (c.tdd_driver_initialized = true →
        (ticks 1 (set_led_state LED_BREATHING v c)).pixel_buffer =
          fill_buf 0 0 (BREATH_BRIGHTNESS_TABLE.getD 1 0) ∧
        all_pixels { r := 0, g := 0, b := BREATH_BRIGHTNESS_TABLE.getD 1 0 }
          (ticks 1 (set_led_state LED_BREATHING v c)).pixel_buffer ∧
        (∀ n, 1 ≤ n → n < 256 →
          (ticks n (set_led_state LED_BREATHING v c)).state_data.breath_index = n ∧
          (ticks n (set_led_state LED_BREATHING v c)).state_data.breath_index ≠ 0 ∧
          (ticks n (set_led_state LED_BREATHING v c)).pixel_buffer =
            fill_buf 0 0 (BREATH_BRIGHTNESS_TABLE.getD n 0)) ∧
        (ticks 256 (set_led_state LED_BREATHING v c)).state_data.breath_index = 0 ∧
        (ticks 256 (set_led_state LED_BREATHING v c)).pixel_buffer =
          fill_buf 0 0 (BREATH_BRIGHTNESS_TABLE.getD 0 0)) := by
  have hent := breathing_entry c v hcur
  refine ⟨by rw [hent], fun j _ => by rw [hent], by rw [hent]; rfl, fun hopen => ?_⟩
  have hrun := breathing_run c v hcur hopen
  refine ⟨?_, ?_, ?_, ?_, ?_⟩
  · exact (hrun 1).2.2.2.2 (Nat.le_refl 1)
  · rw [(hrun 1).2.2.2.2 (Nat.le_refl 1)]
    exact all_pixels_fill { r := 0, g := 0, b := BREATH_BRIGHTNESS_TABLE.getD 1 0 }
  · intro n h1 h256
    have hmod : n % 256 = n := Nat.mod_eq_of_lt h256
    have hi := (hrun n).2.1
    have hb := (hrun n).2.2.2.2 h1
    rw [hmod] at hi hb
    exact ⟨hi, by rw [hi]; omega, hb⟩
  · exact (hrun 256).2.1
  · exact (hrun 256).2.2.2.2 (by decide)

theorem C25_breathing_entry_witness :
    idle_after_init.current_state ≠ LED_INIT ∧
      (set_led_state LED_BREATHING 0 dialog_ref).pixel_buffer = dialog_ref.pixel_buffer ∧
      (ticks 1 (set_led_state LED_BREATHING 0 idle_after_init)).pixel_buffer =
        fill_buf 0 0 (BREATH_BRIGHTNESS_TABLE.getD 1 0) :=
  ⟨by decide,
    (C25_breathing_entry_writes_no_pixel dialog_ref 0 (by decide)).1,
    ((C25_breathing_entry_writes_no_pixel idle_after_init 0 (by decide)).2.2.2
      (by decide)).1⟩

/-! ### SPI bit encoding -/

theorem and_bit23_ne_zero (x : Nat) : (x &&& 0x800000) ≠ 0 ↔ x.testBit 23 = true := by
  have h23 : (0x800000 : Nat) = 2 ^ 23 := by norm_num
  rw [h23]
  constructor
  · intro hne
    obtain ⟨i, hi⟩ := Nat.ne_zero_implies_bit_true hne
    rw [Nat.testBit_and, Nat.testBit_two_pow] at hi
    simp only [Bool.and_eq_true, decide_eq_true_eq] at hi
    rw [hi.2]
    exact hi.1
  · intro hb hz
    have hbit : (x &&& 2 ^ 23).testBit 23 = true := by
      rw [Nat.testBit_and, Nat.testBit_two_pow, hb]
      simp
    rw [hz, Nat.zero_testBit] at hbit
    exact absurd hbit (by decide)

theorem spi_bit_test (color bit : Nat) (hbit : bit < 24) :
    ((((color <<< bit) % 2 ^ 32) &&& 0x800000) ≠ 0) ↔ color.testBit (23 - bit) = true := by
  rw [and_bit23_ne_zero, Nat.testBit_mod_two_pow, Nat.testBit_shiftLeft]
  have h1 : (23 : Nat) < 32 := by decide
  have h2 : 23 ≥ bit := by omega
  simp [h1, h2]

theorem spi_color_word (red green blue : Nat) (hr : red ≤ 255) (hg : green ≤ 255)
    (hb : blue ≤ 255) :
    ((((green <<< 16) % 2 ^ 32) ||| ((red <<< 8) % 2 ^ 32)) ||| blue) =
      green * 65536 + red * 256 + blue := by
  have hg32 : (green <<< 16) % 2 ^ 32 = 2 ^ 16 * green := by
    rw [Nat.shiftLeft_eq, Nat.mod_eq_of_lt (by omega)]
    omega
  have hr32 : (red <<< 8) % 2 ^ 32 = 2 ^ 8 * red := by
    rw [Nat.shiftLeft_eq, Nat.mod_eq_of_lt (by omega)]
    omega
  rw [hg32, hr32]
  have e1 : 2 ^ 16 * green ||| 2 ^ 8 * red = 2 ^ 16 * green + 2 ^ 8 * red :=
    (Nat.mul_add_lt_is_or (by omega : 2 ^ 8 * red < 2 ^ 16) green).symm
  have e2 : 2 ^ 16 * green + 2 ^ 8 * red = 2 ^ 8 * (2 ^ 8 * green + red) := by omega
  have e3 : 2 ^ 8 * (2 ^ 8 * green + red) ||| blue = 2 ^ 8 * (2 ^ 8 * green + red) + blue :=
    (Nat.mul_add_lt_is_or (by omega : blue < 2 ^ 8) (2 ^ 8 * green + red)).symm
  rw [e1, e2, e3]
  omega

theorem spi_fold_set (f : Nat → Nat) (base : Nat) (is : List Nat) (buf : List Nat) :
    ((is.foldl (fun b bit => b.set (base + bit) (f bit)) buf).length = buf.length) ∧
      ∀ n, (is.foldl (fun b bit => b.set (base + bit) (f bit)) buf).getD n 0 =
        if base ≤ n ∧ n - base ∈ is ∧ n < buf.length then f (n - base) else buf.getD n 0 := by
  induction is generalizing buf with
  | nil => simp
  | cons i rest ih =>
    obtain ⟨hl, hg⟩ := ih (buf.set (base + i) (f i))
    refine ⟨by rw [List.foldl_cons, hl, List.length_set], fun n => ?_⟩
    rw [List.foldl_cons, hg n, List.length_set]
    by_cases hrest : base ≤ n ∧ n - base ∈ rest ∧ n < buf.length
    · have hcons : base ≤ n ∧ n - base ∈ i :: rest ∧ n < buf.length :=
        ⟨hrest.1, List.mem_cons_of_mem _ hrest.2.1, hrest.2.2⟩
      rw [if_pos hrest, if_pos hcons]
    · rw [if_neg hrest]
      by_cases hn : n = base + i
      · subst hn
        by_cases hlt : base + i < buf.length
        · have hcons : base ≤ base + i ∧ base + i - base ∈ i :: rest ∧
              base + i < buf.length := by
            refine ⟨by omega, ?_, hlt⟩
            rw [Nat.add_sub_cancel_left]
            exact List.mem_cons_self _ _
          rw [if_pos hcons, Nat.add_sub_cancel_left]
          simp [List.getD_eq_getElem?_getD, List.getElem?_set, hlt]
        · have hcons : ¬ (base ≤ base + i ∧ base + i - base ∈ i :: rest ∧
              base + i < buf.length) := fun h => hlt h.2.2
          rw [if_neg hcons]
          have hnone : buf[base + i]? = none := List.getElem?_eq_none (by omega)
          simp [List.getD_eq_getElem?_getD, List.getElem?_set, hlt, hnone]
      · have hcons : ¬ (base ≤ n ∧ n - base ∈ i :: rest ∧ n < buf.length) := by
          rintro ⟨h1, h2, h3⟩
          rcases List.mem_cons.mp h2 with h | h
          · exact hn (by omega)
          · exact hrest ⟨h1, h, h3⟩
        rw [if_neg hcons]
        have hne : ¬ (base + i = n) := fun h => hn h.symm
        simp [List.getD_eq_getElem?_getD, List.getElem?_set, hne]

theorem word_eq_of_bits (w1 w2 : Nat) (h1 : w1 < 2 ^ 24) (h2 : w2 < 2 ^ 24)
    (h : ∀ j, j < 24 → w1.testBit (23 - j) = w2.testBit (23 - j)) : w1 = w2 := by
  apply Nat.eq_of_testBit_eq
  intro i
  by_cases hi : i < 24
  · have := h (23 - i) (by omega)
    have e : 23 - (23 - i) = i := by omega
    rwa [e] at this
  · have p : 2 ^ 24 ≤ 2 ^ i := Nat.pow_le_pow_right (by decide) (by omega)
    rw [Nat.testBit_lt_two_pow (Nat.lt_of_lt_of_le h1 p),
      Nat.testBit_lt_two_pow (Nat.lt_of_lt_of_le h2 p)]

theorem ws2812_spi_set_pixel_bytes (W0 W1 index red green blue : Nat) (buf : List Nat)
    (hlen : buf.length = WS2812_LED_COUNT * 24) (h0 : W0 ≤ 255) (h1 : W1 ≤ 255)
    (hr : red ≤ 255) (hg : green ≤ 255) (hb : blue ≤ 255) (hi : index < 12) :
    (ws2812_spi_set_pixel W0 W1 index red green blue (some buf)).1 = OPRT_OK ∧
      (∀ n, spi_byte (ws2812_spi_set_pixel W0 W1 index red green blue (some buf)).2 n =
        if n / 24 = index then
          (if (green * 65536 + red * 256 + blue).testBit (23 - n % 24) then W1 else W0)
        else buf.getD n 0) ∧
      ∃ out, (ws2812_spi_set_pixel W0 W1 index red green blue (some buf)).2 = some out ∧
        out.length = WS2812_LED_COUNT * 24 := by
  have hguard : ¬ index ≥ WS2812_LED_COUNT := by
    simp only [WS2812_LED_COUNT]
    omega
  unfold ws2812_spi_set_pixel
  simp only [if_neg hguard, spi_color_word red green blue hr hg hb]
  obtain ⟨hl, hget⟩ := spi_fold_set
    (fun bit => (if ((((green * 65536 + red * 256 + blue) <<< bit) % 2 ^ 32) &&& 0x800000) ≠ 0
      then W1 else W0) % 256) (index * 24) (List.range 24) buf
  refine ⟨trivial, fun n => ?_, ⟨_, rfl, by rw [hl, hlen]⟩⟩
  simp only [spi_byte, Option.getD_some]
  rw [hget n]
  by_cases hn : n / 24 = index
  · have hcond : index * 24 ≤ n ∧ n - index * 24 ∈ List.range 24 ∧ n < buf.length := by
      rw [hlen]
      simp only [WS2812_LED_COUNT, List.mem_range]
      omega
    have hmod : n - index * 24 = n % 24 := by omega
    have hlt : n % 24 < 24 := Nat.mod_lt _ (by decide)
    rw [if_pos hcond, if_pos hn, hmod]
    by_cases hbit : (green * 65536 + red * 256 + blue).testBit (23 - n % 24) = true
    · rw [if_pos ((spi_bit_test _ _ hlt).mpr hbit), if_pos hbit]
      exact Nat.mod_eq_of_lt (by omega)
    · rw [if_neg (fun h => hbit ((spi_bit_test _ _ hlt).mp h)), if_neg hbit]
      exact Nat.mod_eq_of_lt (by omega)
  · have hcond : ¬ (index * 24 ≤ n ∧ n - index * 24 ∈ List.range 24 ∧ n < buf.length) := by
      simp only [List.mem_range]
      omega
    rw [if_neg hcond, if_neg hn]

/-- C26: for every index below 12 (`WS2812_LED_COUNT`), with the transmit buffer
allocated (its `12 * 24` bytes) and for all bytes `red`, `green`, `blue`,
`ws2812_spi_set_pixel` returns `OPRT_OK` and for every `j` in `0..23` sets byte
`24 * index + j` to `WS2812_1` if bit `23 - j` of the 24-bit word
`green * 65536 + red * 256 + blue` is 1 and to `WS2812_0` otherwise (green, then
red, then blue, most significant bit first), leaving the bytes of every other pixel
unchanged and the buffer at its length; for `index ≥ 12` or an unallocated buffer it
returns `OPRT_INVALID_PARM` and writes nothing; consequently, when
`WS2812_1 ≠ WS2812_0`, two byte triples encoded to the same 24 bytes are equal: the
`(green, red, blue)` triple is uniquely recoverable from the encoded bytes. -/
theorem C26_spi_bit_encoding (W0 W1 index red green blue : Nat) (buf : List Nat)
    (hlen : buf.length = WS2812_LED_COUNT * 24) (h0 : W0 ≤ 255) (h1 : W1 ≤ 255)
    (hr : red ≤ 255) (hg : green ≤ 255) (hb : blue ≤ 255) :
    (index < 12 →
        (ws2812_spi_set_pixel W0 W1 index red green blue (some buf)).1 = OPRT_OK ∧
        (∀ j, j < 24 →
          spi_byte (ws2812_spi_set_pixel W0 W1 index red green blue (some buf)).2
              (24 * index + j) =
            if (green * 65536 + red * 256 + blue).testBit (23 - j) then W1 else W0) ∧
        (∀ n, n / 24 ≠ index →
          spi_byte (ws2812_spi_set_pixel W0 W1 index red green blue (some buf)).2 n =
            spi_byte (some buf) n) ∧
        (∃ out, (ws2812_spi_set_pixel W0 W1 index red green blue (some buf)).2 = some out ∧
          out.length = 12 * 24)) ∧
      (12 ≤ index →
        ws2812_spi_set_pixel W0 W1 index red green blue (some buf) =
          (OPRT_INVALID_PARM, some buf)) ∧
      ws2812_spi_set_pixel W0 W1 index red green blue none = (OPRT_INVALID_PARM, none) ∧
      (W1 ≠ W0 → index < 12 →
        ∀ red2 green2 blue2 : Nat, ∀ buf2 : List Nat,
          buf2.length = WS2812_LED_COUNT * 24 →
          red2 ≤ 255 → green2 ≤ 255 → blue2 ≤ 255 →
          (∀ j, j < 24 →
            spi_byte (ws2812_spi_set_pixel W0 W1 index red green blue (some buf)).2
                (24 * index + j) =
              spi_byte (ws2812_spi_set_pixel W0 W1 index red2 green2 blue2 (some buf2)).2
                (24 * index + j)) →
          green2 = green ∧ red2 = red ∧ blue2 = blue) := by
  have hbyte : ∀ (r g b : Nat) (bf : List Nat), bf.length = WS2812_LED_COUNT * 24 →
      r ≤ 255 → g ≤ 255 → b ≤ 255 → index < 12 → ∀ j, j < 24 →
      spi_byte (ws2812_spi_set_pixel W0 W1 index r g b (some bf)).2 (24 * index + j) =
        if (g * 65536 + r * 256 + b).testBit (23 - j) then W1 else W0 := by
    intro r g b bf hl hr2 hg2 hb2 hi j hj
    rw [(ws2812_spi_set_pixel_bytes W0 W1 index r g b bf hl h0 h1 hr2 hg2 hb2 hi).2.1,
      if_pos (by omega)]
    have hm : (24 * index + j) % 24 = j := by omega
    rw [hm]
  refine ⟨fun hi => ?_, fun hi => ?_, rfl, ?_⟩
  · obtain ⟨hret, hall, hout⟩ :=
      ws2812_spi_set_pixel_bytes W0 W1 index red green blue buf hlen h0 h1 hr hg hb hi
    refine ⟨hret, hbyte red green blue buf hlen hr hg hb hi, fun n hn => ?_, hout⟩
    rw [hall n, if_neg hn]
    rfl
  · have hguard : index ≥ WS2812_LED_COUNT := hi
    unfold ws2812_spi_set_pixel
    simp only [if_pos hguard]
  · intro hne hi red2 green2 blue2 buf2 hlen2 hr2 hg2 hb2 hsame
    have hbits : ∀ j, j < 24 →
        (green * 65536 + red * 256 + blue).testBit (23 - j) =
          (green2 * 65536 + red2 * 256 + blue2).testBit (23 - j) := by
      intro j hj
      have h := hsame j hj
      rw [hbyte red green blue buf hlen hr hg hb hi j hj,
        hbyte red2 green2 blue2 buf2 hlen2 hr2 hg2 hb2 hi j hj] at h
      by_cases ha : (green * 65536 + red * 256 + blue).testBit (23 - j) = true <;>
        by_cases hb2 : (green2 * 65536 + red2 * 256 + blue2).testBit (23 - j) = true
      · rw [ha, hb2]
      · rw [if_pos ha, if_neg hb2] at h
        exact absurd h hne
      · rw [if_neg ha, if_pos hb2] at h
        exact absurd h.symm hne
      · rw [Bool.not_eq_true] at ha hb2
        rw [ha, hb2]
    have hw := word_eq_of_bits _ _ (by omega) (by omega) hbits
    omega

theorem C26_spi_bit_encoding_witness :
    ((List.replicate 288 0).length = WS2812_LED_COUNT * 24 ∧ 192 ≤ 255 ∧ 248 ≤ 255) ∧
      (ws2812_spi_set_pixel 192 248 3 1 2 3 (some (List.replicate 288 0))).1 = OPRT_OK ∧
      spi_byte (ws2812_spi_set_pixel 192 248 3 1 2 3 (some (List.replicate 288 0))).2
          (24 * 3 + 22) = 248 ∧
      ws2812_spi_set_pixel 192 248 12 1 2 3 (some (List.replicate 288 0)) =
        (OPRT_INVALID_PARM, some (List.replicate 288 0)) :=
  ⟨⟨List.length_replicate 288 0, by decide, by decide⟩,
    ((C26_spi_bit_encoding 192 248 3 1 2 3 (List.replicate 288 0)
      (List.length_replicate 288 0) (by decide)
      (by decide) (by decide) (by decide) (by decide)).1 (by decide)).1,
    ((C26_spi_bit_encoding 192 248 3 1 2 3 (List.replicate 288 0)
      (List.length_replicate 288 0) (by decide)
      (by decide) (by decide) (by decide) (by decide)).1 (by decide)).2.1 22 (by decide),
    (C26_spi_bit_encoding 192 248 12 1 2 3 (List.replicate 288 0)
      (List.length_replicate 288 0) (by decide)
      (by decide) (by decide) (by decide) (by decide)).2.1 (by decide)⟩

end Ws2812
